import Mathlib

/-!
# AArch64 ELF relocation engine (`libs/libc/machine/arm64/arch_elf.c`)

A shallow embedding of the relocation code of `arch_elf.c`.

* C unsigned integers of width `w` are natural numbers reduced modulo `2 ^ w`;
  `int64_t` values are integers obtained with `toS64`, and the conversion back
  to `uint64_t` is `toU64`.
* The target image is a byte-addressed memory `Mem`; multi-byte accesses are
  little-endian (`CONFIG_ENDIAN_BIG` is not set for this architecture).
* A function that stores through `place` takes the memory and returns the
  new memory next to its C return value.
-/

namespace Arm64Elf

/-! ## Machine integers -/

/-- Truncation to `uint32_t`. -/
def u32 (n : Nat) : Nat := n % 2 ^ 32

/-- Truncation to `uint64_t`. -/
def u64 (n : Nat) : Nat := n % 2 ^ 64

/-- Conversion of a (mathematical) integer to `uint64_t`: reduction modulo `2 ^ 64`. -/
def toU64 (i : Int) : Nat := (i % 2 ^ 64).toNat

/-- Conversion of a `uint64_t` bit pattern to `int64_t` (two's complement). -/
def toS64 (n : Nat) : Int :=
  if n % 2 ^ 64 < 2 ^ 63 then ((n % 2 ^ 64 : Nat) : Int) else ((n % 2 ^ 64 : Nat) : Int) - 2 ^ 64

/-- The C operator `~` on a 32-bit unsigned operand. -/
def not32 (x : Nat) : Nat := (2 ^ 32 - 1) ^^^ (x % 2 ^ 32)

/-- The C operator `~` on a 64-bit unsigned operand. -/
def not64 (x : Nat) : Nat := 2 ^ 64 - 1 - x % 2 ^ 64

/-- Subtraction of `uint64_t` values (wraps modulo `2 ^ 64`). -/
def sub64 (a b : Nat) : Nat := (a % 2 ^ 64 + (2 ^ 64 - b % 2 ^ 64)) % 2 ^ 64

/-! ## Byte-addressed memory -/

/-- Memory: the byte stored at each address. -/
abbrev Mem := Nat → Nat

/-- Store one byte. -/
def store8 (m : Mem) (a v : Nat) : Mem := fun x => if x = a then v % 256 else m x

/-- Store a 16-bit value, little-endian (`*(int16_t *)place = v`). -/
def store16 (m : Mem) (a v : Nat) : Mem := store8 (store8 m a v) (a + 1) (v / 2 ^ 8)

/-- Store a 32-bit value, little-endian (`*(int32_t *)place = v`, `*place = insn`). -/
def store32 (m : Mem) (a v : Nat) : Mem := store16 (store16 m a v) (a + 2) (v / 2 ^ 16)

/-- Store a 64-bit value, little-endian (`*(int64_t *)place = v`). -/
def store64 (m : Mem) (a v : Nat) : Mem := store32 (store32 m a v) (a + 4) (v / 2 ^ 32)

/-- Load one byte. -/
def load8 (m : Mem) (a : Nat) : Nat := m a % 256

/-- Load a 16-bit value, little-endian. -/
def load16 (m : Mem) (a : Nat) : Nat := load8 m a + 2 ^ 8 * load8 m (a + 1)

/-- Load a 32-bit value, little-endian (`insn = *place`). -/
def load32 (m : Mem) (a : Nat) : Nat := load16 m a + 2 ^ 16 * load16 m (a + 2)

/-- Load a 64-bit value, little-endian. -/
def load64 (m : Mem) (a : Nat) : Nat := load32 m a + 2 ^ 32 * load32 m (a + 4)

/-! ## Declarations of `<errno.h>` and `<nuttx/elf.h>` used by the file -/

/-- Modelled from the spec: `<errno.h>` is not part of the sources; the
"not permitted" code returned by `up_relocate`. -/
def EPERM : Int := 1

/-- Modelled from the spec: `<errno.h>` is not part of the sources; the
"unsupported" error code. -/
def EINVAL : Int := 22

/-- Modelled from the spec: `<errno.h>` is not part of the sources; the
"range error" code. -/
def ERANGE : Int := 34

/-- Modelled from the spec: the type `Elf_Rela` (`Elf64_Rela`) of the absent ELF header, the
relocation record with an explicit addend. -/
structure Elf_Rela where
  r_offset : Nat
  r_info : Nat
  r_addend : Int

/-- Modelled from the spec: the type `Elf_Sym` (`Elf64_Sym`) of the absent ELF header;
`st_value` is the resolved symbol value. -/
structure Elf_Sym where
  st_name : Nat
  st_info : Nat
  st_other : Nat
  st_shndx : Nat
  st_value : Nat
  st_size : Nat

/-- Modelled from the spec: the macro `ELF_R_TYPE` of `<nuttx/elf.h>` is not part of the
sources; the relocation kind is the low 32 bits of `r_info` (it is assigned to an
`unsigned int`). -/
def ELF_R_TYPE (r_info : Nat) : Nat := r_info % 2 ^ 32

/-! The relocation kind codes `R_AARCH64_*` are declared in a header that is not part of
the sources; they are the codes of the AArch64 ELF ABI. Being labels of one `switch`, they
are pairwise distinct. -/

/-- Modelled from the spec: the code `R_AARCH64_NONE` of the absent ELF header (AArch64 ELF ABI value). -/
def R_AARCH64_NONE : Nat := 0
/-- Modelled from the spec: the code `R_AARCH64_ABS64` of the absent ELF header (AArch64 ELF ABI value). -/
def R_AARCH64_ABS64 : Nat := 257
/-- Modelled from the spec: the code `R_AARCH64_ABS32` of the absent ELF header (AArch64 ELF ABI value). -/
def R_AARCH64_ABS32 : Nat := 258
/-- Modelled from the spec: the code `R_AARCH64_ABS16` of the absent ELF header (AArch64 ELF ABI value). -/
def R_AARCH64_ABS16 : Nat := 259
/-- Modelled from the spec: the code `R_AARCH64_PREL64` of the absent ELF header (AArch64 ELF ABI value). -/
def R_AARCH64_PREL64 : Nat := 260
/-- Modelled from the spec: the code `R_AARCH64_PREL32` of the absent ELF header (AArch64 ELF ABI value). -/
def R_AARCH64_PREL32 : Nat := 261
/-- Modelled from the spec: the code `R_AARCH64_PREL16` of the absent ELF header (AArch64 ELF ABI value). -/
def R_AARCH64_PREL16 : Nat := 262
/-- Modelled from the spec: the code `R_AARCH64_MOVW_UABS_G0` of the absent ELF header (AArch64 ELF ABI value). -/
def R_AARCH64_MOVW_UABS_G0 : Nat := 263
/-- Modelled from the spec: the code `R_AARCH64_MOVW_UABS_G0_NC` of the absent ELF header (AArch64 ELF ABI value). -/
def R_AARCH64_MOVW_UABS_G0_NC : Nat := 264
/-- Modelled from the spec: the code `R_AARCH64_MOVW_UABS_G1` of the absent ELF header (AArch64 ELF ABI value). -/
def R_AARCH64_MOVW_UABS_G1 : Nat := 265
/-- Modelled from the spec: the code `R_AARCH64_MOVW_UABS_G1_NC` of the absent ELF header (AArch64 ELF ABI value). -/
def R_AARCH64_MOVW_UABS_G1_NC : Nat := 266
/-- Modelled from the spec: the code `R_AARCH64_MOVW_UABS_G2` of the absent ELF header (AArch64 ELF ABI value). -/
def R_AARCH64_MOVW_UABS_G2 : Nat := 267
/-- Modelled from the spec: the code `R_AARCH64_MOVW_UABS_G2_NC` of the absent ELF header (AArch64 ELF ABI value). -/
def R_AARCH64_MOVW_UABS_G2_NC : Nat := 268
/-- Modelled from the spec: the code `R_AARCH64_MOVW_UABS_G3` of the absent ELF header (AArch64 ELF ABI value). -/
def R_AARCH64_MOVW_UABS_G3 : Nat := 269
/-- Modelled from the spec: the code `R_AARCH64_MOVW_SABS_G0` of the absent ELF header (AArch64 ELF ABI value). -/
def R_AARCH64_MOVW_SABS_G0 : Nat := 270
/-- Modelled from the spec: the code `R_AARCH64_MOVW_SABS_G1` of the absent ELF header (AArch64 ELF ABI value). -/
def R_AARCH64_MOVW_SABS_G1 : Nat := 271
/-- Modelled from the spec: the code `R_AARCH64_MOVW_SABS_G2` of the absent ELF header (AArch64 ELF ABI value). -/
def R_AARCH64_MOVW_SABS_G2 : Nat := 272
/-- Modelled from the spec: the code `R_AARCH64_LD_PREL_LO19` of the absent ELF header (AArch64 ELF ABI value). -/
def R_AARCH64_LD_PREL_LO19 : Nat := 273
/-- Modelled from the spec: the code `R_AARCH64_ADR_PREL_LO21` of the absent ELF header (AArch64 ELF ABI value). -/
def R_AARCH64_ADR_PREL_LO21 : Nat := 274
/-- Modelled from the spec: the code `R_AARCH64_ADR_PREL_PG_HI21` of the absent ELF header (AArch64 ELF ABI value). -/
def R_AARCH64_ADR_PREL_PG_HI21 : Nat := 275
/-- Modelled from the spec: the code `R_AARCH64_ADR_PREL_PG_HI21_NC` of the absent ELF header (AArch64 ELF ABI value). -/
def R_AARCH64_ADR_PREL_PG_HI21_NC : Nat := 276
/-- Modelled from the spec: the code `R_AARCH64_ADD_ABS_LO12_NC` of the absent ELF header (AArch64 ELF ABI value). -/
def R_AARCH64_ADD_ABS_LO12_NC : Nat := 277
/-- Modelled from the spec: the code `R_AARCH64_LDST8_ABS_LO12_NC` of the absent ELF header (AArch64 ELF ABI value). -/
def R_AARCH64_LDST8_ABS_LO12_NC : Nat := 278
/-- Modelled from the spec: the code `R_AARCH64_TSTBR14` of the absent ELF header (AArch64 ELF ABI value). -/
def R_AARCH64_TSTBR14 : Nat := 279
/-- Modelled from the spec: the code `R_AARCH64_CONDBR19` of the absent ELF header (AArch64 ELF ABI value). -/
def R_AARCH64_CONDBR19 : Nat := 280
/-- Modelled from the spec: the code `R_AARCH64_JUMP26` of the absent ELF header (AArch64 ELF ABI value). -/
def R_AARCH64_JUMP26 : Nat := 282
/-- Modelled from the spec: the code `R_AARCH64_CALL26` of the absent ELF header (AArch64 ELF ABI value). -/
def R_AARCH64_CALL26 : Nat := 283
/-- Modelled from the spec: the code `R_AARCH64_LDST16_ABS_LO12_NC` of the absent ELF header (AArch64 ELF ABI value). -/
def R_AARCH64_LDST16_ABS_LO12_NC : Nat := 284
/-- Modelled from the spec: the code `R_AARCH64_LDST32_ABS_LO12_NC` of the absent ELF header (AArch64 ELF ABI value). -/
def R_AARCH64_LDST32_ABS_LO12_NC : Nat := 285
/-- Modelled from the spec: the code `R_AARCH64_LDST64_ABS_LO12_NC` of the absent ELF header (AArch64 ELF ABI value). -/
def R_AARCH64_LDST64_ABS_LO12_NC : Nat := 286
/-- Modelled from the spec: the code `R_AARCH64_MOVW_PREL_G0` of the absent ELF header (AArch64 ELF ABI value). -/
def R_AARCH64_MOVW_PREL_G0 : Nat := 287
/-- Modelled from the spec: the code `R_AARCH64_MOVW_PREL_G0_NC` of the absent ELF header (AArch64 ELF ABI value). -/
def R_AARCH64_MOVW_PREL_G0_NC : Nat := 288
/-- Modelled from the spec: the code `R_AARCH64_MOVW_PREL_G1` of the absent ELF header (AArch64 ELF ABI value). -/
def R_AARCH64_MOVW_PREL_G1 : Nat := 289
/-- Modelled from the spec: the code `R_AARCH64_MOVW_PREL_G1_NC` of the absent ELF header (AArch64 ELF ABI value). -/
def R_AARCH64_MOVW_PREL_G1_NC : Nat := 290
/-- Modelled from the spec: the code `R_AARCH64_MOVW_PREL_G2` of the absent ELF header (AArch64 ELF ABI value). -/
def R_AARCH64_MOVW_PREL_G2 : Nat := 291
/-- Modelled from the spec: the code `R_AARCH64_MOVW_PREL_G2_NC` of the absent ELF header (AArch64 ELF ABI value). -/
def R_AARCH64_MOVW_PREL_G2_NC : Nat := 292
/-- Modelled from the spec: the code `R_AARCH64_MOVW_PREL_G3` of the absent ELF header (AArch64 ELF ABI value). -/
def R_AARCH64_MOVW_PREL_G3 : Nat := 293
/-- Modelled from the spec: the code `R_AARCH64_LDST128_ABS_LO12_NC` of the absent ELF header (AArch64 ELF ABI value). -/
def R_AARCH64_LDST128_ABS_LO12_NC : Nat := 299

/-! ## The code of `arch_elf.c` -/

/-- The C `enum aarch64_insn_imm_type`. -/
inductive aarch64_insn_imm_type where
  | AARCH64_INSN_IMM_ADR
  | AARCH64_INSN_IMM_26
  | AARCH64_INSN_IMM_19
  | AARCH64_INSN_IMM_16
  | AARCH64_INSN_IMM_14
  | AARCH64_INSN_IMM_12
  | AARCH64_INSN_IMM_9
  | AARCH64_INSN_IMM_7
  | AARCH64_INSN_IMM_6
  | AARCH64_INSN_IMM_S
  | AARCH64_INSN_IMM_R
  | AARCH64_INSN_IMM_N
  | AARCH64_INSN_IMM_MAX
  deriving DecidableEq, Repr

/-- The C `enum aarch64_reloc_op`. -/
inductive aarch64_reloc_op where
  | RELOC_OP_NONE
  | RELOC_OP_ABS
  | RELOC_OP_PREL
  | RELOC_OP_PAGE
  deriving DecidableEq, Repr

/-- The C `enum aarch64_insn_movw_imm_type`. -/
inductive aarch64_insn_movw_imm_type where
  | AARCH64_INSN_IMM_MOVNZ
  | AARCH64_INSN_IMM_MOVKZ
  deriving DecidableEq, Repr

open aarch64_insn_imm_type aarch64_reloc_op aarch64_insn_movw_imm_type

/-- The macro `BIT(nr)`, `1ul << nr`, an `unsigned long`. -/
def BIT (nr : Nat) : Nat := u64 (1 <<< nr)

/-- The function `aarch64_get_imm_shift_mask`: the `(mask, shift)` pair of an immediate
type, `none` for the `-EINVAL` return of the `default` label. -/
def aarch64_get_imm_shift_mask : aarch64_insn_imm_type → Option (Nat × Nat)
  | AARCH64_INSN_IMM_26 => some (u32 (BIT 26 - 1), 0)
  | AARCH64_INSN_IMM_19 => some (u32 (BIT 19 - 1), 5)
  | AARCH64_INSN_IMM_16 => some (u32 (BIT 16 - 1), 5)
  | AARCH64_INSN_IMM_14 => some (u32 (BIT 14 - 1), 5)
  | AARCH64_INSN_IMM_12 => some (u32 (BIT 12 - 1), 10)
  | AARCH64_INSN_IMM_9 => some (u32 (BIT 9 - 1), 12)
  | AARCH64_INSN_IMM_7 => some (u32 (BIT 7 - 1), 15)
  | AARCH64_INSN_IMM_6 => some (u32 (BIT 6 - 1), 10)
  | AARCH64_INSN_IMM_S => some (u32 (BIT 6 - 1), 10)
  | AARCH64_INSN_IMM_R => some (u32 (BIT 6 - 1), 16)
  | AARCH64_INSN_IMM_N => some (1, 22)
  | _ => none

/-- The macro `SZ_2M`. -/
def SZ_2M : Nat := 0x200000
/-- The macro `ADR_IMM_HILOSPLIT`. -/
def ADR_IMM_HILOSPLIT : Nat := 2
/-- The macro `ADR_IMM_SIZE`. -/
def ADR_IMM_SIZE : Nat := SZ_2M
/-- The macro `ADR_IMM_LOMASK`. -/
def ADR_IMM_LOMASK : Nat := (1 <<< ADR_IMM_HILOSPLIT) - 1
/-- The macro `ADR_IMM_HIMASK`. -/
def ADR_IMM_HIMASK : Nat := (ADR_IMM_SIZE >>> ADR_IMM_HILOSPLIT) - 1
/-- The macro `ADR_IMM_LOSHIFT`. -/
def ADR_IMM_LOSHIFT : Nat := 29
/-- The macro `ADR_IMM_HISHIFT`. -/
def ADR_IMM_HISHIFT : Nat := 5

/-- The function `aarch64_insn_encode_immediate` (`insn` is a `uint32_t`, `imm` a
`uint64_t`). The `switch` yields the immediate, mask and shift to use, or nothing when the
type is unknown, in which case `0xd4200000` is returned; the two statements after the
`switch` update the field. -/
def aarch64_insn_encode_immediate (type : aarch64_insn_imm_type) (insn imm : Nat) : Nat :=
  let sw : Option (Nat × Nat × Nat) :=
    match type with
    | AARCH64_INSN_IMM_ADR =>
      let immlo := u32 ((imm &&& ADR_IMM_LOMASK) <<< ADR_IMM_LOSHIFT)
      let imm1 := imm >>> ADR_IMM_HILOSPLIT
      let immhi := u32 ((imm1 &&& ADR_IMM_HIMASK) <<< ADR_IMM_HISHIFT)
      some (immlo ||| immhi,
        u32 ((ADR_IMM_LOMASK <<< ADR_IMM_LOSHIFT) ||| (ADR_IMM_HIMASK <<< ADR_IMM_HISHIFT)), 0)
    | _ =>
      match aarch64_get_imm_shift_mask type with
      | none => none
      | some (mask, shift) => some (imm, mask, shift)
  match sw with
  | none => 0xd4200000
  | some (imm, mask, shift) =>
    let insn1 := insn &&& not32 (u32 (mask <<< shift))
    u32 (insn1 ||| u64 ((imm &&& mask) <<< shift))

/-- The function `do_reloc`; `place` is the target address. -/
def do_reloc (reloc_op : aarch64_reloc_op) (place val : Nat) : Nat :=
  match reloc_op with
  | RELOC_OP_ABS => val
  | RELOC_OP_PREL => sub64 val (u64 place)
  | RELOC_OP_PAGE => sub64 (val &&& 0xfffffffffffff000) (u64 place &&& 0xfffffffffffff000)
  | RELOC_OP_NONE => 0

/-- Modelled from the spec: the limit `UINT16_MAX` of the absent `<limits.h>`. -/
def UINT16_MAX : Int := 65535
/-- Modelled from the spec: the limit `UINT32_MAX` of the absent `<limits.h>`. -/
def UINT32_MAX : Int := 4294967295
/-- Modelled from the spec: the limit `INT16_MIN` of the absent `<limits.h>`. -/
def INT16_MIN : Int := -32768
/-- Modelled from the spec: the limit `INT16_MAX` of the absent `<limits.h>`. -/
def INT16_MAX : Int := 32767
/-- Modelled from the spec: the limit `INT32_MIN` of the absent `<limits.h>`. -/
def INT32_MIN : Int := -2147483648
/-- Modelled from the spec: the limit `INT32_MAX` of the absent `<limits.h>`. -/
def INT32_MAX : Int := 2147483647

/-- The function `reloc_data`: the store comes first, the range check second. -/
def reloc_data (op : aarch64_reloc_op) (place val : Nat) (len : Nat) (mem : Mem) : Int × Mem :=
  let sval : Int := toS64 (do_reloc op place val)
  if len = 16 then
    let mem1 := store16 mem place (toU64 sval)
    match op with
    | RELOC_OP_ABS => if sval < 0 ∨ sval > UINT16_MAX then (-ERANGE, mem1) else (0, mem1)
    | RELOC_OP_PREL => if sval < INT16_MIN ∨ sval > INT16_MAX then (-ERANGE, mem1) else (0, mem1)
    | _ => (0, mem1)
  else if len = 32 then
    let mem1 := store32 mem place (toU64 sval)
    match op with
    | RELOC_OP_ABS => if sval < 0 ∨ sval > UINT32_MAX then (-ERANGE, mem1) else (0, mem1)
    | RELOC_OP_PREL => if sval < INT32_MIN ∨ sval > INT32_MAX then (-ERANGE, mem1) else (0, mem1)
    | _ => (0, mem1)
  else if len = 64 then
    (0, store64 mem place (toU64 sval))
  else
    (0, mem)

/-- The function `reloc_insn_movw`. -/
def reloc_insn_movw (op : aarch64_reloc_op) (place val : Nat) (lsb : Nat)
    (imm_type : aarch64_insn_movw_imm_type) (mem : Mem) : Int × Mem :=
  let insn := load32 mem place
  let sval : Int := toS64 (do_reloc op place val)
  let imm := toU64 (sval >>> lsb)
  let st : Nat × Nat :=
    if imm_type = AARCH64_INSN_IMM_MOVNZ then
      let insn1 := insn &&& not32 (3 <<< 29)
      if sval ≥ 0 then (insn1 ||| (2 <<< 29), imm) else (insn1, not64 imm)
    else (insn, imm)
  let insn2 := aarch64_insn_encode_immediate AARCH64_INSN_IMM_16 st.1 st.2
  let mem1 := store32 mem place insn2
  if st.2 > 65535 then (-ERANGE, mem1) else (0, mem1)

/-- The function `reloc_insn_imm`. The overflow test at its end is commented out in the
source, so the function returns 0 on every path; the value computed for that test is not
used. -/
def reloc_insn_imm (op : aarch64_reloc_op) (place val : Nat) (lsb len : Nat)
    (imm_type : aarch64_insn_imm_type) (mem : Mem) : Int × Mem :=
  let insn := load32 mem place
  let sval : Int := toS64 (do_reloc op place val) >>> lsb
  let imm_mask := sub64 (BIT (lsb + len)) 1 >>> lsb
  let imm := toU64 sval &&& imm_mask
  let insn1 := aarch64_insn_encode_immediate imm_type insn imm
  (0, store32 mem place insn1)

/-- The function `reloc_insn_adrp`. -/
def reloc_insn_adrp (place val : Nat) (mem : Mem) : Int × Mem :=
  reloc_insn_imm RELOC_OP_PAGE place val 12 21 AARCH64_INSN_IMM_ADR mem

/-- The function `up_relocate`: always `-EPERM`. -/
def up_relocate (_rel : Elf_Rela) (_sym : Option Elf_Sym) (_addr : Nat) : Int := -EPERM

/-- The function `up_relocateadd`. The symbol pointer may be `NULL` (`none`); the function
reads `sym->st_value` before its `switch`, so a `NULL` symbol is a fault (`none`).
Otherwise the result is the returned `int` and the memory after the call. -/
def up_relocateadd (rel : Elf_Rela) (sym : Option Elf_Sym) (addr : Nat) (mem : Mem) :
    Option (Int × Mem) :=
  match sym with
  | none => none
  | some s =>
    let relotype := ELF_R_TYPE rel.r_info
    let val := toU64 ((s.st_value : Int) + rel.r_addend)
    some (
      if relotype = R_AARCH64_NONE then (0, mem)
      else if relotype = R_AARCH64_ABS64 then reloc_data RELOC_OP_ABS addr val 64 mem
      else if relotype = R_AARCH64_ABS32 then reloc_data RELOC_OP_ABS addr val 32 mem
      else if relotype = R_AARCH64_ABS16 then reloc_data RELOC_OP_ABS addr val 16 mem
      else if relotype = R_AARCH64_PREL64 then reloc_data RELOC_OP_PREL addr val 64 mem
      else if relotype = R_AARCH64_PREL32 then reloc_data RELOC_OP_PREL addr val 32 mem
      else if relotype = R_AARCH64_PREL16 then reloc_data RELOC_OP_PREL addr val 16 mem
      else if relotype = R_AARCH64_MOVW_UABS_G0_NC ∨ relotype = R_AARCH64_MOVW_UABS_G0 then
        reloc_insn_movw RELOC_OP_ABS addr val 0 AARCH64_INSN_IMM_MOVKZ mem
      else if relotype = R_AARCH64_MOVW_UABS_G1_NC ∨ relotype = R_AARCH64_MOVW_UABS_G1 then
        reloc_insn_movw RELOC_OP_ABS addr val 16 AARCH64_INSN_IMM_MOVKZ mem
      else if relotype = R_AARCH64_MOVW_UABS_G2_NC ∨ relotype = R_AARCH64_MOVW_UABS_G2 then
        reloc_insn_movw RELOC_OP_ABS addr val 32 AARCH64_INSN_IMM_MOVKZ mem
      else if relotype = R_AARCH64_MOVW_UABS_G3 then
        reloc_insn_movw RELOC_OP_ABS addr val 48 AARCH64_INSN_IMM_MOVKZ mem
      else if relotype = R_AARCH64_MOVW_SABS_G0 then
        reloc_insn_movw RELOC_OP_ABS addr val 0 AARCH64_INSN_IMM_MOVNZ mem
      else if relotype = R_AARCH64_MOVW_SABS_G1 then
        reloc_insn_movw RELOC_OP_ABS addr val 16 AARCH64_INSN_IMM_MOVNZ mem
      else if relotype = R_AARCH64_MOVW_SABS_G2 then
        reloc_insn_movw RELOC_OP_ABS addr val 32 AARCH64_INSN_IMM_MOVNZ mem
      else if relotype = R_AARCH64_MOVW_PREL_G0_NC then
        reloc_insn_movw RELOC_OP_PREL addr val 0 AARCH64_INSN_IMM_MOVKZ mem
      else if relotype = R_AARCH64_MOVW_PREL_G0 then
        reloc_insn_movw RELOC_OP_PREL addr val 0 AARCH64_INSN_IMM_MOVNZ mem
      else if relotype = R_AARCH64_MOVW_PREL_G1_NC then
        reloc_insn_movw RELOC_OP_PREL addr val 16 AARCH64_INSN_IMM_MOVKZ mem
      else if relotype = R_AARCH64_MOVW_PREL_G1 then
        reloc_insn_movw RELOC_OP_PREL addr val 16 AARCH64_INSN_IMM_MOVNZ mem
      else if relotype = R_AARCH64_MOVW_PREL_G2_NC then
        reloc_insn_movw RELOC_OP_PREL addr val 32 AARCH64_INSN_IMM_MOVKZ mem
      else if relotype = R_AARCH64_MOVW_PREL_G2 then
        reloc_insn_movw RELOC_OP_PREL addr val 32 AARCH64_INSN_IMM_MOVNZ mem
      else if relotype = R_AARCH64_MOVW_PREL_G3 then
        reloc_insn_movw RELOC_OP_PREL addr val 48 AARCH64_INSN_IMM_MOVNZ mem
      else if relotype = R_AARCH64_LD_PREL_LO19 then
        reloc_insn_imm RELOC_OP_PREL addr val 2 19 AARCH64_INSN_IMM_19 mem
      else if relotype = R_AARCH64_ADR_PREL_LO21 then
        reloc_insn_imm RELOC_OP_PREL addr val 0 21 AARCH64_INSN_IMM_ADR mem
      else if relotype = R_AARCH64_ADR_PREL_PG_HI21_NC ∨ relotype = R_AARCH64_ADR_PREL_PG_HI21 then
        let r := reloc_insn_adrp addr val mem
        if r.1 ≠ 0 ∧ r.1 ≠ -ERANGE then (0, r.2) else r
      else if relotype = R_AARCH64_ADD_ABS_LO12_NC ∨ relotype = R_AARCH64_LDST8_ABS_LO12_NC then
        reloc_insn_imm RELOC_OP_ABS addr val 0 12 AARCH64_INSN_IMM_12 mem
      else if relotype = R_AARCH64_LDST16_ABS_LO12_NC then
        reloc_insn_imm RELOC_OP_ABS addr val 1 11 AARCH64_INSN_IMM_12 mem
      else if relotype = R_AARCH64_LDST32_ABS_LO12_NC then
        reloc_insn_imm RELOC_OP_ABS addr val 2 10 AARCH64_INSN_IMM_12 mem
      else if relotype = R_AARCH64_LDST64_ABS_LO12_NC then
        reloc_insn_imm RELOC_OP_ABS addr val 3 9 AARCH64_INSN_IMM_12 mem
      else if relotype = R_AARCH64_LDST128_ABS_LO12_NC then
        reloc_insn_imm RELOC_OP_ABS addr val 4 8 AARCH64_INSN_IMM_12 mem
      else if relotype = R_AARCH64_TSTBR14 then
        reloc_insn_imm RELOC_OP_PREL addr val 2 14 AARCH64_INSN_IMM_14 mem
      else if relotype = R_AARCH64_CONDBR19 then
        reloc_insn_imm RELOC_OP_PREL addr val 2 19 AARCH64_INSN_IMM_19 mem
      else if relotype = R_AARCH64_JUMP26 ∨ relotype = R_AARCH64_CALL26 then
        reloc_insn_imm RELOC_OP_PREL addr val 2 26 AARCH64_INSN_IMM_26 mem
      else (-EINVAL, mem))

/-- The case labels of the `switch` of `up_relocateadd`. -/
def handledTypes : List Nat :=
  [R_AARCH64_NONE, R_AARCH64_ABS64, R_AARCH64_ABS32, R_AARCH64_ABS16, R_AARCH64_PREL64,
   R_AARCH64_PREL32, R_AARCH64_PREL16, R_AARCH64_MOVW_UABS_G0_NC, R_AARCH64_MOVW_UABS_G0,
   R_AARCH64_MOVW_UABS_G1_NC, R_AARCH64_MOVW_UABS_G1, R_AARCH64_MOVW_UABS_G2_NC,
   R_AARCH64_MOVW_UABS_G2, R_AARCH64_MOVW_UABS_G3, R_AARCH64_MOVW_SABS_G0,
   R_AARCH64_MOVW_SABS_G1, R_AARCH64_MOVW_SABS_G2, R_AARCH64_MOVW_PREL_G0_NC,
   R_AARCH64_MOVW_PREL_G0, R_AARCH64_MOVW_PREL_G1_NC, R_AARCH64_MOVW_PREL_G1,
   R_AARCH64_MOVW_PREL_G2_NC, R_AARCH64_MOVW_PREL_G2, R_AARCH64_MOVW_PREL_G3,
   R_AARCH64_LD_PREL_LO19, R_AARCH64_ADR_PREL_LO21, R_AARCH64_ADR_PREL_PG_HI21_NC,
   R_AARCH64_ADR_PREL_PG_HI21, R_AARCH64_ADD_ABS_LO12_NC, R_AARCH64_LDST8_ABS_LO12_NC,
   R_AARCH64_LDST16_ABS_LO12_NC, R_AARCH64_LDST32_ABS_LO12_NC, R_AARCH64_LDST64_ABS_LO12_NC,
   R_AARCH64_LDST128_ABS_LO12_NC, R_AARCH64_TSTBR14, R_AARCH64_CONDBR19, R_AARCH64_JUMP26,
   R_AARCH64_CALL26]

/-- The data relocation arms of `up_relocateadd`: kind, operation and width passed to
`reloc_data`. -/
def dataKinds : List (Nat × aarch64_reloc_op × Nat) :=
  [(R_AARCH64_ABS64, RELOC_OP_ABS, 64), (R_AARCH64_ABS32, RELOC_OP_ABS, 32),
   (R_AARCH64_ABS16, RELOC_OP_ABS, 16), (R_AARCH64_PREL64, RELOC_OP_PREL, 64),
   (R_AARCH64_PREL32, RELOC_OP_PREL, 32), (R_AARCH64_PREL16, RELOC_OP_PREL, 16)]

/-- The general-immediate arms of `up_relocateadd` (all calls of `reloc_insn_imm` except
the ADR ones): kind, operation, `lsb`, `len` and immediate type. -/
def immKinds : List (Nat × aarch64_reloc_op × Nat × Nat × aarch64_insn_imm_type) :=
  [(R_AARCH64_LD_PREL_LO19, RELOC_OP_PREL, 2, 19, AARCH64_INSN_IMM_19),
   (R_AARCH64_ADD_ABS_LO12_NC, RELOC_OP_ABS, 0, 12, AARCH64_INSN_IMM_12),
   (R_AARCH64_LDST8_ABS_LO12_NC, RELOC_OP_ABS, 0, 12, AARCH64_INSN_IMM_12),
   (R_AARCH64_LDST16_ABS_LO12_NC, RELOC_OP_ABS, 1, 11, AARCH64_INSN_IMM_12),
   (R_AARCH64_LDST32_ABS_LO12_NC, RELOC_OP_ABS, 2, 10, AARCH64_INSN_IMM_12),
   (R_AARCH64_LDST64_ABS_LO12_NC, RELOC_OP_ABS, 3, 9, AARCH64_INSN_IMM_12),
   (R_AARCH64_LDST128_ABS_LO12_NC, RELOC_OP_ABS, 4, 8, AARCH64_INSN_IMM_12),
   (R_AARCH64_TSTBR14, RELOC_OP_PREL, 2, 14, AARCH64_INSN_IMM_14),
   (R_AARCH64_CONDBR19, RELOC_OP_PREL, 2, 19, AARCH64_INSN_IMM_19),
   (R_AARCH64_JUMP26, RELOC_OP_PREL, 2, 26, AARCH64_INSN_IMM_26),
   (R_AARCH64_CALL26, RELOC_OP_PREL, 2, 26, AARCH64_INSN_IMM_26)]

/-- The move-wide arms of `up_relocateadd`: kind, operation, `lsb` and move-wide type
passed to `reloc_insn_movw`. -/
def movwKinds : List (Nat × aarch64_reloc_op × Nat × aarch64_insn_movw_imm_type) :=
  [(R_AARCH64_MOVW_UABS_G0_NC, RELOC_OP_ABS, 0, AARCH64_INSN_IMM_MOVKZ),
   (R_AARCH64_MOVW_UABS_G0, RELOC_OP_ABS, 0, AARCH64_INSN_IMM_MOVKZ),
   (R_AARCH64_MOVW_UABS_G1_NC, RELOC_OP_ABS, 16, AARCH64_INSN_IMM_MOVKZ),
   (R_AARCH64_MOVW_UABS_G1, RELOC_OP_ABS, 16, AARCH64_INSN_IMM_MOVKZ),
   (R_AARCH64_MOVW_UABS_G2_NC, RELOC_OP_ABS, 32, AARCH64_INSN_IMM_MOVKZ),
   (R_AARCH64_MOVW_UABS_G2, RELOC_OP_ABS, 32, AARCH64_INSN_IMM_MOVKZ),
   (R_AARCH64_MOVW_UABS_G3, RELOC_OP_ABS, 48, AARCH64_INSN_IMM_MOVKZ),
   (R_AARCH64_MOVW_SABS_G0, RELOC_OP_ABS, 0, AARCH64_INSN_IMM_MOVNZ),
   (R_AARCH64_MOVW_SABS_G1, RELOC_OP_ABS, 16, AARCH64_INSN_IMM_MOVNZ),
   (R_AARCH64_MOVW_SABS_G2, RELOC_OP_ABS, 32, AARCH64_INSN_IMM_MOVNZ),
   (R_AARCH64_MOVW_PREL_G0_NC, RELOC_OP_PREL, 0, AARCH64_INSN_IMM_MOVKZ),
   (R_AARCH64_MOVW_PREL_G0, RELOC_OP_PREL, 0, AARCH64_INSN_IMM_MOVNZ),
   (R_AARCH64_MOVW_PREL_G1_NC, RELOC_OP_PREL, 16, AARCH64_INSN_IMM_MOVKZ),
   (R_AARCH64_MOVW_PREL_G1, RELOC_OP_PREL, 16, AARCH64_INSN_IMM_MOVNZ),
   (R_AARCH64_MOVW_PREL_G2_NC, RELOC_OP_PREL, 32, AARCH64_INSN_IMM_MOVKZ),
   (R_AARCH64_MOVW_PREL_G2, RELOC_OP_PREL, 32, AARCH64_INSN_IMM_MOVNZ),
   (R_AARCH64_MOVW_PREL_G3, RELOC_OP_PREL, 48, AARCH64_INSN_IMM_MOVNZ)]

/-! ## The architecture check of `arch_elf.c` -/

/-- Modelled from the spec: the type `Elf_Ehdr` (`Elf64_Ehdr`) of the absent ELF header, with
the fields that `up_checkarch` reads; `e_ident` is the identification byte array. -/
structure Elf_Ehdr where
  e_ident : Nat → Nat
  e_machine : Nat
  e_entry : Nat

/-- Modelled from the spec: the machine code `EM_AARCH64` of the absent ELF header. -/
def EM_AARCH64 : Nat := 183
/-- Modelled from the spec: the index `EI_CLASS` of the absent ELF header. -/
def EI_CLASS : Nat := 4
/-- Modelled from the spec: the index `EI_DATA` of the absent ELF header. -/
def EI_DATA : Nat := 5
/-- Modelled from the spec: the class `ELFCLASS64` of the absent ELF header. -/
def ELFCLASS64 : Nat := 2
/-- Modelled from the spec: the encoding `ELFDATA2LSB` of the absent ELF header. -/
def ELFDATA2LSB : Nat := 1
/-- Modelled from the spec: the encoding `ELFDATA2MSB` of the absent ELF header. -/
def ELFDATA2MSB : Nat := 2

/-- The function `up_checkarch`; the parameter `CONFIG_ENDIAN_BIG` tells whether that
configuration symbol is defined. -/
def up_checkarch (CONFIG_ENDIAN_BIG : Bool) (ehdr : Elf_Ehdr) : Bool :=
  if ehdr.e_machine ≠ EM_AARCH64 then false
  else if ehdr.e_ident EI_CLASS ≠ ELFCLASS64 then false
  else if ehdr.e_ident EI_DATA ≠ (if CONFIG_ENDIAN_BIG then ELFDATA2MSB else ELFDATA2LSB) then
    false
  else if ehdr.e_entry &&& 3 ≠ 0 then false
  else true

end Arm64Elf

/-!
# Trap dispatch (`arch/arm64/src/common/arm64_syscall.c`)

A shallow embedding of `arm64_syscall_switch` and `arm64_syscall`.

* The register frame `regs` lives in the byte-addressed memory: slot `i` is the 64-bit word
  at address `regs + 8 * i`.
* The task control block returned by `nxsched_self()` is a record of the state; its layout
  is not part of the sources.
* Conditional compilation is a record `Config` of flags and constants.
* A function returns an `Outcome`: its C return value with the state after the call, or the
  state in which a `DEBUGASSERT` failed.
* The calls of `svcinfo` and `svcerr` (logging, `arm64_dump_syscall` included) have no
  effect on the state and are left out.
-/

namespace Arm64Syscall

open Arm64Elf

/-- Modelled from the spec: the frame index `REG_X0` of the absent `arch/irq.h`; slot 0 holds
the command. -/
def REG_X0 : Nat := 0
/-- Modelled from the spec: the frame index `REG_X1` of the absent `arch/irq.h`. -/
def REG_X1 : Nat := 1
/-- Modelled from the spec: the frame index `REG_X2` of the absent `arch/irq.h`. -/
def REG_X2 : Nat := 2
/-- Modelled from the spec: the frame index `REG_X3` of the absent `arch/irq.h`. -/
def REG_X3 : Nat := 3
/-- Modelled from the spec: the frame index `REG_X4` of the absent `arch/irq.h`. -/
def REG_X4 : Nat := 4
/-- Modelled from the spec: the frame index `REG_X5` of the absent `arch/irq.h`. -/
def REG_X5 : Nat := 5
/-- Modelled from the spec: the frame index `REG_X6` of the absent `arch/irq.h`. -/
def REG_X6 : Nat := 6
/-- Modelled from the spec: the frame index `REG_SP_ELX` of the absent `arch/irq.h`, the
stack-pointer slot. -/
def REG_SP_ELX : Nat := 31
/-- Modelled from the spec: the frame index `REG_ELR` of the absent `arch/irq.h`, the
program-counter-equivalent slot. -/
def REG_ELR : Nat := 32
/-- Modelled from the spec: the frame index `REG_SPSR` of the absent `arch/irq.h`, the
processor-status slot. -/
def REG_SPSR : Nat := 33

/-- Modelled from the spec: the mode value `SPSR_MODE_EL0T` (unprivileged) of the absent
`arm64_arch.h`. -/
def SPSR_MODE_EL0T : Nat := 0
/-- Modelled from the spec: the mode value `SPSR_MODE_EL1H` (privileged) of the absent
`arm64_arch.h`. -/
def SPSR_MODE_EL1H : Nat := 5
/-- Modelled from the spec: the mask `SPSR_MODE_MASK` of the mode field, of the absent
`arm64_arch.h`. -/
def SPSR_MODE_MASK : Nat := 0xf

/-- Modelled from the spec: the command `SYS_restore_context` of the absent `syscall.h`. -/
def SYS_restore_context : Nat := 1
/-- Modelled from the spec: the command `SYS_switch_context` of the absent `syscall.h`. -/
def SYS_switch_context : Nat := 2
/-- Modelled from the spec: the command `SYS_syscall_return` of the absent `syscall.h`. -/
def SYS_syscall_return : Nat := 3
/-- Modelled from the spec: the command `SYS_task_start` of the absent `syscall.h`. -/
def SYS_task_start : Nat := 4
/-- Modelled from the spec: the command `SYS_pthread_start` of the absent `syscall.h`. -/
def SYS_pthread_start : Nat := 5
/-- Modelled from the spec: the command `SYS_signal_handler` of the absent `syscall.h`. -/
def SYS_signal_handler : Nat := 6
/-- Modelled from the spec: the command `SYS_signal_handler_return` of the absent
`syscall.h`. -/
def SYS_signal_handler_return : Nat := 7

/-- The configuration: which `CONFIG_*` symbols are defined, and the constants and addresses
that the code takes from declarations outside the sources. -/
structure Config where
  CONFIG_LIB_SYSCALL : Bool
  CONFIG_BUILD_KERNEL : Bool
  CONFIG_BUILD_FLAT : Bool
  CONFIG_DISABLE_PTHREAD : Bool
  CONFIG_ARCH_KERNEL_STACK : Bool
  CONFIG_ARCH_ADDRENV : Bool
  CONFIG_SYS_RESERVED : Nat
  CONFIG_SYS_NNEST : Nat
  SYS_maxsyscall : Nat
  ARCH_KERNEL_STACKSIZE : Nat
  TCB_FLAG_SYSCALL : Nat
  dispatch_syscall : Nat
  ar_sigtramp : Nat
  REG_R2 : Nat
  sizeof_siginfo_t : Nat

/-- Modelled from the spec: the type `struct xcpt_syscall_s` of the absent `arch/irq.h`, the
saved return-address/status-register pair of one nesting level. -/
structure xcpt_syscall_s where
  sysreturn : Nat
  cpsr : Nat

/-- Modelled from the spec: the type `struct xcptcontext` of the absent `arch/irq.h`, with
the fields that the code uses; pointers are addresses, 0 is `NULL`; `syscall` is the array of
`CONFIG_SYS_NNEST` save slots. -/
structure xcptcontext where
  regs : Nat
  saved_regs : Nat
  sigdeliver : Nat
  sigreturn : Nat
  nsyscalls : Nat
  syscall : Nat → xcpt_syscall_s
  ustkptr : Nat
  kstack : Nat
  kstkptr : Nat

/-- Modelled from the spec: the type `struct tcb_s` of the absent `nuttx/sched.h`, with the
fields that the code uses. -/
structure tcb_s where
  flags : Nat
  xcp : xcptcontext

/-- The calls to collaborators whose code is outside the sources. -/
inductive ExternCall where
  | addrenv_switch
  | restore_critical_section
  | nxsig_unmask_pendingsignal
  deriving DecidableEq, Repr

/-- The state: the memory, the task control block of the running task (`nxsched_self()`),
the record `g_running_tasks`, the values of `this_cpu()` and `this_task()`, and the calls to
collaborators made so far. -/
structure KState where
  mem : Mem
  tcb : tcb_s
  g_running_tasks : Nat → Nat
  this_cpu : Nat
  this_task : Nat
  calls : List ExternCall

/-- Modelled from the spec: the macro `DEBUGASSERT` of the absent `assert.h`; a failed
assertion is fatal. The result of a function is its return value and the state after the
call, or the state in which an assertion failed. -/
inductive Outcome (α : Type) where
  | ok (ret : α) (s : KState)
  | assert_failed (s : KState)

/-- The frame slot `regs[i]`. -/
def reg (m : Mem) (regs i : Nat) : Nat := load64 m (regs + 8 * i)

/-- The assignment `regs[i] = v`. -/
def setreg (m : Mem) (regs i v : Nat) : Mem := store64 m (regs + 8 * i) v

/-- The expression `x & ~m`, at any width of `x`. -/
def clearBits (x m : Nat) : Nat := x ^^^ (x &&& m)

/-- The library function `memcpy` on regions that do not overlap. -/
def memcpy (m : Mem) (dst src n : Nat) : Mem :=
  fun x => if dst ≤ x ∧ x < dst + n then load8 m (src + (x - dst)) else m x

/-- The statements of `arm64_syscall_switch` after its `switch`: the context-change side
effects when the resume frame is not the input frame, and the return. -/
def arm64_syscall_switch_tail (cfg : Config) (regs ret_regs : Nat) (s : KState) :
    Outcome Nat :=
  if regs ≠ ret_regs then
    let calls1 :=
      if cfg.CONFIG_ARCH_ADDRENV then s.calls ++ [ExternCall.addrenv_switch] else s.calls
    Outcome.ok ret_regs { s with
      g_running_tasks := fun c => if c = s.this_cpu then s.this_task else s.g_running_tasks c,
      calls := calls1 ++ [ExternCall.restore_critical_section] }
  else Outcome.ok ret_regs s

/-- The function `arm64_syscall_switch`; the result is the resume frame pointer. -/
def arm64_syscall_switch (cfg : Config) (regs : Nat) (s : KState) : Outcome Nat :=
  if regs = 0 then Outcome.assert_failed s
  else
    let cmd := reg s.mem regs REG_X0
    if cmd = SYS_restore_context then
      let ret_regs := reg s.mem regs REG_X1
      let s1 : KState := { s with mem := setreg s.mem regs REG_X1 0 }
      if ret_regs = 0 then Outcome.assert_failed s1
      else arm64_syscall_switch_tail cfg regs ret_regs s1
    else if cmd = SYS_switch_context then
      if ¬ (reg s.mem regs REG_X1 ≠ 0 ∧ reg s.mem regs REG_X2 ≠ 0) then Outcome.assert_failed s
      else
        let s1 : KState := { s with mem := store64 s.mem (reg s.mem regs REG_X1) regs }
        let ret_regs := reg s1.mem regs REG_X2
        arm64_syscall_switch_tail cfg regs ret_regs s1
    else Outcome.ok 0 s

/-- The case `SYS_syscall_return` of `arm64_syscall`. -/
def arm64_syscall_return (cfg : Config) (regs : Nat) (s : KState) : Outcome Int :=
  let rtcb := s.tcb
  let index : Int := (rtcb.xcp.nsyscalls : Int) - 1
  if ¬ (index ≥ 0) then Outcome.assert_failed s
  else
    let mem1 := setreg s.mem regs REG_ELR (rtcb.xcp.syscall index.toNat).sysreturn
    let mem2 :=
      if cfg.CONFIG_BUILD_KERNEL then setreg mem1 regs REG_SPSR (rtcb.xcp.syscall index.toNat).cpsr
      else mem1
    let mem3 := setreg mem2 regs REG_X0 (reg mem2 regs REG_X2)
    let restore := cfg.CONFIG_ARCH_KERNEL_STACK = true ∧ index = 0 ∧ rtcb.xcp.ustkptr ≠ 0
    let mem4 := if restore then setreg mem3 regs REG_SP_ELX rtcb.xcp.ustkptr else mem3
    let ustkptr1 := if restore then 0 else rtcb.xcp.ustkptr
    Outcome.ok 0 { s with
      mem := mem4,
      tcb := { flags := clearBits rtcb.flags cfg.TCB_FLAG_SYSCALL,
               xcp := { rtcb.xcp with ustkptr := ustkptr1, nsyscalls := index.toNat } },
      calls := s.calls ++ [ExternCall.nxsig_unmask_pendingsignal] }

/-- The cases `SYS_task_start` and `SYS_pthread_start` of `arm64_syscall`, which have the
same statements. -/
def arm64_syscall_start (regs : Nat) (s : KState) : Outcome Int :=
  let mem1 := setreg s.mem regs REG_ELR (reg s.mem regs REG_X1)
  let mem2 := setreg mem1 regs REG_X0 (reg mem1 regs REG_X2)
  let mem3 := setreg mem2 regs REG_X1 (reg mem2 regs REG_X3)
  let mem4 := setreg mem3 regs REG_SPSR
    ((reg mem3 regs REG_SPSR &&& not64 SPSR_MODE_MASK) ||| SPSR_MODE_EL0T)
  Outcome.ok 0 { s with mem := mem4 }

/-- The case `SYS_signal_handler` of `arm64_syscall`. -/
def arm64_syscall_signal_handler (cfg : Config) (regs : Nat) (s : KState) : Outcome Int :=
  let rtcb := s.tcb
  if ¬ (rtcb.xcp.sigreturn = 0) then Outcome.assert_failed s
  else
    let xcp1 : xcptcontext := { rtcb.xcp with sigreturn := reg s.mem regs REG_ELR }
    let mem1 := setreg s.mem regs REG_ELR cfg.ar_sigtramp
    let mem2 := setreg mem1 regs REG_SPSR
      ((reg mem1 regs REG_SPSR &&& not64 SPSR_MODE_MASK) ||| SPSR_MODE_EL0T)
    let mem3 := setreg mem2 regs REG_X0 (reg mem2 regs REG_X1)
    let mem4 := setreg mem3 regs REG_X1 (reg mem3 regs REG_X2)
    let mem5 := setreg mem4 regs REG_X2 (reg mem4 regs REG_X3)
    let mem6 := setreg mem5 regs REG_X3 (reg mem5 regs REG_X4)
    let s1 : KState := { s with mem := mem6, tcb := { rtcb with xcp := xcp1 } }
    if cfg.CONFIG_ARCH_KERNEL_STACK = true ∧ xcp1.kstack ≠ 0 then
      if ¬ (xcp1.kstkptr = 0) then Outcome.assert_failed s1
      else
        let usp0 :=
          if xcp1.sigdeliver ≠ 0 then reg mem6 xcp1.saved_regs REG_SP_ELX
          else reg mem6 xcp1.regs REG_SP_ELX
        let usp := sub64 usp0 cfg.sizeof_siginfo_t
        let mem7 := memcpy mem6 usp (reg mem6 regs cfg.REG_R2) cfg.sizeof_siginfo_t
        let xcp2 : xcptcontext := { xcp1 with kstkptr := reg mem7 regs REG_SP_ELX }
        let mem8 := setreg mem7 regs REG_SP_ELX usp
        let mem9 := setreg mem8 regs REG_X2 usp
        Outcome.ok 0 { s with mem := mem9, tcb := { rtcb with xcp := xcp2 } }
    else Outcome.ok 0 s1

/-- The case `SYS_signal_handler_return` of `arm64_syscall`. -/
def arm64_syscall_signal_handler_return (cfg : Config) (regs : Nat) (s : KState) :
    Outcome Int :=
  let rtcb := s.tcb
  if ¬ (rtcb.xcp.sigreturn ≠ 0) then Outcome.assert_failed s
  else
    let mem1 := setreg s.mem regs REG_ELR rtcb.xcp.sigreturn
    let mem2 := setreg mem1 regs REG_SPSR
      ((reg mem1 regs REG_SPSR &&& not64 SPSR_MODE_MASK) ||| SPSR_MODE_EL1H)
    let xcp1 : xcptcontext := { rtcb.xcp with sigreturn := 0 }
    let s1 : KState := { s with mem := mem2, tcb := { rtcb with xcp := xcp1 } }
    if cfg.CONFIG_ARCH_KERNEL_STACK = true ∧ xcp1.kstack ≠ 0 then
      if ¬ (xcp1.kstkptr ≠ 0) then Outcome.assert_failed s1
      else
        let mem3 := setreg mem2 regs REG_SP_ELX xcp1.kstkptr
        Outcome.ok 0 { s with mem := mem3, tcb := { rtcb with xcp := { xcp1 with kstkptr := 0 } } }
    else Outcome.ok 0 s1

/-- The `default` label of `arm64_syscall`: the service-call dispatch. -/
def arm64_syscall_default (cfg : Config) (regs cmd : Nat) (s : KState) : Outcome Int :=
  if cfg.CONFIG_LIB_SYSCALL then
    let rtcb := s.tcb
    let index := rtcb.xcp.nsyscalls
    if ¬ (cmd ≥ cfg.CONFIG_SYS_RESERVED ∧ cmd < cfg.SYS_maxsyscall) then Outcome.assert_failed s
    else if ¬ (index < cfg.CONFIG_SYS_NNEST) then Outcome.assert_failed s
    else
      let slot1 : xcpt_syscall_s :=
        { sysreturn := reg s.mem regs REG_ELR,
          cpsr := if cfg.CONFIG_BUILD_KERNEL then reg s.mem regs REG_SPSR
                  else (rtcb.xcp.syscall index).cpsr }
      let mem1 := setreg s.mem regs REG_ELR cfg.dispatch_syscall
      let mem2 :=
        if cfg.CONFIG_BUILD_KERNEL then
          setreg mem1 regs REG_SPSR
            ((reg mem1 regs REG_SPSR &&& not64 SPSR_MODE_MASK) ||| SPSR_MODE_EL1H)
        else mem1
      let mem3 := setreg mem2 regs REG_X0 (sub64 (reg mem2 regs REG_X0) cfg.CONFIG_SYS_RESERVED)
      let switch := cfg.CONFIG_ARCH_KERNEL_STACK = true ∧ index = 0 ∧ rtcb.xcp.kstack ≠ 0
      let ustkptr1 := if switch then reg mem3 regs REG_SP_ELX else rtcb.xcp.ustkptr
      let mem4 :=
        if switch then
          if rtcb.xcp.kstkptr ≠ 0 then setreg mem3 regs REG_SP_ELX rtcb.xcp.kstkptr
          else setreg mem3 regs REG_SP_ELX (u64 (rtcb.xcp.kstack + cfg.ARCH_KERNEL_STACKSIZE))
        else mem3
      Outcome.ok 0 { s with
        mem := mem4,
        tcb := { flags := rtcb.flags ||| cfg.TCB_FLAG_SYSCALL,
                 xcp := { rtcb.xcp with
                   syscall := fun i => if i = index then slot1 else rtcb.xcp.syscall i,
                   ustkptr := ustkptr1,
                   nsyscalls := index + 1 } } }
  else Outcome.ok 0 s

/-- The function `arm64_syscall`: a case label is present when its `#ifdef` holds. -/
def arm64_syscall (cfg : Config) (regs : Nat) (s : KState) : Outcome Int :=
  if regs = 0 then Outcome.assert_failed s
  else
    let cmd := reg s.mem regs REG_X0
    if cfg.CONFIG_LIB_SYSCALL = true ∧ cmd = SYS_syscall_return then
      arm64_syscall_return cfg regs s
    else if cfg.CONFIG_BUILD_KERNEL = true ∧ cmd = SYS_task_start then
      arm64_syscall_start regs s
    else if (cfg.CONFIG_BUILD_FLAT = false ∧ cfg.CONFIG_DISABLE_PTHREAD = false) ∧
        cmd = SYS_pthread_start then
      arm64_syscall_start regs s
    else if cfg.CONFIG_BUILD_KERNEL = true ∧ cmd = SYS_signal_handler then
      arm64_syscall_signal_handler cfg regs s
    else if cfg.CONFIG_BUILD_KERNEL = true ∧ cmd = SYS_signal_handler_return then
      arm64_syscall_signal_handler_return cfg regs s
    else arm64_syscall_default cfg regs cmd s

/-! Concrete inputs used to evaluate the code. -/

/-- A frame at address 0x1000 of a zeroed memory with the slots X0, X1 and X2 set. -/
def frameAt (x0 x1 x2 : Nat) : Mem :=
  setreg (setreg (setreg (fun _ => 0) 0x1000 REG_X0 x0) 0x1000 REG_X1 x1) 0x1000 REG_X2 x2

/-- A kernel-build configuration with service calls, without kernel stacks. -/
def cfgKernel : Config :=
  { CONFIG_LIB_SYSCALL := true, CONFIG_BUILD_KERNEL := true, CONFIG_BUILD_FLAT := false,
    CONFIG_DISABLE_PTHREAD := false, CONFIG_ARCH_KERNEL_STACK := false,
    CONFIG_ARCH_ADDRENV := false, CONFIG_SYS_RESERVED := 8, CONFIG_SYS_NNEST := 2,
    SYS_maxsyscall := 100, ARCH_KERNEL_STACKSIZE := 4096, TCB_FLAG_SYSCALL := 1024,
    dispatch_syscall := 0x4000, ar_sigtramp := 0x8000, REG_R2 := 2, sizeof_siginfo_t := 24 }

/-- A task control block at nesting level `n` whose save slots all hold `(a, c)`. -/
def tcbAt (n a c : Nat) : tcb_s :=
  { flags := 0,
    xcp := { regs := 0, saved_regs := 0, sigdeliver := 0, sigreturn := 0, nsyscalls := n,
             syscall := fun _ => { sysreturn := a, cpsr := c }, ustkptr := 0, kstack := 0,
             kstkptr := 0 } }

/-- A state with memory `m` and task control block `t`, no call made yet. -/
def stateAt (m : Mem) (t : tcb_s) : KState :=
  { mem := m, tcb := t, g_running_tasks := fun _ => 0, this_cpu := 0, this_task := 0x9000,
    calls := [] }

/-- The state carried by an outcome: the state after the call, or the state in which an
assertion failed. -/
def Outcome.state {α : Type} : Outcome α → KState
  | Outcome.ok _ s => s
  | Outcome.assert_failed s => s

/-- The kernel-build configuration `cfgKernel` with `CONFIG_ARCH_KERNEL_STACK`. -/
def cfgKernelStack : Config := { cfgKernel with CONFIG_ARCH_KERNEL_STACK := true }

/-- A task control block at nesting level `n` with a kernel stack at `kstack`, the saved
kernel stack pointer `kstkptr`, the saved user stack pointer `ustkptr` and the saved context
at `regs`. -/
def tcbStackAt (n kstack kstkptr ustkptr regs : Nat) : tcb_s :=
  { flags := 0,
    xcp := { regs := regs, saved_regs := 0, sigdeliver := 0, sigreturn := 0, nsyscalls := n,
             syscall := fun _ => { sysreturn := 0, cpsr := 0 }, ustkptr := ustkptr,
             kstack := kstack, kstkptr := kstkptr } }

/-! ## The accesses to the save array, sequences of traps -/

/-- The indices of the accesses `rtcb->xcp.syscall[index]` made by the case
`SYS_syscall_return` of `arm64_syscall`, in program order: after the assertion, the read of
`sysreturn` and, in a kernel build, the read of `cpsr`. -/
def arm64_syscall_return_indices (cfg : Config) (s : KState) : List Int :=
  let index : Int := (s.tcb.xcp.nsyscalls : Int) - 1
  if ¬ (index ≥ 0) then []
  else if cfg.CONFIG_BUILD_KERNEL then [index, index] else [index]

/-- The indices of the accesses `rtcb->xcp.syscall[index]` made by the `default` label of
`arm64_syscall`, in program order: after the two assertions, the write of `sysreturn` and, in
a kernel build, the write of `cpsr`. -/
def arm64_syscall_default_indices (cfg : Config) (cmd : Nat) (s : KState) : List Int :=
  if cfg.CONFIG_LIB_SYSCALL then
    let index : Int := (s.tcb.xcp.nsyscalls : Int)
    if ¬ (cmd ≥ cfg.CONFIG_SYS_RESERVED ∧ cmd < cfg.SYS_maxsyscall) then []
    else if ¬ (index < cfg.CONFIG_SYS_NNEST) then []
    else if cfg.CONFIG_BUILD_KERNEL then [index, index] else [index]
  else []

/-- The indices of the accesses to the save array `xcp.syscall[]` made by a call of
`arm64_syscall`, in program order; the cases other than `SYS_syscall_return` and `default`
make no access. -/
def arm64_syscall_indices (cfg : Config) (regs : Nat) (s : KState) : List Int :=
  if regs = 0 then []
  else
    let cmd := reg s.mem regs REG_X0
    if cfg.CONFIG_LIB_SYSCALL = true ∧ cmd = SYS_syscall_return then
      arm64_syscall_return_indices cfg s
    else if cfg.CONFIG_BUILD_KERNEL = true ∧ cmd = SYS_task_start then []
    else if (cfg.CONFIG_BUILD_FLAT = false ∧ cfg.CONFIG_DISABLE_PTHREAD = false) ∧
        cmd = SYS_pthread_start then []
    else if cfg.CONFIG_BUILD_KERNEL = true ∧ cmd = SYS_signal_handler then []
    else if cfg.CONFIG_BUILD_KERNEL = true ∧ cmd = SYS_signal_handler_return then []
    else arm64_syscall_default_indices cfg cmd s

/-- A sequence of traps handled by `arm64_syscall`. Each trap has its own frame: a pair
`(m, regs)` is the memory at the time of the trap and the address of the frame in it; the task
control block and the rest of the state pass from one trap to the next. The result is the
list of the states after the traps, or `none` when an assertion fails. -/
def runTraps (cfg : Config) : List (Mem × Nat) → KState → Option (List KState)
  | [], _ => some []
  | t :: ts, s =>
    match arm64_syscall cfg t.2 { s with mem := t.1 } with
    | Outcome.ok _ s1 =>
      match runTraps cfg ts s1 with
      | some l => some (s1 :: l)
      | none => none
    | Outcome.assert_failed _ => none

/-! ## The dispatch trampoline `dispatch_syscall` -/

/-- Addition of `uint64_t` values (wraps modulo `2 ^ 64`). -/
def add64 (a b : Nat) : Nat := (a + b) % 2 ^ 64

/-- The processor state that the assembly code of `dispatch_syscall` uses: the general
registers `x0` to `x30` (`lr` is `x30`), the stack pointer and the memory. -/
structure Cpu where
  x : Nat → Nat
  sp : Nat
  mem : Mem

/-- The assignment of `v` to the general register `i`. -/
def setx (c : Cpu) (i v : Nat) : Cpu := { c with x := fun j => if j = i then v else c.x j }

/-- The store `str xi, [sp, #off]` of a 64-bit register. -/
def str_sp (c : Cpu) (i off : Nat) : Cpu :=
  { c with mem := store64 c.mem (add64 c.sp off) (c.x i) }

/-- The assembly code of `dispatch_syscall`, instruction by instruction, up to its `svc`: the
result is the processor state in which `svc` is executed. `g_stublookup` is the address of
the stub table, `ret` the return address that `BLR` places in `lr`, and `stub a c` the state
in which the stub at address `a`, called in the state `c`, returns. -/
def dispatch_syscall (g_stublookup ret : Nat) (stub : Nat → Cpu → Cpu) (c : Cpu) : Cpu :=
  -- sub sp, sp, #8*8
  let c1 : Cpu := { c with sp := sub64 c.sp (8 * 8) }
  -- str x4, [sp, #0]
  let c2 := str_sp c1 4 0
  -- str x5, [sp, #4]
  let c3 := str_sp c2 5 4
  -- str x6, [sp, #8]
  let c4 := str_sp c3 6 8
  -- str lr, [sp, #12]
  let c5 := str_sp c4 30 12
  -- ldr x16, =g_stublookup
  let c6 := setx c5 16 g_stublookup
  -- ldr x16, [x16, x0, lsl #3]
  let c7 := setx c6 16 (load64 c6.mem (add64 (c6.x 16) (u64 (c6.x 0 <<< 3))))
  -- BLR X16
  let c8 := stub (c7.x 16) (setx c7 30 ret)
  -- ldr lr, [sp, #12]
  let c9 := setx c8 30 (load64 c8.mem (add64 c8.sp 12))
  -- add sp, sp, #16
  let c10 : Cpu := { c9 with sp := add64 c9.sp 16 }
  -- mov x2, x0
  let c11 := setx c10 2 (c10.x 0)
  -- mov x0, SYS_syscall_return
  let c12 := setx c11 0 SYS_syscall_return
  c12

/-- A stub that returns 0x2a in `x0` and changes nothing else. -/
def stubConst (_a : Nat) (c : Cpu) : Cpu := setx c 0 0x2a

end Arm64Syscall

/-!
# Address translation (`arch/arm64/src/common/arm64_physpgaddr.c`)

A shallow embedding of `arm64_physpgaddr`. The page tables are read from the byte-addressed
memory; the declarations of the headers outside the sources are a record `PgEnv`.
-/

namespace Arm64Physpgaddr

open Arm64Elf

/-- The declarations that `arm64_physpgaddr.c` takes from headers outside the sources: the
test `arm64_uservaddr` of the user address regions, the translation `arm64_pgvaddr` of a page
table address, and the masks and the shift of the page tables. -/
structure PgEnv where
  arm64_uservaddr : Nat → Bool
  arm64_pgvaddr : Nat → Nat
  PMD_PTE_PADDR_MASK : Nat
  SECTION_MASK : Nat
  PTE_SMALL_PADDR_MASK : Nat
  MM_PGSHIFT : Nat
  MM_PGMASK : Nat

/-- The function `arm64_physpgaddr`. The level 1 entry is the constant 0, the call of
`mmu_l1_getentry` being commented out, and the walk of the level 2 table is guarded by
`if (0)`. The call of `up_invalidate_dcache` inside the walk does not change the contents of
the memory and is left out. -/
def arm64_physpgaddr (env : PgEnv) (mem : Mem) (vaddr : Nat) : Nat :=
  if env.arm64_uservaddr vaddr = true then
    let l1entry : Nat := 0
    if (0 : Nat) ≠ 0 then
      let paddr := l1entry &&& env.PMD_PTE_PADDR_MASK
      let l2table := env.arm64_pgvaddr paddr
      if l2table ≠ 0 then
        let index := (vaddr &&& env.SECTION_MASK) >>> env.MM_PGSHIFT
        let paddr1 := load32 mem (l2table + 4 * index) &&& env.PTE_SMALL_PADDR_MASK
        u64 (paddr1 + (vaddr &&& env.MM_PGMASK))
      else 0
    else 0
  else 0

end Arm64Physpgaddr

/-!
# The stream list (`libs/libc/stdio/lib_fclose.c`)

A shallow embedding of the part of `fclose` that removes the `FILE` from the stream list.

* A `FILE` is its address; its field `fs_next` is a function of the state; 0 is `NULL`.
* The flush of the stream, the close callback, `errno`, the mutexes and the release of the
  `FILE` are calls to collaborators outside the sources and are not part of the state.
* The `for` loop takes a bound on its number of iterations.
-/

namespace LibFclose

/-- Modelled from the spec: the type `struct streamlist` of the absent `nuttx/fs/fs.h`, with
the fields that the code uses: the first and the last `FILE` of the list. -/
structure streamlist where
  sl_head : Nat
  sl_tail : Nat

/-- The state: the field `fs_next` of the `FILE` at each address (a type of the absent
`nuttx/fs/fs.h`) and the stream list returned by `lib_get_streams()`. -/
structure StdioState where
  fs_next : Nat → Nat
  slist : streamlist

/-- The addresses of the builtin streams `stdin`, `stdout` and `stderr`, declared outside the
sources. -/
structure Builtin where
  stdin : Nat
  stdout : Nat
  stderr : Nat

/-- The `for` loop of `fclose`, entered with the values of `prev` and `next`. The first
argument after `stream` bounds the number of iterations; the result is `none` when the loop
has not ended within the bound, or when it stores through a null `prev`. -/
def fclose_loop (stream : Nat) : Nat → Nat → Nat → StdioState → Option StdioState
  | 0, _, _, _ => none
  | fuel + 1, prev, next, s =>
    if next = 0 then some s
    else if next = stream then
      if next = s.slist.sl_head then
        let s1 : StdioState := { s with slist := { s.slist with sl_head := s.fs_next next } }
        if next = s1.slist.sl_tail then
          some { s1 with slist := { s1.slist with sl_tail := prev } }
        else some s1
      else if prev = 0 then none
      else
        let s1 : StdioState :=
          { s with fs_next := fun x => if x = prev then s.fs_next next else s.fs_next x }
        if next = s1.slist.sl_tail then
          some { s1 with slist := { s1.slist with sl_tail := prev } }
        else some s1
    else fclose_loop stream fuel next (s.fs_next next) s

/-- The effect of `fclose` on the stream list: nothing for a null or a builtin stream,
otherwise the loop from `sl_head` with `prev = NULL`. -/
def fclose (b : Builtin) (fuel : Nat) (stream : Nat) (s : StdioState) : Option StdioState :=
  if stream ≠ 0 then
    if stream = b.stdin ∨ stream = b.stdout ∨ stream = b.stderr then some s
    else fclose_loop stream fuel 0 s.slist.sl_head s
  else some s

/-- A list segment: following `fs_next` from `h` visits exactly the addresses of `l`, all
non-null, in order, and then reaches `q`. -/
def IsSeg (nxt : Nat → Nat) : Nat → List Nat → Nat → Prop
  | h, [], q => h = q
  | h, x :: xs, q => h = x ∧ x ≠ 0 ∧ IsSeg nxt (nxt x) xs q

/-- The stream list of the state holds exactly the streams `l`, in order: the links lead from
`sl_head` through `l` to `NULL`, and `sl_tail` is the last stream (`NULL` for the empty
list). -/
def IsStreamList (s : StdioState) (l : List Nat) : Prop :=
  IsSeg s.fs_next s.slist.sl_head l 0 ∧ s.slist.sl_tail = l.getLastD 0

instance decIsSeg (nxt : Nat → Nat) : ∀ (h : Nat) (l : List Nat) (q : Nat),
    Decidable (IsSeg nxt h l q)
  | h, [], q => inferInstanceAs (Decidable (h = q))
  | _, x :: xs, q =>
    @instDecidableAnd _ _ _ (@instDecidableAnd _ _ _ (decIsSeg nxt (nxt x) xs q))

instance decIsStreamList (s : StdioState) (l : List Nat) : Decidable (IsStreamList s l) :=
  inferInstanceAs (Decidable (_ ∧ _))

/-- A list of three streams at 0x100, 0x200 and 0x300. -/
def threeStreams : StdioState :=
  { fs_next := fun x => if x = 0x100 then 0x200 else if x = 0x200 then 0x300 else 0,
    slist := { sl_head := 0x100, sl_tail := 0x300 } }

end LibFclose

namespace Arm64Elf

open aarch64_insn_imm_type aarch64_reloc_op aarch64_insn_movw_imm_type

/-! ## Machine integers and memory: basic facts -/

theorem load16_store16 (m : Mem) (a v : Nat) : load16 (store16 m a v) a = v % 2 ^ 16 := by
  simp only [load16, load8, store16, store8]
  simp [Nat.add_assoc]
  omega

theorem load32_store32 (m : Mem) (a v : Nat) : load32 (store32 m a v) a = v % 2 ^ 32 := by
  simp only [load32, load16, load8, store32, store16, store8]
  simp [Nat.add_assoc]
  omega

theorem load64_store64 (m : Mem) (a v : Nat) : load64 (store64 m a v) a = v % 2 ^ 64 := by
  simp only [load64, load32, load16, load8, store64, store32, store16, store8]
  simp [Nat.add_assoc]
  omega

theorem load32_lt (m : Mem) (a : Nat) : load32 m a < 2 ^ 32 := by
  simp only [load32, load16, load8]
  omega

theorem toU64_toS64 (n : Nat) : toU64 (toS64 n) = n % 2 ^ 64 := by
  unfold toU64 toS64
  split <;> omega

theorem toU64_lt (i : Int) : toU64 i < 2 ^ 64 := by
  unfold toU64
  omega

theorem toU64_mod (i : Int) : toU64 i % 2 ^ 64 = toU64 i := Nat.mod_eq_of_lt (toU64_lt i)

theorem toU64_cast (i : Int) : ((toU64 i : Nat) : Int) = i % 2 ^ 64 := by
  unfold toU64
  omega

theorem toU64_mod_16 (x : Int) : ((toU64 x % 2 ^ 16 : Nat) : Int) = x % 2 ^ 16 := by
  unfold toU64
  omega

theorem toU64_mod_32 (x : Int) : ((toU64 x % 2 ^ 32 : Nat) : Int) = x % 2 ^ 32 := by
  unfold toU64
  omega

theorem sub64_toU64 (x : Int) (a : Nat) : sub64 (toU64 x) (u64 a) = toU64 (x - a) := by
  unfold sub64 toU64 u64
  omega

theorem do_reloc_abs (x : Int) (a : Nat) : do_reloc RELOC_OP_ABS a (toU64 x) = toU64 x := rfl

theorem do_reloc_prel (x : Int) (a : Nat) :
    do_reloc RELOC_OP_PREL a (toU64 x) = toU64 (x - a) := sub64_toU64 x a

/-! ## Data relocations -/

theorem up_relocateadd_data (rel : Elf_Rela) (sym : Elf_Sym) (addr : Nat) (mem : Mem)
    (e : Nat × aarch64_reloc_op × Nat) (he : e ∈ dataKinds) (ht : ELF_R_TYPE rel.r_info = e.1) :
    up_relocateadd rel (some sym) addr mem =
      some (reloc_data e.2.1 addr (toU64 ((sym.st_value : Int) + rel.r_addend)) e.2.2 mem) := by
  simp only [dataKinds, List.mem_cons, List.mem_singleton, List.not_mem_nil, or_false] at he
  rcases he with rfl | rfl | rfl | rfl | rfl | rfl <;>
    simp [up_relocateadd, ht, R_AARCH64_NONE, R_AARCH64_ABS64, R_AARCH64_ABS32, R_AARCH64_ABS16,
      R_AARCH64_PREL64, R_AARCH64_PREL32, R_AARCH64_PREL16]

theorem reloc_data_mem (op : aarch64_reloc_op) (place val len : Nat) (mem : Mem) :
    (reloc_data op place val len mem).2 =
      if len = 16 then store16 mem place (toU64 (toS64 (do_reloc op place val)))
      else if len = 32 then store32 mem place (toU64 (toS64 (do_reloc op place val)))
      else if len = 64 then store64 mem place (toU64 (toS64 (do_reloc op place val)))
      else mem := by
  unfold reloc_data
  cases op <;> simp only <;> split_ifs <;> rfl

theorem reloc_data_ret_abs (place val len : Nat) (mem : Mem) (hl : len = 16 ∨ len = 32) :
    (reloc_data RELOC_OP_ABS place val len mem).1 =
      if toS64 val < 0 ∨ toS64 val > 2 ^ len - 1 then -ERANGE else 0 := by
  unfold reloc_data
  rcases hl with rfl | rfl <;> simp only [do_reloc, UINT16_MAX, UINT32_MAX] <;> norm_num <;>
    split_ifs <;> rfl

theorem reloc_data_ret_prel (place val len : Nat) (mem : Mem) (hl : len = 16 ∨ len = 32) :
    (reloc_data RELOC_OP_PREL place val len mem).1 =
      if toS64 (do_reloc RELOC_OP_PREL place val) < -2 ^ (len - 1) ∨
         toS64 (do_reloc RELOC_OP_PREL place val) > 2 ^ (len - 1) - 1 then -ERANGE else 0 := by
  unfold reloc_data
  rcases hl with rfl | rfl <;>
    simp only [INT16_MIN, INT16_MAX, INT32_MIN, INT32_MAX] <;> norm_num <;>
    split_ifs <;> rfl

theorem reloc_data_ret_64 (op : aarch64_reloc_op) (place val : Nat) (mem : Mem) :
    (reloc_data op place val 64 mem).1 = 0 := by
  unfold reloc_data
  simp

/-- C2: for `R_AARCH64_ABS16` and `R_AARCH64_ABS32` (width `w`), `up_relocateadd` returns 0
exactly when symbol + addend, read as a signed 64-bit value, lies in `[0, 2 ^ w - 1]`, and
`-ERANGE` otherwise; for ABS16, symbol + addend = 0x10000 gives `-ERANGE`, and
symbol + addend = 0xFFFF gives 0 with the 16-bit target holding 0xFFFF. -/
theorem abs_data_range (rel : Elf_Rela) (sym : Elf_Sym) (addr : Nat) (mem : Mem) (w : Nat)
    (hw : (w = 16 ∧ ELF_R_TYPE rel.r_info = R_AARCH64_ABS16) ∨
          (w = 32 ∧ ELF_R_TYPE rel.r_info = R_AARCH64_ABS32)) :
    ∃ r mem', up_relocateadd rel (some sym) addr mem = some (r, mem') ∧
      (r = 0 ↔ 0 ≤ toS64 (toU64 (sym.st_value + rel.r_addend)) ∧
                toS64 (toU64 (sym.st_value + rel.r_addend)) ≤ 2 ^ w - 1) ∧
      (r = -ERANGE ↔ ¬ (0 ≤ toS64 (toU64 (sym.st_value + rel.r_addend)) ∧
                toS64 (toU64 (sym.st_value + rel.r_addend)) ≤ 2 ^ w - 1)) ∧
      (w = 16 → (sym.st_value : Int) + rel.r_addend = 0x10000 → r = -ERANGE) ∧
      (w = 16 → (sym.st_value : Int) + rel.r_addend = 0xFFFF →
        r = 0 ∧ load16 mem' addr = 0xFFFF) := by
  have hret : up_relocateadd rel (some sym) addr mem =
      some (reloc_data RELOC_OP_ABS addr (toU64 (sym.st_value + rel.r_addend)) w mem) := by
    rcases hw with ⟨rfl, ht⟩ | ⟨rfl, ht⟩
    · exact up_relocateadd_data rel sym addr mem (R_AARCH64_ABS16, RELOC_OP_ABS, 16)
        (by simp [dataKinds]) ht
    · exact up_relocateadd_data rel sym addr mem (R_AARCH64_ABS32, RELOC_OP_ABS, 32)
        (by simp [dataKinds]) ht
  have hl : w = 16 ∨ w = 32 := hw.imp And.left And.left
  refine ⟨(reloc_data RELOC_OP_ABS addr (toU64 (sym.st_value + rel.r_addend)) w mem).1,
    (reloc_data RELOC_OP_ABS addr (toU64 (sym.st_value + rel.r_addend)) w mem).2, hret, ?_⟩
  rw [reloc_data_ret_abs _ _ _ _ hl, reloc_data_mem]
  refine ⟨?_, ?_, ?_, ?_⟩
  · rcases hl with rfl | rfl <;> simp only [ERANGE] <;> split_ifs <;> simp <;> omega
  · rcases hl with rfl | rfl <;> simp only [ERANGE] <;> split_ifs <;> simp <;> omega
  · intro h16 h
    subst h16
    rw [h]
    decide
  · intro h16 h
    subst h16
    rw [h]
    refine ⟨by decide, ?_⟩
    simp only [if_true, load16_store16, do_reloc_abs, toU64_toS64, toU64_mod]
    decide

/-- Witness for C2: ABS16 with symbol 0xFFFF and addend 0 at address 64 of a zeroed image. -/
theorem abs_data_range_witness :
    ((16 = 16 ∧ ELF_R_TYPE (Elf_Rela.mk 0 259 0).r_info = R_AARCH64_ABS16) ∨
     (16 = 32 ∧ ELF_R_TYPE (Elf_Rela.mk 0 259 0).r_info = R_AARCH64_ABS32)) ∧
    ∃ r mem', up_relocateadd (Elf_Rela.mk 0 259 0) (some (Elf_Sym.mk 0 0 0 0 0xFFFF 0)) 64
        (fun _ => 0) = some (r, mem') ∧ r = 0 ∧ load16 mem' 64 = 0xFFFF := by
  have hw : (16 = 16 ∧ ELF_R_TYPE (Elf_Rela.mk 0 259 0).r_info = R_AARCH64_ABS16) ∨
     (16 = 32 ∧ ELF_R_TYPE (Elf_Rela.mk 0 259 0).r_info = R_AARCH64_ABS32) :=
    Or.inl ⟨rfl, by decide⟩
  obtain ⟨r, mem', h, _, _, _, h5⟩ :=
    abs_data_range (Elf_Rela.mk 0 259 0) (Elf_Sym.mk 0 0 0 0 0xFFFF 0) 64 (fun _ => 0) 16 hw
  exact ⟨hw, r, mem', h, h5 rfl (by decide)⟩

/-- C3: for `R_AARCH64_PREL16` and `R_AARCH64_PREL32` (width `w`), `up_relocateadd` returns
`-ERANGE` exactly when symbol + addend - target, read as a signed 64-bit value, is outside
`[-2 ^ (w - 1), 2 ^ (w - 1) - 1]`, and 0 otherwise. -/
theorem prel_data_range (rel : Elf_Rela) (sym : Elf_Sym) (addr : Nat) (mem : Mem) (w : Nat)
    (hw : (w = 16 ∧ ELF_R_TYPE rel.r_info = R_AARCH64_PREL16) ∨
          (w = 32 ∧ ELF_R_TYPE rel.r_info = R_AARCH64_PREL32)) :
    ∃ r mem', up_relocateadd rel (some sym) addr mem = some (r, mem') ∧
      (r = -ERANGE ↔ (toS64 (toU64 (sym.st_value + rel.r_addend - addr)) < -2 ^ (w - 1) ∨
                toS64 (toU64 (sym.st_value + rel.r_addend - addr)) > 2 ^ (w - 1) - 1)) ∧
      (r = 0 ↔ ¬ (toS64 (toU64 (sym.st_value + rel.r_addend - addr)) < -2 ^ (w - 1) ∨
                toS64 (toU64 (sym.st_value + rel.r_addend - addr)) > 2 ^ (w - 1) - 1)) := by
  have hret : up_relocateadd rel (some sym) addr mem =
      some (reloc_data RELOC_OP_PREL addr (toU64 (sym.st_value + rel.r_addend)) w mem) := by
    rcases hw with ⟨rfl, ht⟩ | ⟨rfl, ht⟩
    · exact up_relocateadd_data rel sym addr mem (R_AARCH64_PREL16, RELOC_OP_PREL, 16)
        (by simp [dataKinds]) ht
    · exact up_relocateadd_data rel sym addr mem (R_AARCH64_PREL32, RELOC_OP_PREL, 32)
        (by simp [dataKinds]) ht
  have hl : w = 16 ∨ w = 32 := hw.imp And.left And.left
  refine ⟨(reloc_data RELOC_OP_PREL addr (toU64 (sym.st_value + rel.r_addend)) w mem).1,
    (reloc_data RELOC_OP_PREL addr (toU64 (sym.st_value + rel.r_addend)) w mem).2, hret, ?_⟩
  rw [reloc_data_ret_prel _ _ _ _ hl, do_reloc_prel]
  refine ⟨?_, ?_⟩
  · rcases hl with rfl | rfl <;> simp only [ERANGE] <;> split_ifs <;> simp <;> omega
  · rcases hl with rfl | rfl <;> simp only [ERANGE] <;> split_ifs <;> simp <;> omega

/-- Witness for C3: PREL32 with symbol + addend - target = INT32_MAX + 1 is a range error. -/
theorem prel_data_range_witness :
    ((32 = 16 ∧ ELF_R_TYPE (Elf_Rela.mk 0 261 0).r_info = R_AARCH64_PREL16) ∨
     (32 = 32 ∧ ELF_R_TYPE (Elf_Rela.mk 0 261 0).r_info = R_AARCH64_PREL32)) ∧
    ∃ r mem', up_relocateadd (Elf_Rela.mk 0 261 0) (some (Elf_Sym.mk 0 0 0 0 0x80000040 0)) 64
        (fun _ => 0) = some (r, mem') ∧ r = -ERANGE := by
  have hw : (32 = 16 ∧ ELF_R_TYPE (Elf_Rela.mk 0 261 0).r_info = R_AARCH64_PREL16) ∨
     (32 = 32 ∧ ELF_R_TYPE (Elf_Rela.mk 0 261 0).r_info = R_AARCH64_PREL32) :=
    Or.inr ⟨rfl, by decide⟩
  obtain ⟨r, mem', h, h1, _⟩ :=
    prel_data_range (Elf_Rela.mk 0 261 0) (Elf_Sym.mk 0 0 0 0 0x80000040 0) 64 (fun _ => 0) 32 hw
  exact ⟨hw, r, mem', h, h1.mpr (by decide)⟩

/-- C4: for the 16- and 32-bit data relocations (ABS or PREL), after `up_relocateadd` the
target holds the low `w` bits of the computed value (symbol + addend, or
symbol + addend - target), whether the call returns 0 or `-ERANGE`; the return value is one
of the two, and it is `-ERANGE` exactly when the value is out of range. -/
theorem data_store_always (rel : Elf_Rela) (sym : Elf_Sym) (addr : Nat) (mem : Mem) (w : Nat)
    (prel : Bool)
    (hk : (w = 16 ∧ prel = false ∧ ELF_R_TYPE rel.r_info = R_AARCH64_ABS16) ∨
          (w = 32 ∧ prel = false ∧ ELF_R_TYPE rel.r_info = R_AARCH64_ABS32) ∨
          (w = 16 ∧ prel = true ∧ ELF_R_TYPE rel.r_info = R_AARCH64_PREL16) ∨
          (w = 32 ∧ prel = true ∧ ELF_R_TYPE rel.r_info = R_AARCH64_PREL32)) :
    ∃ r mem', up_relocateadd rel (some sym) addr mem = some (r, mem') ∧
      ((if w = 16 then load16 mem' addr else load32 mem' addr) : Int) =
        ((sym.st_value : Int) + rel.r_addend - (if prel then (addr : Int) else 0)) % 2 ^ w ∧
      (r = 0 ∨ r = -ERANGE) ∧
      (r = -ERANGE ↔
        if prel then
          (toS64 (toU64 (sym.st_value + rel.r_addend - addr)) < -2 ^ (w - 1) ∨
            toS64 (toU64 (sym.st_value + rel.r_addend - addr)) > 2 ^ (w - 1) - 1)
        else
          (toS64 (toU64 (sym.st_value + rel.r_addend)) < 0 ∨
            toS64 (toU64 (sym.st_value + rel.r_addend)) > 2 ^ w - 1)) := by
  rcases hk with ⟨rfl, rfl, ht⟩ | ⟨rfl, rfl, ht⟩ | ⟨rfl, rfl, ht⟩ | ⟨rfl, rfl, ht⟩
  · refine ⟨(reloc_data RELOC_OP_ABS addr (toU64 (sym.st_value + rel.r_addend)) 16 mem).1,
      (reloc_data RELOC_OP_ABS addr (toU64 (sym.st_value + rel.r_addend)) 16 mem).2,
      up_relocateadd_data rel sym addr mem (R_AARCH64_ABS16, RELOC_OP_ABS, 16)
        (by simp [dataKinds]) ht, ?_⟩
    rw [reloc_data_ret_abs _ _ _ _ (Or.inl rfl), reloc_data_mem, do_reloc_abs]
    refine ⟨?_, ?_, ?_⟩
    · simp only [load16_store16, toU64_toS64, toU64_mod, Bool.false_eq_true, if_false,
        if_true, sub_zero, Nat.reduceEqDiff]
      exact toU64_mod_16 _
    · simp only [ERANGE]
      split_ifs <;> simp
    · simp only [ERANGE, Bool.false_eq_true, if_false, if_true]
      split_ifs <;> simp <;> omega
  · refine ⟨(reloc_data RELOC_OP_ABS addr (toU64 (sym.st_value + rel.r_addend)) 32 mem).1,
      (reloc_data RELOC_OP_ABS addr (toU64 (sym.st_value + rel.r_addend)) 32 mem).2,
      up_relocateadd_data rel sym addr mem (R_AARCH64_ABS32, RELOC_OP_ABS, 32)
        (by simp [dataKinds]) ht, ?_⟩
    rw [reloc_data_ret_abs _ _ _ _ (Or.inr rfl), reloc_data_mem, do_reloc_abs]
    refine ⟨?_, ?_, ?_⟩
    · simp only [load32_store32, toU64_toS64, toU64_mod, Bool.false_eq_true, if_false,
        if_true, sub_zero, Nat.reduceEqDiff]
      exact toU64_mod_32 _
    · simp only [ERANGE]
      split_ifs <;> simp
    · simp only [ERANGE, Bool.false_eq_true, if_false, if_true]
      split_ifs <;> simp <;> omega
  · refine ⟨(reloc_data RELOC_OP_PREL addr (toU64 (sym.st_value + rel.r_addend)) 16 mem).1,
      (reloc_data RELOC_OP_PREL addr (toU64 (sym.st_value + rel.r_addend)) 16 mem).2,
      up_relocateadd_data rel sym addr mem (R_AARCH64_PREL16, RELOC_OP_PREL, 16)
        (by simp [dataKinds]) ht, ?_⟩
    rw [reloc_data_ret_prel _ _ _ _ (Or.inl rfl), reloc_data_mem, do_reloc_prel]
    refine ⟨?_, ?_, ?_⟩
    · simp only [load16_store16, toU64_toS64, toU64_mod, Bool.false_eq_true, if_false,
        if_true, sub_zero, Nat.reduceEqDiff]
      exact toU64_mod_16 _
    · simp only [ERANGE]
      split_ifs <;> simp
    · simp only [ERANGE, Bool.false_eq_true, if_false, if_true]
      split_ifs <;> simp <;> omega
  · refine ⟨(reloc_data RELOC_OP_PREL addr (toU64 (sym.st_value + rel.r_addend)) 32 mem).1,
      (reloc_data RELOC_OP_PREL addr (toU64 (sym.st_value + rel.r_addend)) 32 mem).2,
      up_relocateadd_data rel sym addr mem (R_AARCH64_PREL32, RELOC_OP_PREL, 32)
        (by simp [dataKinds]) ht, ?_⟩
    rw [reloc_data_ret_prel _ _ _ _ (Or.inr rfl), reloc_data_mem, do_reloc_prel]
    refine ⟨?_, ?_, ?_⟩
    · simp only [load32_store32, toU64_toS64, toU64_mod, Bool.false_eq_true, if_false,
        if_true, sub_zero, Nat.reduceEqDiff]
      exact toU64_mod_32 _
    · simp only [ERANGE]
      split_ifs <;> simp
    · simp only [ERANGE, Bool.false_eq_true, if_false, if_true]
      split_ifs <;> simp <;> omega

/-- Witness for C4: ABS16 with symbol + addend = 0x12345 stores 0x2345 and reports
`-ERANGE`. -/
theorem data_store_always_witness :
    ((16 = 16 ∧ false = false ∧ ELF_R_TYPE (Elf_Rela.mk 0 259 5).r_info = R_AARCH64_ABS16) ∨
     (16 = 32 ∧ false = false ∧ ELF_R_TYPE (Elf_Rela.mk 0 259 5).r_info = R_AARCH64_ABS32) ∨
     (16 = 16 ∧ false = true ∧ ELF_R_TYPE (Elf_Rela.mk 0 259 5).r_info = R_AARCH64_PREL16) ∨
     (16 = 32 ∧ false = true ∧ ELF_R_TYPE (Elf_Rela.mk 0 259 5).r_info = R_AARCH64_PREL32)) ∧
    ∃ r mem', up_relocateadd (Elf_Rela.mk 0 259 5) (some (Elf_Sym.mk 0 0 0 0 0x12340 0)) 64
        (fun _ => 0) = some (r, mem') ∧ r = -ERANGE ∧ (load16 mem' 64 : Int) = 0x2345 := by
  have hk : (16 = 16 ∧ false = false ∧ ELF_R_TYPE (Elf_Rela.mk 0 259 5).r_info = R_AARCH64_ABS16) ∨
     (16 = 32 ∧ false = false ∧ ELF_R_TYPE (Elf_Rela.mk 0 259 5).r_info = R_AARCH64_ABS32) ∨
     (16 = 16 ∧ false = true ∧ ELF_R_TYPE (Elf_Rela.mk 0 259 5).r_info = R_AARCH64_PREL16) ∨
     (16 = 32 ∧ false = true ∧ ELF_R_TYPE (Elf_Rela.mk 0 259 5).r_info = R_AARCH64_PREL32) :=
    Or.inl ⟨rfl, rfl, by decide⟩
  obtain ⟨r, mem', h, h1, _, h3⟩ :=
    data_store_always (Elf_Rela.mk 0 259 5) (Elf_Sym.mk 0 0 0 0 0x12340 0) 64 (fun _ => 0) 16
      false hk
  refine ⟨hk, r, mem', h, h3.mpr (by decide), ?_⟩
  rw [if_pos rfl] at h1
  rw [h1]
  decide

/-- C5: for `R_AARCH64_ABS64` and `R_AARCH64_PREL64`, `up_relocateadd` returns 0 and the
8-byte target holds (symbol + addend) mod 2^64, respectively
(symbol + addend - target) mod 2^64, for every symbol, addend and target address. -/
theorem data64_exact (rel : Elf_Rela) (sym : Elf_Sym) (addr : Nat) (mem : Mem) (prel : Bool)
    (ht : ELF_R_TYPE rel.r_info = if prel then R_AARCH64_PREL64 else R_AARCH64_ABS64) :
    ∃ mem', up_relocateadd rel (some sym) addr mem = some (0, mem') ∧
      (load64 mem' addr : Int) =
        ((sym.st_value : Int) + rel.r_addend - (if prel then (addr : Int) else 0)) % 2 ^ 64 := by
  cases prel
  · simp only [Bool.false_eq_true, if_false] at ht
    refine ⟨(reloc_data RELOC_OP_ABS addr (toU64 (sym.st_value + rel.r_addend)) 64 mem).2, ?_, ?_⟩
    · rw [up_relocateadd_data rel sym addr mem (R_AARCH64_ABS64, RELOC_OP_ABS, 64)
        (by simp [dataKinds]) ht]
      exact congrArg some (Prod.ext (reloc_data_ret_64 _ _ _ _) rfl)
    · simp only [reloc_data_mem, load64_store64, toU64_toS64, toU64_mod, do_reloc_abs,
        Bool.false_eq_true, if_false, if_true, sub_zero, Nat.reduceEqDiff]
      exact toU64_cast _
  · simp only [if_true] at ht
    refine ⟨(reloc_data RELOC_OP_PREL addr (toU64 (sym.st_value + rel.r_addend)) 64 mem).2, ?_, ?_⟩
    · rw [up_relocateadd_data rel sym addr mem (R_AARCH64_PREL64, RELOC_OP_PREL, 64)
        (by simp [dataKinds]) ht]
      exact congrArg some (Prod.ext (reloc_data_ret_64 _ _ _ _) rfl)
    · simp only [reloc_data_mem, load64_store64, toU64_toS64, toU64_mod, do_reloc_prel,
        Bool.false_eq_true, if_false, if_true, sub_zero, Nat.reduceEqDiff]
      exact toU64_cast _

/-- Witness for C5: PREL64 with symbol 16, addend 0 and target 64 stores 2^64 - 48. -/
theorem data64_exact_witness :
    (ELF_R_TYPE (Elf_Rela.mk 0 260 0).r_info = if true then R_AARCH64_PREL64 else R_AARCH64_ABS64) ∧
    ∃ mem', up_relocateadd (Elf_Rela.mk 0 260 0) (some (Elf_Sym.mk 0 0 0 0 16 0)) 64
        (fun _ => 0) = some (0, mem') ∧ (load64 mem' 64 : Int) = 2 ^ 64 - 48 := by
  have ht : ELF_R_TYPE (Elf_Rela.mk 0 260 0).r_info =
      if true then R_AARCH64_PREL64 else R_AARCH64_ABS64 := by decide
  obtain ⟨mem', h, h1⟩ :=
    data64_exact (Elf_Rela.mk 0 260 0) (Elf_Sym.mk 0 0 0 0 16 0) 64 (fun _ => 0) true ht
  refine ⟨ht, mem', h, ?_⟩
  rw [h1]
  decide

/-! ## The dispatch of `up_relocateadd` -/

theorem reloc_data_ret01 (op : aarch64_reloc_op) (place val len : Nat) (mem : Mem) :
    (reloc_data op place val len mem).1 = 0 ∨ (reloc_data op place val len mem).1 = -ERANGE := by
  unfold reloc_data
  cases op <;> simp only <;> split_ifs <;> simp

theorem reloc_insn_movw_ret01 (op : aarch64_reloc_op) (place val lsb : Nat)
    (ty : aarch64_insn_movw_imm_type) (mem : Mem) :
    (reloc_insn_movw op place val lsb ty mem).1 = 0 ∨
      (reloc_insn_movw op place val lsb ty mem).1 = -ERANGE := by
  unfold reloc_insn_movw
  simp only
  split_ifs <;> simp

theorem reloc_insn_imm_ret (op : aarch64_reloc_op) (place val lsb len : Nat)
    (ty : aarch64_insn_imm_type) (mem : Mem) :
    (reloc_insn_imm op place val lsb len ty mem).1 = 0 := rfl

theorem handled_ok (t : Nat) (p : Int × Mem) (mem : Mem) (hin : t ∈ handledTypes)
    (hp : p.1 = 0 ∨ p.1 = -ERANGE) :
    (p.1 = -EINVAL ↔ t ∉ handledTypes) ∧ (t ∉ handledTypes → p.2 = mem) ∧
      (t ∈ handledTypes → p.1 = 0 ∨ p.1 = -ERANGE) := by
  refine ⟨?_, fun h => absurd hin h, fun _ => hp⟩
  constructor
  · intro h
    rcases hp with hp | hp <;> rw [hp] at h <;> simp [EINVAL, ERANGE] at h
  · intro h
    exact absurd hin h

/-- C1: `up_relocateadd` returns `-EINVAL` if and only if the relocation type
`ELF_R_TYPE(r_info)` is not one of the case labels of its `switch`; in that case the memory
is unchanged; for every handled kind the result is 0 or `-ERANGE`. -/
theorem unsupported_iff (rel : Elf_Rela) (sym : Elf_Sym) (addr : Nat) (mem : Mem) :
    ∃ r mem', up_relocateadd rel (some sym) addr mem = some (r, mem') ∧
      (r = -EINVAL ↔ ELF_R_TYPE rel.r_info ∉ handledTypes) ∧
      (ELF_R_TYPE rel.r_info ∉ handledTypes → mem' = mem) ∧
      (ELF_R_TYPE rel.r_info ∈ handledTypes → r = 0 ∨ r = -ERANGE) := by
  suffices h : ∃ p : Int × Mem, up_relocateadd rel (some sym) addr mem = some p ∧
      (p.1 = -EINVAL ↔ ELF_R_TYPE rel.r_info ∉ handledTypes) ∧
      (ELF_R_TYPE rel.r_info ∉ handledTypes → p.2 = mem) ∧
      (ELF_R_TYPE rel.r_info ∈ handledTypes → p.1 = 0 ∨ p.1 = -ERANGE) by
    obtain ⟨p, h1, h2⟩ := h
    exact ⟨p.1, p.2, h1, h2⟩
  unfold up_relocateadd
  refine ⟨_, rfl, ?_⟩
  generalize ELF_R_TYPE rel.r_info = t
  generalize toU64 ((sym.st_value : Int) + rel.r_addend) = val
  by_cases h0 : t = R_AARCH64_NONE
  · rw [if_pos h0]
    exact handled_ok _ _ _ (by simp [handledTypes, h0]) (Or.inl rfl)
  rw [if_neg h0]
  by_cases h1 : t = R_AARCH64_ABS64
  · rw [if_pos h1]
    exact handled_ok _ _ _ (by simp [handledTypes, h1]) (reloc_data_ret01 _ _ _ _ _)
  rw [if_neg h1]
  by_cases h2 : t = R_AARCH64_ABS32
  · rw [if_pos h2]
    exact handled_ok _ _ _ (by simp [handledTypes, h2]) (reloc_data_ret01 _ _ _ _ _)
  rw [if_neg h2]
  by_cases h3 : t = R_AARCH64_ABS16
  · rw [if_pos h3]
    exact handled_ok _ _ _ (by simp [handledTypes, h3]) (reloc_data_ret01 _ _ _ _ _)
  rw [if_neg h3]
  by_cases h4 : t = R_AARCH64_PREL64
  · rw [if_pos h4]
    exact handled_ok _ _ _ (by simp [handledTypes, h4]) (reloc_data_ret01 _ _ _ _ _)
  rw [if_neg h4]
  by_cases h5 : t = R_AARCH64_PREL32
  · rw [if_pos h5]
    exact handled_ok _ _ _ (by simp [handledTypes, h5]) (reloc_data_ret01 _ _ _ _ _)
  rw [if_neg h5]
  by_cases h6 : t = R_AARCH64_PREL16
  · rw [if_pos h6]
    exact handled_ok _ _ _ (by simp [handledTypes, h6]) (reloc_data_ret01 _ _ _ _ _)
  rw [if_neg h6]
  by_cases h7 : t = R_AARCH64_MOVW_UABS_G0_NC ∨ t = R_AARCH64_MOVW_UABS_G0
  · rw [if_pos h7]
    exact handled_ok _ _ _ (by rcases h7 with h | h <;> simp [handledTypes, h]) (reloc_insn_movw_ret01 _ _ _ _ _ _)
  rw [if_neg h7]
  by_cases h8 : t = R_AARCH64_MOVW_UABS_G1_NC ∨ t = R_AARCH64_MOVW_UABS_G1
  · rw [if_pos h8]
    exact handled_ok _ _ _ (by rcases h8 with h | h <;> simp [handledTypes, h]) (reloc_insn_movw_ret01 _ _ _ _ _ _)
  rw [if_neg h8]
  by_cases h9 : t = R_AARCH64_MOVW_UABS_G2_NC ∨ t = R_AARCH64_MOVW_UABS_G2
  · rw [if_pos h9]
    exact handled_ok _ _ _ (by rcases h9 with h | h <;> simp [handledTypes, h]) (reloc_insn_movw_ret01 _ _ _ _ _ _)
  rw [if_neg h9]
  by_cases h10 : t = R_AARCH64_MOVW_UABS_G3
  · rw [if_pos h10]
    exact handled_ok _ _ _ (by simp [handledTypes, h10]) (reloc_insn_movw_ret01 _ _ _ _ _ _)
  rw [if_neg h10]
  by_cases h11 : t = R_AARCH64_MOVW_SABS_G0
  · rw [if_pos h11]
    exact handled_ok _ _ _ (by simp [handledTypes, h11]) (reloc_insn_movw_ret01 _ _ _ _ _ _)
  rw [if_neg h11]
  by_cases h12 : t = R_AARCH64_MOVW_SABS_G1
  · rw [if_pos h12]
    exact handled_ok _ _ _ (by simp [handledTypes, h12]) (reloc_insn_movw_ret01 _ _ _ _ _ _)
  rw [if_neg h12]
  by_cases h13 : t = R_AARCH64_MOVW_SABS_G2
  · rw [if_pos h13]
    exact handled_ok _ _ _ (by simp [handledTypes, h13]) (reloc_insn_movw_ret01 _ _ _ _ _ _)
  rw [if_neg h13]
  by_cases h14 : t = R_AARCH64_MOVW_PREL_G0_NC
  · rw [if_pos h14]
    exact handled_ok _ _ _ (by simp [handledTypes, h14]) (reloc_insn_movw_ret01 _ _ _ _ _ _)
  rw [if_neg h14]
  by_cases h15 : t = R_AARCH64_MOVW_PREL_G0
  · rw [if_pos h15]
    exact handled_ok _ _ _ (by simp [handledTypes, h15]) (reloc_insn_movw_ret01 _ _ _ _ _ _)
  rw [if_neg h15]
  by_cases h16 : t = R_AARCH64_MOVW_PREL_G1_NC
  · rw [if_pos h16]
    exact handled_ok _ _ _ (by simp [handledTypes, h16]) (reloc_insn_movw_ret01 _ _ _ _ _ _)
  rw [if_neg h16]
  by_cases h17 : t = R_AARCH64_MOVW_PREL_G1
  · rw [if_pos h17]
    exact handled_ok _ _ _ (by simp [handledTypes, h17]) (reloc_insn_movw_ret01 _ _ _ _ _ _)
  rw [if_neg h17]
  by_cases h18 : t = R_AARCH64_MOVW_PREL_G2_NC
  · rw [if_pos h18]
    exact handled_ok _ _ _ (by simp [handledTypes, h18]) (reloc_insn_movw_ret01 _ _ _ _ _ _)
  rw [if_neg h18]
  by_cases h19 : t = R_AARCH64_MOVW_PREL_G2
  · rw [if_pos h19]
    exact handled_ok _ _ _ (by simp [handledTypes, h19]) (reloc_insn_movw_ret01 _ _ _ _ _ _)
  rw [if_neg h19]
  by_cases h20 : t = R_AARCH64_MOVW_PREL_G3
  · rw [if_pos h20]
    exact handled_ok _ _ _ (by simp [handledTypes, h20]) (reloc_insn_movw_ret01 _ _ _ _ _ _)
  rw [if_neg h20]
  by_cases h21 : t = R_AARCH64_LD_PREL_LO19
  · rw [if_pos h21]
    exact handled_ok _ _ _ (by simp [handledTypes, h21]) (Or.inl rfl)
  rw [if_neg h21]
  by_cases h22 : t = R_AARCH64_ADR_PREL_LO21
  · rw [if_pos h22]
    exact handled_ok _ _ _ (by simp [handledTypes, h22]) (Or.inl rfl)
  rw [if_neg h22]
  by_cases h23 : t = R_AARCH64_ADR_PREL_PG_HI21_NC ∨ t = R_AARCH64_ADR_PREL_PG_HI21
  · rw [if_pos h23]
    exact handled_ok _ _ _ (by rcases h23 with h | h <;> simp [handledTypes, h]) (Or.inl rfl)
  rw [if_neg h23]
  by_cases h24 : t = R_AARCH64_ADD_ABS_LO12_NC ∨ t = R_AARCH64_LDST8_ABS_LO12_NC
  · rw [if_pos h24]
    exact handled_ok _ _ _ (by rcases h24 with h | h <;> simp [handledTypes, h]) (Or.inl rfl)
  rw [if_neg h24]
  by_cases h25 : t = R_AARCH64_LDST16_ABS_LO12_NC
  · rw [if_pos h25]
    exact handled_ok _ _ _ (by simp [handledTypes, h25]) (Or.inl rfl)
  rw [if_neg h25]
  by_cases h26 : t = R_AARCH64_LDST32_ABS_LO12_NC
  · rw [if_pos h26]
    exact handled_ok _ _ _ (by simp [handledTypes, h26]) (Or.inl rfl)
  rw [if_neg h26]
  by_cases h27 : t = R_AARCH64_LDST64_ABS_LO12_NC
  · rw [if_pos h27]
    exact handled_ok _ _ _ (by simp [handledTypes, h27]) (Or.inl rfl)
  rw [if_neg h27]
  by_cases h28 : t = R_AARCH64_LDST128_ABS_LO12_NC
  · rw [if_pos h28]
    exact handled_ok _ _ _ (by simp [handledTypes, h28]) (Or.inl rfl)
  rw [if_neg h28]
  by_cases h29 : t = R_AARCH64_TSTBR14
  · rw [if_pos h29]
    exact handled_ok _ _ _ (by simp [handledTypes, h29]) (Or.inl rfl)
  rw [if_neg h29]
  by_cases h30 : t = R_AARCH64_CONDBR19
  · rw [if_pos h30]
    exact handled_ok _ _ _ (by simp [handledTypes, h30]) (Or.inl rfl)
  rw [if_neg h30]
  by_cases h31 : t = R_AARCH64_JUMP26 ∨ t = R_AARCH64_CALL26
  · rw [if_pos h31]
    exact handled_ok _ _ _ (by rcases h31 with h | h <;> simp [handledTypes, h]) (Or.inl rfl)
  rw [if_neg h31]
  have hnot : t ∉ handledTypes := by
    obtain ⟨h7a, h7b⟩ := not_or.mp h7
    obtain ⟨h8a, h8b⟩ := not_or.mp h8
    obtain ⟨h9a, h9b⟩ := not_or.mp h9
    obtain ⟨h23a, h23b⟩ := not_or.mp h23
    obtain ⟨h24a, h24b⟩ := not_or.mp h24
    obtain ⟨h31a, h31b⟩ := not_or.mp h31
    simp [handledTypes, *]
  exact ⟨⟨fun _ => hnot, fun _ => rfl⟩, fun _ => rfl, fun h => absurd h hnot⟩


/-! ## Instruction immediates: `aarch64_insn_encode_immediate` -/

theorem testBit_not32 (x i : Nat) :
    (not32 x).testBit i = (decide (i < 32) && !x.testBit i) := by
  unfold not32
  rw [Nat.testBit_xor, Nat.testBit_two_pow_sub_one, Nat.testBit_mod_two_pow]
  by_cases h : i < 32 <;> simp [h]

theorem field_decode (insn imm k s : Nat) (h : s + k ≤ 32) :
    (u32 ((insn &&& not32 (u32 ((2 ^ k - 1) <<< s))) ||| u64 ((imm &&& (2 ^ k - 1)) <<< s)) >>> s)
      &&& (2 ^ k - 1) = imm % 2 ^ k := by
  apply Nat.eq_of_testBit_eq
  intro i
  simp only [u32, u64, Nat.testBit_and, Nat.testBit_or, Nat.testBit_shiftRight,
    Nat.testBit_mod_two_pow, testBit_not32, Nat.testBit_shiftLeft,
    Nat.testBit_two_pow_sub_one]
  by_cases hi : i < k
  · have h1 : s + i < 32 := by omega
    have h2 : s + i < 64 := by omega
    simp [hi, h1, h2]
  · simp [hi]

/-- A bit outside the field `[s, s + k)` keeps its value. -/
theorem field_frame_bit (insn imm k s i : Nat) (hi : insn < 2 ^ 32)
    (hb : ((2 ^ k - 1) <<< s).testBit i = false) :
    (u32 ((insn &&& not32 (u32 ((2 ^ k - 1) <<< s))) |||
      u64 ((imm &&& (2 ^ k - 1)) <<< s))).testBit i = insn.testBit i := by
  simp only [Nat.testBit_shiftLeft, Nat.testBit_two_pow_sub_one] at hb
  simp only [u32, u64, Nat.testBit_and, Nat.testBit_or, Nat.testBit_shiftRight,
    Nat.testBit_mod_two_pow, testBit_not32, Nat.testBit_shiftLeft,
    Nat.testBit_two_pow_sub_one]
  by_cases h32 : i < 32
  · by_cases h1 : s ≤ i <;> by_cases h3 : i - s < k <;> simp [h1, h3] at hb <;>
      simp [h32, h1, h3]
  · have : insn.testBit i = false :=
      Nat.testBit_lt_two_pow (lt_of_lt_of_le hi (Nat.pow_le_pow_right (by decide) (by omega)))
    simp [h32, this]

theorem encode_lt (ty : aarch64_insn_imm_type) (insn imm : Nat) :
    aarch64_insn_encode_immediate ty insn imm < 2 ^ 32 := by
  unfold aarch64_insn_encode_immediate
  cases ty <;> simp only [aarch64_get_imm_shift_mask, u32] <;> omega

/-- Each entry of the `(mask, shift)` table is a field of `k` bits at `shift` inside the
32-bit word, and `aarch64_insn_encode_immediate` rewrites exactly that field. -/
theorem imm_shift_mask_spec (ty : aarch64_insn_imm_type) (mask shift : Nat)
    (h : aarch64_get_imm_shift_mask ty = some (mask, shift)) :
    ∃ k, mask = 2 ^ k - 1 ∧ shift + k ≤ 32 ∧ ∀ insn imm,
      aarch64_insn_encode_immediate ty insn imm =
        u32 ((insn &&& not32 (u32 (mask <<< shift))) ||| u64 ((imm &&& mask) <<< shift)) := by
  cases ty <;> simp only [aarch64_get_imm_shift_mask, Option.some.injEq, Prod.mk.injEq] at h
  all_goals obtain ⟨rfl, rfl⟩ := h
  · exact ⟨26, by decide, by decide, fun _ _ => rfl⟩
  · exact ⟨19, by decide, by decide, fun _ _ => rfl⟩
  · exact ⟨16, by decide, by decide, fun _ _ => rfl⟩
  · exact ⟨14, by decide, by decide, fun _ _ => rfl⟩
  · exact ⟨12, by decide, by decide, fun _ _ => rfl⟩
  · exact ⟨9, by decide, by decide, fun _ _ => rfl⟩
  · exact ⟨7, by decide, by decide, fun _ _ => rfl⟩
  · exact ⟨6, by decide, by decide, fun _ _ => rfl⟩
  · exact ⟨6, by decide, by decide, fun _ _ => rfl⟩
  · exact ⟨6, by decide, by decide, fun _ _ => rfl⟩
  · exact ⟨1, by decide, by decide, fun _ _ => rfl⟩


theorem encode_adr_eq (insn imm : Nat) :
    aarch64_insn_encode_immediate AARCH64_INSN_IMM_ADR insn imm =
      u32 ((insn &&& not32 (u32 (u32 (((2 ^ 2 - 1) <<< 29) ||| ((2 ^ 19 - 1) <<< 5)) <<< 0))) |||
        u64 (((u32 ((imm &&& (2 ^ 2 - 1)) <<< 29) ||| u32 (((imm >>> 2) &&& (2 ^ 19 - 1)) <<< 5))
          &&& u32 (((2 ^ 2 - 1) <<< 29) ||| ((2 ^ 19 - 1) <<< 5))) <<< 0)) := rfl

theorem encode_adr_testBit (insn imm i : Nat) :
    (aarch64_insn_encode_immediate AARCH64_INSN_IMM_ADR insn imm).testBit i =
      (decide (i < 32) &&
        if 29 ≤ i ∧ i < 31 then imm.testBit (i - 29)
        else if 5 ≤ i ∧ i < 24 then imm.testBit (i - 5 + 2)
        else insn.testBit i) := by
  rw [encode_adr_eq]
  simp only [u32, u64, Nat.testBit_and, Nat.testBit_or, Nat.testBit_shiftRight,
    Nat.testBit_mod_two_pow, testBit_not32, Nat.testBit_shiftLeft,
    Nat.testBit_two_pow_sub_one]
  by_cases h32 : i < 32
  · have h64 : i < 64 := by omega
    by_cases c1 : 29 ≤ i ∧ i < 31
    · have a1 : i ≥ 29 := c1.1
      have a2 : i - 29 < 2 := by omega
      have a3 : i ≥ 5 := by omega
      have a4 : ¬ i - 5 < 19 := by omega
      simp [h32, h64, c1, a1, a2, a3, a4]
    · by_cases c2 : 5 ≤ i ∧ i < 24
      · have a1 : ¬ (i ≥ 29) := by omega
        have a3 : i ≥ 5 := c2.1
        have a4 : i - 5 < 19 := by omega
        simp [h32, h64, c1, c2, a1, a3, a4, Nat.add_comm]
      · by_cases a1 : i ≥ 29
        · have a2 : ¬ i - 29 < 2 := by omega
          have a3 : i ≥ 5 := by omega
          have a4 : ¬ i - 5 < 19 := by omega
          have a5 : ¬ i < 31 := by omega
          have a6 : ¬ i < 24 := by omega
          simp [h32, c1, c2, a1, a2, a3, a4, a5, a6]
        · by_cases a3 : i ≥ 5
          · have a4 : ¬ i - 5 < 19 := by omega
            have a6 : ¬ i < 24 := by omega
            simp [h32, c1, c2, a1, a3, a4, a6]
          · simp [h32, c1, c2, a1, a3]
  · simp [h32]

theorem adr_decode (insn imm : Nat) :
    ((aarch64_insn_encode_immediate AARCH64_INSN_IMM_ADR insn imm >>> 29) &&& 3) |||
      (((aarch64_insn_encode_immediate AARCH64_INSN_IMM_ADR insn imm >>> 5) &&& 0x7FFFF) <<< 2)
      = imm &&& 0x1FFFFF := by
  have e1 : (3 : Nat) = 2 ^ 2 - 1 := by decide
  have e2 : (0x7FFFF : Nat) = 2 ^ 19 - 1 := by decide
  have e3 : (0x1FFFFF : Nat) = 2 ^ 21 - 1 := by decide
  rw [e1, e2, e3]
  apply Nat.eq_of_testBit_eq
  intro i
  simp only [Nat.testBit_and, Nat.testBit_or, Nat.testBit_shiftRight, Nat.testBit_shiftLeft,
    Nat.testBit_two_pow_sub_one, encode_adr_testBit]
  by_cases h1 : i < 2
  · have a1 : 29 + i < 32 := by omega
    have a2 : 29 ≤ 29 + i ∧ 29 + i < 31 := by omega
    have a3 : ¬ i ≥ 2 := by omega
    have a4 : i < 21 := by omega
    simp [h1, a1, a2, a3, a4]
  · by_cases h2 : i < 21
    · have a1 : 5 + (i - 2) < 32 := by omega
      have a2 : ¬ (29 ≤ 5 + (i - 2) ∧ 5 + (i - 2) < 31) := by omega
      have a3 : 5 ≤ 5 + (i - 2) ∧ 5 + (i - 2) < 24 := by omega
      have a4 : i ≥ 2 := by omega
      have a5 : i - 2 < 19 := by omega
      have a6 : 5 + (i - 2) - 5 + 2 = i := by omega
      simp [h1, h2, a1, a2, a3, a4, a5, a6]
    · have a4 : i ≥ 2 := by omega
      have a5 : ¬ i - 2 < 19 := by omega
      simp [h1, h2, a4, a5]


theorem adr_decode_lo (insn imm : Nat) :
    (aarch64_insn_encode_immediate AARCH64_INSN_IMM_ADR insn imm >>> 29) &&& 3 = imm &&& 3 := by
  have e1 : (3 : Nat) = 2 ^ 2 - 1 := by decide
  rw [e1]
  apply Nat.eq_of_testBit_eq
  intro i
  simp only [Nat.testBit_and, Nat.testBit_shiftRight, Nat.testBit_two_pow_sub_one,
    encode_adr_testBit]
  by_cases h1 : i < 2
  · have a1 : 29 + i < 32 := by omega
    have a2 : 29 ≤ 29 + i ∧ 29 + i < 31 := by omega
    simp [h1, a1, a2]
  · simp [h1]

theorem adr_decode_hi (insn imm : Nat) :
    (aarch64_insn_encode_immediate AARCH64_INSN_IMM_ADR insn imm >>> 5) &&& 0x7FFFF =
      (imm >>> 2) &&& 0x7FFFF := by
  have e2 : (0x7FFFF : Nat) = 2 ^ 19 - 1 := by decide
  rw [e2]
  apply Nat.eq_of_testBit_eq
  intro i
  simp only [Nat.testBit_and, Nat.testBit_shiftRight, Nat.testBit_two_pow_sub_one,
    encode_adr_testBit]
  by_cases h1 : i < 19
  · have a1 : 5 + i < 32 := by omega
    have a2 : ¬ (29 ≤ 5 + i ∧ 5 + i < 31) := by omega
    have a3 : 5 ≤ 5 + i ∧ 5 + i < 24 := by omega
    have a4 : 5 + i - 5 + 2 = 2 + i := by omega
    simp only [h1, a1, a2, a3, a4, decide_True, Bool.true_and, Bool.and_true, if_true, if_false,
      and_self]
  · simp [h1]

theorem imm_mask_21_0 : sub64 (BIT (0 + 21)) 1 >>> 0 = 2 ^ 21 - 1 := by decide
theorem imm_mask_21_12 : sub64 (BIT (12 + 21)) 1 >>> 12 = 2 ^ 21 - 1 := by decide

theorem up_relocateadd_adr_lo21 (rel : Elf_Rela) (sym : Elf_Sym) (addr : Nat) (mem : Mem)
    (ht : ELF_R_TYPE rel.r_info = R_AARCH64_ADR_PREL_LO21) :
    up_relocateadd rel (some sym) addr mem =
      some (reloc_insn_imm RELOC_OP_PREL addr (toU64 ((sym.st_value : Int) + rel.r_addend))
        0 21 AARCH64_INSN_IMM_ADR mem) := by
  simp [up_relocateadd, ht, R_AARCH64_NONE, R_AARCH64_ABS64, R_AARCH64_ABS32, R_AARCH64_ABS16,
    R_AARCH64_PREL64, R_AARCH64_PREL32, R_AARCH64_PREL16, R_AARCH64_MOVW_UABS_G0,
    R_AARCH64_MOVW_UABS_G0_NC, R_AARCH64_MOVW_UABS_G1, R_AARCH64_MOVW_UABS_G1_NC,
    R_AARCH64_MOVW_UABS_G2, R_AARCH64_MOVW_UABS_G2_NC, R_AARCH64_MOVW_UABS_G3,
    R_AARCH64_MOVW_SABS_G0, R_AARCH64_MOVW_SABS_G1, R_AARCH64_MOVW_SABS_G2,
    R_AARCH64_LD_PREL_LO19, R_AARCH64_ADR_PREL_LO21, R_AARCH64_ADR_PREL_PG_HI21,
    R_AARCH64_ADR_PREL_PG_HI21_NC, R_AARCH64_ADD_ABS_LO12_NC, R_AARCH64_LDST8_ABS_LO12_NC,
    R_AARCH64_TSTBR14, R_AARCH64_CONDBR19, R_AARCH64_JUMP26, R_AARCH64_CALL26,
    R_AARCH64_LDST16_ABS_LO12_NC, R_AARCH64_LDST32_ABS_LO12_NC, R_AARCH64_LDST64_ABS_LO12_NC,
    R_AARCH64_MOVW_PREL_G0, R_AARCH64_MOVW_PREL_G0_NC, R_AARCH64_MOVW_PREL_G1,
    R_AARCH64_MOVW_PREL_G1_NC, R_AARCH64_MOVW_PREL_G2, R_AARCH64_MOVW_PREL_G2_NC,
    R_AARCH64_MOVW_PREL_G3, R_AARCH64_LDST128_ABS_LO12_NC]

theorem up_relocateadd_adrp (rel : Elf_Rela) (sym : Elf_Sym) (addr : Nat) (mem : Mem)
    (ht : ELF_R_TYPE rel.r_info = R_AARCH64_ADR_PREL_PG_HI21_NC ∨
      ELF_R_TYPE rel.r_info = R_AARCH64_ADR_PREL_PG_HI21) :
    up_relocateadd rel (some sym) addr mem =
      some (reloc_insn_imm RELOC_OP_PAGE addr (toU64 ((sym.st_value : Int) + rel.r_addend))
        12 21 AARCH64_INSN_IMM_ADR mem) := by
  rcases ht with ht | ht <;>
  simp [up_relocateadd, ht, reloc_insn_adrp, reloc_insn_imm_ret,
    R_AARCH64_NONE, R_AARCH64_ABS64, R_AARCH64_ABS32, R_AARCH64_ABS16,
    R_AARCH64_PREL64, R_AARCH64_PREL32, R_AARCH64_PREL16, R_AARCH64_MOVW_UABS_G0,
    R_AARCH64_MOVW_UABS_G0_NC, R_AARCH64_MOVW_UABS_G1, R_AARCH64_MOVW_UABS_G1_NC,
    R_AARCH64_MOVW_UABS_G2, R_AARCH64_MOVW_UABS_G2_NC, R_AARCH64_MOVW_UABS_G3,
    R_AARCH64_MOVW_SABS_G0, R_AARCH64_MOVW_SABS_G1, R_AARCH64_MOVW_SABS_G2,
    R_AARCH64_LD_PREL_LO19, R_AARCH64_ADR_PREL_LO21, R_AARCH64_ADR_PREL_PG_HI21,
    R_AARCH64_ADR_PREL_PG_HI21_NC, R_AARCH64_ADD_ABS_LO12_NC, R_AARCH64_LDST8_ABS_LO12_NC,
    R_AARCH64_TSTBR14, R_AARCH64_CONDBR19, R_AARCH64_JUMP26, R_AARCH64_CALL26,
    R_AARCH64_LDST16_ABS_LO12_NC, R_AARCH64_LDST32_ABS_LO12_NC, R_AARCH64_LDST64_ABS_LO12_NC,
    R_AARCH64_MOVW_PREL_G0, R_AARCH64_MOVW_PREL_G0_NC, R_AARCH64_MOVW_PREL_G1,
    R_AARCH64_MOVW_PREL_G1_NC, R_AARCH64_MOVW_PREL_G2, R_AARCH64_MOVW_PREL_G2_NC,
    R_AARCH64_MOVW_PREL_G3, R_AARCH64_LDST128_ABS_LO12_NC]

/-- The word written by `reloc_insn_imm` with the ADR immediate type decodes to the low 21
bits of the shifted value. -/
theorem reloc_insn_imm_adr (op : aarch64_reloc_op) (place val lsb : Nat) (mem : Mem)
    (hm : sub64 (BIT (lsb + 21)) 1 >>> lsb = 2 ^ 21 - 1) :
    (reloc_insn_imm op place val lsb 21 AARCH64_INSN_IMM_ADR mem).1 = 0 ∧
    ((load32 (reloc_insn_imm op place val lsb 21 AARCH64_INSN_IMM_ADR mem).2 place >>> 29) &&& 3)
      ||| (((load32 (reloc_insn_imm op place val lsb 21 AARCH64_INSN_IMM_ADR mem).2 place >>> 5)
        &&& 0x7FFFF) <<< 2) = toU64 (toS64 (do_reloc op place val) >>> lsb) % 2 ^ 21 := by
  refine ⟨rfl, ?_⟩
  simp only [reloc_insn_imm, load32_store32, Nat.mod_eq_of_lt (encode_lt _ _ _), adr_decode, hm]
  have e3 : (0x1FFFFF : Nat) = 2 ^ 21 - 1 := by decide
  rw [e3, Nat.and_pow_two_sub_one_eq_mod, Nat.and_pow_two_sub_one_eq_mod, Nat.mod_mod]


theorem up_relocateadd_imm (rel : Elf_Rela) (sym : Elf_Sym) (addr : Nat) (mem : Mem)
    (e : Nat × aarch64_reloc_op × Nat × Nat × aarch64_insn_imm_type) (he : e ∈ immKinds)
    (ht : ELF_R_TYPE rel.r_info = e.1) :
    up_relocateadd rel (some sym) addr mem =
      some (reloc_insn_imm e.2.1 addr (toU64 ((sym.st_value : Int) + rel.r_addend))
        e.2.2.1 e.2.2.2.1 e.2.2.2.2 mem) := by
  simp only [immKinds, List.mem_cons, List.mem_singleton, List.not_mem_nil, or_false] at he
  rcases he with rfl | rfl | rfl | rfl | rfl | rfl | rfl | rfl | rfl | rfl | rfl <;>
    simp [up_relocateadd, ht, R_AARCH64_NONE, R_AARCH64_ABS64, R_AARCH64_ABS32, R_AARCH64_ABS16,
    R_AARCH64_PREL64, R_AARCH64_PREL32, R_AARCH64_PREL16, R_AARCH64_MOVW_UABS_G0,
    R_AARCH64_MOVW_UABS_G0_NC, R_AARCH64_MOVW_UABS_G1, R_AARCH64_MOVW_UABS_G1_NC,
    R_AARCH64_MOVW_UABS_G2, R_AARCH64_MOVW_UABS_G2_NC, R_AARCH64_MOVW_UABS_G3,
    R_AARCH64_MOVW_SABS_G0, R_AARCH64_MOVW_SABS_G1, R_AARCH64_MOVW_SABS_G2,
    R_AARCH64_LD_PREL_LO19, R_AARCH64_ADR_PREL_LO21, R_AARCH64_ADR_PREL_PG_HI21,
    R_AARCH64_ADR_PREL_PG_HI21_NC, R_AARCH64_ADD_ABS_LO12_NC, R_AARCH64_LDST8_ABS_LO12_NC,
    R_AARCH64_TSTBR14, R_AARCH64_CONDBR19, R_AARCH64_JUMP26, R_AARCH64_CALL26,
    R_AARCH64_LDST16_ABS_LO12_NC, R_AARCH64_LDST32_ABS_LO12_NC, R_AARCH64_LDST64_ABS_LO12_NC,
    R_AARCH64_MOVW_PREL_G0, R_AARCH64_MOVW_PREL_G0_NC, R_AARCH64_MOVW_PREL_G1,
    R_AARCH64_MOVW_PREL_G1_NC, R_AARCH64_MOVW_PREL_G2, R_AARCH64_MOVW_PREL_G2_NC,
    R_AARCH64_MOVW_PREL_G3, R_AARCH64_LDST128_ABS_LO12_NC]

theorem up_relocateadd_movw (rel : Elf_Rela) (sym : Elf_Sym) (addr : Nat) (mem : Mem)
    (e : Nat × aarch64_reloc_op × Nat × aarch64_insn_movw_imm_type) (he : e ∈ movwKinds)
    (ht : ELF_R_TYPE rel.r_info = e.1) :
    up_relocateadd rel (some sym) addr mem =
      some (reloc_insn_movw e.2.1 addr (toU64 ((sym.st_value : Int) + rel.r_addend))
        e.2.2.1 e.2.2.2 mem) := by
  simp only [movwKinds, List.mem_cons, List.mem_singleton, List.not_mem_nil, or_false] at he
  rcases he with rfl | rfl | rfl | rfl | rfl | rfl | rfl | rfl | rfl | rfl | rfl | rfl | rfl |
      rfl | rfl | rfl | rfl <;>
    simp [up_relocateadd, ht, R_AARCH64_NONE, R_AARCH64_ABS64, R_AARCH64_ABS32, R_AARCH64_ABS16,
    R_AARCH64_PREL64, R_AARCH64_PREL32, R_AARCH64_PREL16, R_AARCH64_MOVW_UABS_G0,
    R_AARCH64_MOVW_UABS_G0_NC, R_AARCH64_MOVW_UABS_G1, R_AARCH64_MOVW_UABS_G1_NC,
    R_AARCH64_MOVW_UABS_G2, R_AARCH64_MOVW_UABS_G2_NC, R_AARCH64_MOVW_UABS_G3,
    R_AARCH64_MOVW_SABS_G0, R_AARCH64_MOVW_SABS_G1, R_AARCH64_MOVW_SABS_G2,
    R_AARCH64_LD_PREL_LO19, R_AARCH64_ADR_PREL_LO21, R_AARCH64_ADR_PREL_PG_HI21,
    R_AARCH64_ADR_PREL_PG_HI21_NC, R_AARCH64_ADD_ABS_LO12_NC, R_AARCH64_LDST8_ABS_LO12_NC,
    R_AARCH64_TSTBR14, R_AARCH64_CONDBR19, R_AARCH64_JUMP26, R_AARCH64_CALL26,
    R_AARCH64_LDST16_ABS_LO12_NC, R_AARCH64_LDST32_ABS_LO12_NC, R_AARCH64_LDST64_ABS_LO12_NC,
    R_AARCH64_MOVW_PREL_G0, R_AARCH64_MOVW_PREL_G0_NC, R_AARCH64_MOVW_PREL_G1,
    R_AARCH64_MOVW_PREL_G1_NC, R_AARCH64_MOVW_PREL_G2, R_AARCH64_MOVW_PREL_G2_NC,
    R_AARCH64_MOVW_PREL_G3, R_AARCH64_LDST128_ABS_LO12_NC]

/-- The word written by `reloc_insn_imm` decodes, with the `(mask, shift)` of its immediate
type, to the low `len` bits of the shifted value. -/
theorem reloc_insn_imm_decode (op : aarch64_reloc_op) (place val lsb len : Nat)
    (ty : aarch64_insn_imm_type) (mem : Mem) (mask shift : Nat)
    (hget : aarch64_get_imm_shift_mask ty = some (mask, shift))
    (hm : sub64 (BIT (lsb + len)) 1 >>> lsb = 2 ^ len - 1) (hle : 2 ^ len - 1 ≤ mask) :
    (load32 (reloc_insn_imm op place val lsb len ty mem).2 place >>> shift) &&& mask =
      toU64 (toS64 (do_reloc op place val) >>> lsb) % 2 ^ len := by
  obtain ⟨k, rfl, hk, henc⟩ := imm_shift_mask_spec ty mask shift hget
  have hmem : (reloc_insn_imm op place val lsb len ty mem).2 =
      store32 mem place (aarch64_insn_encode_immediate ty (load32 mem place)
        (toU64 (toS64 (do_reloc op place val) >>> lsb) &&&
          (sub64 (BIT (lsb + len)) 1 >>> lsb))) := rfl
  rw [hmem, load32_store32, Nat.mod_eq_of_lt (encode_lt _ _ _), henc, field_decode _ _ _ _ hk,
    hm, Nat.and_pow_two_sub_one_eq_mod]
  apply Nat.mod_eq_of_lt
  have h1 : toU64 (toS64 (do_reloc op place val) >>> lsb) % 2 ^ len < 2 ^ len :=
    Nat.mod_lt _ (Nat.two_pow_pos _)
  have h2 : 0 < 2 ^ k := Nat.two_pow_pos _
  omega

theorem do_reloc_spec (op : aarch64_reloc_op) (x : Int) (addr : Nat)
    (h : op = RELOC_OP_ABS ∨ op = RELOC_OP_PREL) :
    do_reloc op addr (toU64 x) =
      toU64 (x - (if op = RELOC_OP_PREL then (addr : Int) else 0)) := by
  rcases h with rfl | rfl
  · simp [do_reloc_abs]
  · simp [do_reloc_prel]

/-- C6: for every general-immediate relocation kind handled by `up_relocateadd`
(LD_PREL_LO19, ADD_ABS_LO12_NC, LDST8/16/32/64/128_ABS_LO12_NC, TSTBR14, CONDBR19, JUMP26,
CALL26) with its `(lsb, len, immediate type)`, decoding the immediate field of the patched
instruction word with that type's `(mask, shift)` gives symbol + addend (minus the target for
the place-relative kinds), as a signed 64-bit value, shifted right arithmetically by `lsb`
and reduced to `len` bits; this holds for every original instruction word. -/
theorem imm_roundtrip (rel : Elf_Rela) (sym : Elf_Sym) (addr : Nat) (mem : Mem)
    (e : Nat × aarch64_reloc_op × Nat × Nat × aarch64_insn_imm_type) (he : e ∈ immKinds)
    (ht : ELF_R_TYPE rel.r_info = e.1) :
    ∃ mask shift mem', aarch64_get_imm_shift_mask e.2.2.2.2 = some (mask, shift) ∧
      up_relocateadd rel (some sym) addr mem = some (0, mem') ∧
      (load32 mem' addr >>> shift) &&& mask =
        toU64 (toS64 (toU64 ((sym.st_value : Int) + rel.r_addend -
          (if e.2.1 = RELOC_OP_PREL then (addr : Int) else 0))) >>> e.2.2.1) % 2 ^ e.2.2.2.1 := by
  have key : ∀ mask shift, aarch64_get_imm_shift_mask e.2.2.2.2 = some (mask, shift) →
      sub64 (BIT (e.2.2.1 + e.2.2.2.1)) 1 >>> e.2.2.1 = 2 ^ e.2.2.2.1 - 1 →
      2 ^ e.2.2.2.1 - 1 ≤ mask → (e.2.1 = RELOC_OP_ABS ∨ e.2.1 = RELOC_OP_PREL) →
      ∃ mem', up_relocateadd rel (some sym) addr mem = some (0, mem') ∧
      (load32 mem' addr >>> shift) &&& mask =
        toU64 (toS64 (toU64 ((sym.st_value : Int) + rel.r_addend -
          (if e.2.1 = RELOC_OP_PREL then (addr : Int) else 0))) >>> e.2.2.1) % 2 ^ e.2.2.2.1 := by
    intro mask shift hget hm hle hop
    refine ⟨(reloc_insn_imm e.2.1 addr (toU64 ((sym.st_value : Int) + rel.r_addend))
        e.2.2.1 e.2.2.2.1 e.2.2.2.2 mem).2, ?_, ?_⟩
    · rw [up_relocateadd_imm rel sym addr mem e he ht]
      rfl
    · rw [reloc_insn_imm_decode _ _ _ _ _ _ _ _ _ hget hm hle, do_reloc_spec _ _ _ hop]
  have he' := he
  simp only [immKinds, List.mem_cons, List.mem_singleton, List.not_mem_nil, or_false] at he'
  rcases he' with rfl | rfl | rfl | rfl | rfl | rfl | rfl | rfl | rfl | rfl | rfl
  all_goals
    obtain ⟨mem', h1, h2⟩ := key _ _ rfl (by decide) (by decide) (by decide)
    exact ⟨_, _, mem', rfl, h1, h2⟩


/-- Witness for C6: CALL26 from address 0x2000 to symbol 0x1000 encodes -0x400 in 26 bits. -/
theorem imm_roundtrip_witness :
    (R_AARCH64_CALL26, RELOC_OP_PREL, 2, 26, AARCH64_INSN_IMM_26) ∈ immKinds ∧
    ELF_R_TYPE (Elf_Rela.mk 0 283 0).r_info = R_AARCH64_CALL26 ∧
    ∃ mask shift mem', aarch64_get_imm_shift_mask AARCH64_INSN_IMM_26 = some (mask, shift) ∧
      up_relocateadd (Elf_Rela.mk 0 283 0) (some (Elf_Sym.mk 0 0 0 0 0x1000 0)) 0x2000
        (fun _ => 0) = some (0, mem') ∧
      (load32 mem' 0x2000 >>> shift) &&& mask = 2 ^ 26 - 0x400 := by
  have he : (R_AARCH64_CALL26, RELOC_OP_PREL, 2, 26, AARCH64_INSN_IMM_26) ∈ immKinds := by
    decide
  have ht : ELF_R_TYPE (Elf_Rela.mk 0 283 0).r_info = R_AARCH64_CALL26 := by decide
  obtain ⟨mask, shift, mem', h1, h2, h3⟩ :=
    imm_roundtrip (Elf_Rela.mk 0 283 0) (Elf_Sym.mk 0 0 0 0 0x1000 0) 0x2000 (fun _ => 0)
      (R_AARCH64_CALL26, RELOC_OP_PREL, 2, 26, AARCH64_INSN_IMM_26) he ht
  refine ⟨he, ht, mask, shift, mem', h1, h2, ?_⟩
  rw [h3]
  decide

/-- C7: with the ADR immediate type, `aarch64_insn_encode_immediate` places the low 2 bits
of the immediate in bits 30:29 and the next 19 bits in bits 23:5 of the word, so that
`((insn' >> 29) & 3) | (((insn' >> 5) & 0x7FFFF) << 2)` equals `imm & 0x1FFFFF` for every
`insn` and `imm`; hence `R_AARCH64_ADR_PREL_LO21` encodes (symbol + addend - target) mod 2^21
and `R_AARCH64_ADR_PREL_PG_HI21` (and its `_NC` variant) encodes (page delta >> 12) mod 2^21,
both returning 0. -/
theorem adr_encoding (rel : Elf_Rela) (sym : Elf_Sym) (addr : Nat) (mem : Mem) :
    (∀ insn imm : Nat,
      (aarch64_insn_encode_immediate AARCH64_INSN_IMM_ADR insn imm >>> 29) &&& 3 = imm &&& 3 ∧
      (aarch64_insn_encode_immediate AARCH64_INSN_IMM_ADR insn imm >>> 5) &&& 0x7FFFF =
        (imm >>> 2) &&& 0x7FFFF ∧
      ((aarch64_insn_encode_immediate AARCH64_INSN_IMM_ADR insn imm >>> 29) &&& 3) |||
        (((aarch64_insn_encode_immediate AARCH64_INSN_IMM_ADR insn imm >>> 5) &&& 0x7FFFF) <<< 2)
        = imm &&& 0x1FFFFF) ∧
    (ELF_R_TYPE rel.r_info = R_AARCH64_ADR_PREL_LO21 →
      ∃ mem', up_relocateadd rel (some sym) addr mem = some (0, mem') ∧
        ((load32 mem' addr >>> 29) &&& 3) ||| (((load32 mem' addr >>> 5) &&& 0x7FFFF) <<< 2) =
          toU64 ((sym.st_value : Int) + rel.r_addend - addr) % 2 ^ 21) ∧
    (ELF_R_TYPE rel.r_info = R_AARCH64_ADR_PREL_PG_HI21_NC ∨
        ELF_R_TYPE rel.r_info = R_AARCH64_ADR_PREL_PG_HI21 →
      ∃ mem', up_relocateadd rel (some sym) addr mem = some (0, mem') ∧
        ((load32 mem' addr >>> 29) &&& 3) ||| (((load32 mem' addr >>> 5) &&& 0x7FFFF) <<< 2) =
          toU64 (toS64 (do_reloc RELOC_OP_PAGE addr
            (toU64 ((sym.st_value : Int) + rel.r_addend))) >>> (12 : Nat)) % 2 ^ 21) := by
  refine ⟨fun insn imm => ⟨adr_decode_lo insn imm, adr_decode_hi insn imm, adr_decode insn imm⟩,
    ?_, ?_⟩
  · intro ht
    refine ⟨(reloc_insn_imm RELOC_OP_PREL addr (toU64 ((sym.st_value : Int) + rel.r_addend))
        0 21 AARCH64_INSN_IMM_ADR mem).2, ?_, ?_⟩
    · rw [up_relocateadd_adr_lo21 rel sym addr mem ht]
      rfl
    · have h0 : ∀ x : Int, x >>> (0 : Nat) = x := fun x => by simp [Int.shiftRight_eq_div_pow]
      rw [(reloc_insn_imm_adr _ _ _ _ _ imm_mask_21_0).2, do_reloc_prel, h0, toU64_toS64,
        toU64_mod]
  · intro ht
    refine ⟨(reloc_insn_imm RELOC_OP_PAGE addr (toU64 ((sym.st_value : Int) + rel.r_addend))
        12 21 AARCH64_INSN_IMM_ADR mem).2, ?_, ?_⟩
    · rw [up_relocateadd_adrp rel sym addr mem ht]
      rfl
    · exact (reloc_insn_imm_adr _ _ _ _ _ imm_mask_21_12).2

/-- Witness for C7: ADR_PREL_LO21 from address 0x2000 to symbol 0x1FFC encodes -4 mod 2^21. -/
theorem adr_encoding_witness :
    ELF_R_TYPE (Elf_Rela.mk 0 274 0).r_info = R_AARCH64_ADR_PREL_LO21 ∧
    ∃ mem', up_relocateadd (Elf_Rela.mk 0 274 0) (some (Elf_Sym.mk 0 0 0 0 0x1FFC 0)) 0x2000
        (fun _ => 0) = some (0, mem') ∧
      ((load32 mem' 0x2000 >>> 29) &&& 3) ||| (((load32 mem' 0x2000 >>> 5) &&& 0x7FFFF) <<< 2) =
        2 ^ 21 - 4 := by
  have ht : ELF_R_TYPE (Elf_Rela.mk 0 274 0).r_info = R_AARCH64_ADR_PREL_LO21 := by decide
  obtain ⟨mem', h1, h2⟩ :=
    (adr_encoding (Elf_Rela.mk 0 274 0) (Elf_Sym.mk 0 0 0 0 0x1FFC 0) 0x2000 (fun _ => 0)).2.1 ht
  refine ⟨ht, mem', h1, ?_⟩
  rw [h2]
  decide

/-- C8: for every valid immediate type, every instruction word `insn` and every `imm`,
`aarch64_insn_encode_immediate` changes only the bits of the type's immediate field: every
bit of the result outside `mask << shift` (for the ADR type, outside bits 30:29 and 23:5)
equals the corresponding bit of `insn`. The valid types are ADR and the types with an entry
in the `(mask, shift)` table, that is every type but `AARCH64_INSN_IMM_MAX`. -/
theorem encode_immediate_frame (ty : aarch64_insn_imm_type) (insn imm : Nat)
    (hi : insn < 2 ^ 32) :
    (∀ mask shift, aarch64_get_imm_shift_mask ty = some (mask, shift) →
      ∀ i, (mask <<< shift).testBit i = false →
        (aarch64_insn_encode_immediate ty insn imm).testBit i = insn.testBit i) ∧
    (ty = AARCH64_INSN_IMM_ADR →
      ∀ i, ¬ (i = 29 ∨ i = 30) → ¬ (5 ≤ i ∧ i ≤ 23) →
        (aarch64_insn_encode_immediate ty insn imm).testBit i = insn.testBit i) ∧
    (ty ≠ AARCH64_INSN_IMM_MAX →
      ty = AARCH64_INSN_IMM_ADR ∨ ∃ mask shift, aarch64_get_imm_shift_mask ty = some (mask, shift))
    := by
  refine ⟨?_, ?_, ?_⟩
  · intro mask shift hget i hb
    obtain ⟨k, rfl, _, henc⟩ := imm_shift_mask_spec ty mask shift hget
    rw [henc]
    exact field_frame_bit insn imm k shift i hi hb
  · rintro rfl i h1 h2
    rw [encode_adr_testBit]
    have a1 : ¬ (29 ≤ i ∧ i < 31) := by omega
    have a2 : ¬ (5 ≤ i ∧ i < 24) := by omega
    rw [if_neg a1, if_neg a2]
    by_cases h32 : i < 32
    · simp [h32]
    · have : insn.testBit i = false :=
        Nat.testBit_lt_two_pow (lt_of_lt_of_le hi (Nat.pow_le_pow_right (by decide) (by omega)))
      simp [h32, this]
  · intro hmax
    cases ty <;> simp [aarch64_get_imm_shift_mask] at hmax ⊢

/-- Witness for C8: writing the 12-bit immediate 0 into the all-ones word keeps bit 3. -/
theorem encode_immediate_frame_witness :
    (0xFFFFFFFF < 2 ^ 32) ∧
    aarch64_get_imm_shift_mask AARCH64_INSN_IMM_12 = some (0xFFF, 10) ∧
    ((0xFFF : Nat) <<< 10).testBit 3 = false ∧
    (aarch64_insn_encode_immediate AARCH64_INSN_IMM_12 0xFFFFFFFF 0).testBit 3 =
      (0xFFFFFFFF : Nat).testBit 3 :=
  ⟨by decide, by decide, by decide,
    (encode_immediate_frame AARCH64_INSN_IMM_12 0xFFFFFFFF 0 (by decide)).1 0xFFF 10
      (by decide) 3 (by decide)⟩

/-! ## Move-wide relocations -/

theorem toS64_bounds (n : Nat) : -2 ^ 63 ≤ toS64 n ∧ toS64 n < 2 ^ 63 := by
  unfold toS64
  split <;> omega

theorem movnz_range (X : Int) (lsb : Nat) (hl : lsb = 0 ∨ lsb = 16 ∨ lsb = 32 ∨ lsb = 48)
    (h1 : -2 ^ 63 ≤ X) (h2 : X < 2 ^ 63) :
    ((if X < 0 then not64 (toU64 (X >>> lsb)) else toU64 (X >>> lsb)) > 65535 ↔
      (X >>> lsb < -2 ^ 16 ∨ X >>> lsb > 2 ^ 16 - 1)) := by
  rcases hl with rfl | rfl | rfl | rfl <;>
    simp only [Int.shiftRight_eq_div_pow, toU64, not64] <;> norm_num <;> split_ifs <;> omega

/-- The word produced by `aarch64_insn_encode_immediate` for the 16-bit immediate type, bit
by bit. -/
theorem encode16_testBit (insn imm i : Nat) (hi : insn < 2 ^ 32) :
    (aarch64_insn_encode_immediate AARCH64_INSN_IMM_16 insn imm).testBit i =
      if 5 ≤ i ∧ i < 21 then imm.testBit (i - 5) else insn.testBit i := by
  have henc : aarch64_insn_encode_immediate AARCH64_INSN_IMM_16 insn imm =
      u32 ((insn &&& not32 (u32 ((2 ^ 16 - 1) <<< 5))) ||| u64 ((imm &&& (2 ^ 16 - 1)) <<< 5)) :=
    rfl
  by_cases h : 5 ≤ i ∧ i < 21
  · rw [if_pos h, henc]
    simp only [u32, u64, Nat.testBit_and, Nat.testBit_or, Nat.testBit_mod_two_pow,
      testBit_not32, Nat.testBit_shiftLeft, Nat.testBit_two_pow_sub_one]
    have a1 : i < 32 := by omega
    have a2 : i < 64 := by omega
    have a3 : i ≥ 5 := h.1
    have a4 : i - 5 < 16 := by omega
    simp [a1, a2, a3, a4]
  · rw [if_neg h, henc]
    apply field_frame_bit insn imm 16 5 i hi
    simp only [Nat.testBit_shiftLeft, Nat.testBit_two_pow_sub_one]
    by_cases a3 : i ≥ 5
    · have a4 : ¬ i - 5 < 16 := by omega
      simp [a3, a4]
    · simp [a3]

/-- The opcode rewriting of the signed move-wide relocations, bit by bit. -/
theorem movnz_opcode_testBit (insn i : Nat) (nonneg : Prop) [Decidable nonneg] :
    (if nonneg then (insn &&& not32 (3 <<< 29)) ||| (2 <<< 29)
      else insn &&& not32 (3 <<< 29)).testBit i =
      if i = 30 then decide nonneg else if i = 29 then false
      else (decide (i < 32) && insn.testBit i) := by
  have e1 : (3 : Nat) <<< 29 = (2 ^ 2 - 1) <<< 29 := by decide
  have e2 : (2 : Nat) <<< 29 = 2 ^ 30 := by decide
  rw [e1, e2]
  by_cases hn : nonneg
  · simp only [if_pos hn, Nat.testBit_or, Nat.testBit_and, testBit_not32, Nat.testBit_shiftLeft,
      Nat.testBit_two_pow_sub_one, Nat.testBit_two_pow]
    by_cases h30 : i = 30
    · subst h30
      simp [hn]
    · by_cases h29 : i = 29
      · subst h29
        simp
      · have a1 : ¬ (30 = i) := fun h => h30 h.symm
        by_cases a2 : i ≥ 29
        · have a3 : ¬ i - 29 < 2 := by omega
          simp [h30, h29, a1, a2, a3, Bool.and_comm]
        · simp [h30, h29, a1, a2, Bool.and_comm]
  · simp only [if_neg hn, Nat.testBit_and, testBit_not32, Nat.testBit_shiftLeft,
      Nat.testBit_two_pow_sub_one]
    by_cases h30 : i = 30
    · subst h30
      simp [hn]
    · by_cases h29 : i = 29
      · subst h29
        simp
      · by_cases a2 : i ≥ 29
        · have a3 : ¬ i - 29 < 2 := by omega
          simp [h30, h29, a2, a3, Bool.and_comm]
        · simp [h30, h29, a2, Bool.and_comm]

theorem movnz_opcode_lt (insn : Nat) (nonneg : Prop) [Decidable nonneg] :
    (if nonneg then (insn &&& not32 (3 <<< 29)) ||| (2 <<< 29)
      else insn &&& not32 (3 <<< 29)) < 2 ^ 32 := by
  apply Nat.lt_pow_two_of_testBit
  intro i hi
  rw [movnz_opcode_testBit]
  have a1 : ¬ i = 30 := by omega
  have a2 : ¬ i = 29 := by omega
  have a3 : ¬ i < 32 := by omega
  simp [a1, a2, a3]

theorem reloc_insn_movw_eq (op : aarch64_reloc_op) (place val lsb : Nat)
    (ty : aarch64_insn_movw_imm_type) (mem : Mem) :
    reloc_insn_movw op place val lsb ty mem =
      (if (if ty = AARCH64_INSN_IMM_MOVNZ ∧ toS64 (do_reloc op place val) < 0
            then not64 (toU64 (toS64 (do_reloc op place val) >>> lsb))
            else toU64 (toS64 (do_reloc op place val) >>> lsb)) > 65535 then -ERANGE else 0,
       store32 mem place (aarch64_insn_encode_immediate AARCH64_INSN_IMM_16
        (if ty = AARCH64_INSN_IMM_MOVNZ then
          (if 0 ≤ toS64 (do_reloc op place val)
            then (load32 mem place &&& not32 (3 <<< 29)) ||| (2 <<< 29)
            else load32 mem place &&& not32 (3 <<< 29))
         else load32 mem place)
        (if ty = AARCH64_INSN_IMM_MOVNZ ∧ toS64 (do_reloc op place val) < 0
            then not64 (toU64 (toS64 (do_reloc op place val) >>> lsb))
            else toU64 (toS64 (do_reloc op place val) >>> lsb)))) := by
  unfold reloc_insn_movw
  by_cases hty : ty = AARCH64_INSN_IMM_MOVNZ
  · by_cases hx : 0 ≤ toS64 (do_reloc op place val)
    · have hx' : ¬ toS64 (do_reloc op place val) < 0 := by omega
      simp [hty, hx, hx']
      split_ifs <;> rfl
    · have hx' : toS64 (do_reloc op place val) < 0 := by omega
      simp [hty, hx, hx']
      split_ifs <;> rfl
  · simp [hty]
    split_ifs <;> rfl

/-- The word written by a signed move-wide relocation: opcode bits, immediate field and
the remaining bits. -/
theorem movnz_word (insn imm : Nat) (nonneg : Prop) [Decidable nonneg] (hi : insn < 2 ^ 32) :
    ((aarch64_insn_encode_immediate AARCH64_INSN_IMM_16
        (if nonneg then (insn &&& not32 (3 <<< 29)) ||| (2 <<< 29)
          else insn &&& not32 (3 <<< 29)) imm >>> 29) &&& 3 = if nonneg then 2 else 0) ∧
    (∀ i, ¬ (5 ≤ i ∧ i ≤ 20) → i ≠ 29 → i ≠ 30 →
      (aarch64_insn_encode_immediate AARCH64_INSN_IMM_16
        (if nonneg then (insn &&& not32 (3 <<< 29)) ||| (2 <<< 29)
          else insn &&& not32 (3 <<< 29)) imm).testBit i = insn.testBit i) := by
  constructor
  · have e1 : ∀ x : Nat, x &&& 3 = x % 2 ^ 2 := fun x => Nat.and_pow_two_sub_one_eq_mod x 2
    have t2 : ∀ i, (2 : Nat).testBit i = decide (1 = i) := fun i =>
      @Nat.testBit_two_pow 1 i
    rw [e1]
    apply Nat.eq_of_testBit_eq
    intro i
    rw [Nat.testBit_mod_two_pow, Nat.testBit_shiftRight,
      encode16_testBit _ _ _ (movnz_opcode_lt insn nonneg), movnz_opcode_testBit]
    by_cases h0 : i = 0
    · subst h0
      by_cases hn : nonneg
      · simp [hn, t2]
      · simp [hn]
    · by_cases h1 : i = 1
      · subst h1
        by_cases hn : nonneg
        · simp [hn, t2]
        · simp [hn]
      · have a1 : ¬ i < 2 := by omega
        have a2 : ¬ (1 = i) := fun h => h1 h.symm
        by_cases hn : nonneg
        · simp [hn, a1, a2, t2]
        · simp [hn, a1]
  · intro i h1 h2 h3
    have a1 : ¬ (5 ≤ i ∧ i < 21) := by omega
    rw [encode16_testBit _ _ _ (movnz_opcode_lt insn nonneg), if_neg a1, movnz_opcode_testBit,
      if_neg h3, if_neg h2]
    by_cases h32 : i < 32
    · simp [h32]
    · have : insn.testBit i = false :=
        Nat.testBit_lt_two_pow (lt_of_lt_of_le hi (Nat.pow_le_pow_right (by decide) (by omega)))
      simp [h32, this]

theorem encode16_field (insn imm : Nat) :
    (aarch64_insn_encode_immediate AARCH64_INSN_IMM_16 insn imm >>> 5) &&& 0xFFFF =
      imm % 2 ^ 16 := by
  have henc : aarch64_insn_encode_immediate AARCH64_INSN_IMM_16 insn imm =
      u32 ((insn &&& not32 (u32 ((2 ^ 16 - 1) <<< 5))) ||| u64 ((imm &&& (2 ^ 16 - 1)) <<< 5)) :=
    rfl
  have e : (0xFFFF : Nat) = 2 ^ 16 - 1 := by decide
  rw [henc, e]
  exact field_decode insn imm 16 5 (by decide)

theorem movwKinds_shape :
    ∀ e ∈ movwKinds, (e.2.2.1 = 0 ∨ e.2.2.1 = 16 ∨ e.2.2.1 = 32 ∨ e.2.2.1 = 48) ∧
      (e.2.1 = RELOC_OP_ABS ∨ e.2.1 = RELOC_OP_PREL) := by
  decide


/-- C9: for the signed move-wide kinds (MOVW_SABS_G0/G1/G2 and MOVW_PREL_G0/G1/G2/G3) with
computed signed value `X`: if `X < 0` the patched word has opcode bits 30:29 equal to 00
(MOVN) and its 16-bit immediate field (bits 20:5) is the bitwise inverse of `X >> lsb`
reduced to 16 bits; if `X ≥ 0` the opcode bits are 10 (MOVZ) and the field is `X >> lsb`
reduced to 16 bits, not inverted; every other bit of the instruction is unchanged. -/
theorem movw_signed_encoding (rel : Elf_Rela) (sym : Elf_Sym) (addr : Nat) (mem : Mem)
    (e : Nat × aarch64_reloc_op × Nat × aarch64_insn_movw_imm_type) (he : e ∈ movwKinds)
    (hs : e.2.2.2 = AARCH64_INSN_IMM_MOVNZ) (ht : ELF_R_TYPE rel.r_info = e.1) (X : Int)
    (hX : X = toS64 (toU64 ((sym.st_value : Int) + rel.r_addend -
      (if e.2.1 = RELOC_OP_PREL then (addr : Int) else 0)))) :
    ∃ r mem', up_relocateadd rel (some sym) addr mem = some (r, mem') ∧
      (X < 0 → (load32 mem' addr >>> 29) &&& 3 = 0 ∧
        (load32 mem' addr >>> 5) &&& 0xFFFF = not64 (toU64 (X >>> e.2.2.1)) % 2 ^ 16) ∧
      (0 ≤ X → (load32 mem' addr >>> 29) &&& 3 = 2 ∧
        (load32 mem' addr >>> 5) &&& 0xFFFF = toU64 (X >>> e.2.2.1) % 2 ^ 16) ∧
      (∀ i, ¬ (5 ≤ i ∧ i ≤ 20) → i ≠ 29 → i ≠ 30 →
        (load32 mem' addr).testBit i = (load32 mem addr).testBit i) := by
  have hX' : toS64 (do_reloc e.2.1 addr (toU64 ((sym.st_value : Int) + rel.r_addend))) = X := by
    rw [do_reloc_spec _ _ _ (movwKinds_shape e he).2, hX]
  refine ⟨_, _, (up_relocateadd_movw rel sym addr mem e he ht).trans
    (congrArg some (reloc_insn_movw_eq _ _ _ _ _ _)), ?_⟩
  simp only [hX', hs, true_and, if_true, load32_store32, Nat.mod_eq_of_lt (encode_lt _ _ _),
    encode16_field]
  obtain ⟨h1, h2⟩ := movnz_word (load32 mem addr)
    (if X < 0 then not64 (toU64 (X >>> e.2.2.1)) else toU64 (X >>> e.2.2.1)) (0 ≤ X)
    (load32_lt mem addr)
  refine ⟨?_, ?_, h2⟩
  · intro hneg
    have hn : ¬ 0 ≤ X := by omega
    rw [h1, if_neg hn, if_pos hneg]
    exact ⟨rfl, rfl⟩
  · intro hpos
    have hn : ¬ X < 0 := by omega
    rw [h1, if_pos hpos, if_neg hn]
    exact ⟨rfl, rfl⟩

/-- Witness for C9: MOVW_SABS_G0 with symbol + addend = -2 turns the all-ones word into a
MOVN with immediate 1. -/
theorem movw_signed_encoding_witness :
    (R_AARCH64_MOVW_SABS_G0, RELOC_OP_ABS, 0, AARCH64_INSN_IMM_MOVNZ) ∈ movwKinds ∧
    ELF_R_TYPE (Elf_Rela.mk 0 270 (-7)).r_info = R_AARCH64_MOVW_SABS_G0 ∧
    ∃ r mem', up_relocateadd (Elf_Rela.mk 0 270 (-7)) (some (Elf_Sym.mk 0 0 0 0 5 0)) 64
        (fun _ => 255) = some (r, mem') ∧
      (load32 mem' 64 >>> 29) &&& 3 = 0 ∧ (load32 mem' 64 >>> 5) &&& 0xFFFF = 1 := by
  have he : (R_AARCH64_MOVW_SABS_G0, RELOC_OP_ABS, 0, AARCH64_INSN_IMM_MOVNZ) ∈ movwKinds := by
    decide
  have ht : ELF_R_TYPE (Elf_Rela.mk 0 270 (-7)).r_info = R_AARCH64_MOVW_SABS_G0 := by decide
  obtain ⟨r, mem', h0, h1, _, _⟩ :=
    movw_signed_encoding (Elf_Rela.mk 0 270 (-7)) (Elf_Sym.mk 0 0 0 0 5 0) 64 (fun _ => 255)
      (R_AARCH64_MOVW_SABS_G0, RELOC_OP_ABS, 0, AARCH64_INSN_IMM_MOVNZ) he rfl ht (-2)
      (by decide)
  obtain ⟨h2, h3⟩ := h1 (by decide)
  refine ⟨he, ht, r, mem', h0, h2, ?_⟩
  rw [h3]
  decide

/-- C10: for every move-wide relocation kind, `up_relocateadd` returns `-ERANGE` exactly
when the immediate, after the right shift by the kind's `lsb` (and after inversion for a
negative value of a signed kind), exceeds 0xFFFF, and 0 otherwise; for the signed kinds
this is exactly when `X >> lsb` is outside `[-2^16, 2^16 - 1]`. In both cases the immediate
field of the instruction word holds the low 16 bits of the immediate. -/
theorem movw_range (rel : Elf_Rela) (sym : Elf_Sym) (addr : Nat) (mem : Mem)
    (e : Nat × aarch64_reloc_op × Nat × aarch64_insn_movw_imm_type) (he : e ∈ movwKinds)
    (ht : ELF_R_TYPE rel.r_info = e.1) (X : Int)
    (hX : X = toS64 (toU64 ((sym.st_value : Int) + rel.r_addend -
      (if e.2.1 = RELOC_OP_PREL then (addr : Int) else 0))))
    (imm : Nat)
    (himm : imm = if e.2.2.2 = AARCH64_INSN_IMM_MOVNZ ∧ X < 0
      then not64 (toU64 (X >>> e.2.2.1)) else toU64 (X >>> e.2.2.1)) :
    ∃ r mem', up_relocateadd rel (some sym) addr mem = some (r, mem') ∧
      (r = -ERANGE ↔ imm > 0xFFFF) ∧ (r = 0 ↔ imm ≤ 0xFFFF) ∧
      (e.2.2.2 = AARCH64_INSN_IMM_MOVNZ →
        (r = -ERANGE ↔ (X >>> e.2.2.1 < -2 ^ 16 ∨ X >>> e.2.2.1 > 2 ^ 16 - 1))) ∧
      (load32 mem' addr >>> 5) &&& 0xFFFF = imm % 2 ^ 16 := by
  have hX' : toS64 (do_reloc e.2.1 addr (toU64 ((sym.st_value : Int) + rel.r_addend))) = X := by
    rw [do_reloc_spec _ _ _ (movwKinds_shape e he).2, hX]
  have hb : -2 ^ 63 ≤ X ∧ X < 2 ^ 63 := by
    rw [hX]
    exact toS64_bounds _
  refine ⟨_, _, (up_relocateadd_movw rel sym addr mem e he ht).trans
    (congrArg some (reloc_insn_movw_eq _ _ _ _ _ _)), ?_⟩
  simp only [hX', ← himm, load32_store32, Nat.mod_eq_of_lt (encode_lt _ _ _), encode16_field,
    ERANGE]
  refine ⟨?_, ?_, ?_, trivial⟩
  · split_ifs <;> simp <;> omega
  · split_ifs <;> simp <;> omega
  · intro hs
    have hr := movnz_range X e.2.2.1 (movwKinds_shape e he).1 hb.1 hb.2
    simp only [hs, true_and] at himm
    rw [← himm] at hr
    rw [← hr]
    split_ifs <;> simp <;> omega

/-- Witness for C10: MOVW_UABS_G1 with symbol + addend = 2^32 + 0x230000 overflows the
16-bit immediate; the field holds 0x23. -/
theorem movw_range_witness :
    (R_AARCH64_MOVW_UABS_G1, RELOC_OP_ABS, 16, AARCH64_INSN_IMM_MOVKZ) ∈ movwKinds ∧
    ELF_R_TYPE (Elf_Rela.mk 0 265 0x230000).r_info = R_AARCH64_MOVW_UABS_G1 ∧
    ∃ r mem', up_relocateadd (Elf_Rela.mk 0 265 0x230000)
        (some (Elf_Sym.mk 0 0 0 0 0x100000000 0)) 64 (fun _ => 0) = some (r, mem') ∧
      r = -ERANGE ∧ (load32 mem' 64 >>> 5) &&& 0xFFFF = 0x23 := by
  have he : (R_AARCH64_MOVW_UABS_G1, RELOC_OP_ABS, 16, AARCH64_INSN_IMM_MOVKZ) ∈ movwKinds := by
    decide
  have ht : ELF_R_TYPE (Elf_Rela.mk 0 265 0x230000).r_info = R_AARCH64_MOVW_UABS_G1 := by
    decide
  obtain ⟨r, mem', h0, h1, _, _, h4⟩ :=
    movw_range (Elf_Rela.mk 0 265 0x230000) (Elf_Sym.mk 0 0 0 0 0x100000000 0) 64 (fun _ => 0)
      (R_AARCH64_MOVW_UABS_G1, RELOC_OP_ABS, 16, AARCH64_INSN_IMM_MOVKZ) he ht 0x100230000
      (by decide) 0x10023 (by decide)
  exact ⟨he, ht, r, mem', h0, h1.mpr (by decide), h4⟩

/-! ## Page-relative values, range errors of immediates, the architecture check -/

theorem and_page_mask (x : Nat) :
    x &&& 0xfffffffffffff000 = x % 2 ^ 64 / 4096 * 4096 := by
  have e1 : (0xfffffffffffff000 : Nat) = (2 ^ 52 - 1) <<< 12 := by decide
  have e2 : x % 2 ^ 64 / 4096 * 4096 = ((x % 2 ^ 64) >>> 12) <<< 12 := by
    rw [Nat.shiftRight_eq_div_pow, Nat.shiftLeft_eq]
  rw [e1, e2]
  apply Nat.eq_of_testBit_eq
  intro i
  simp only [Nat.testBit_and, Nat.testBit_shiftLeft, Nat.testBit_shiftRight,
    Nat.testBit_two_pow_sub_one, Nat.testBit_mod_two_pow]
  by_cases h1 : i ≥ 12
  · have h2 : 12 + (i - 12) = i := by omega
    by_cases h3 : i - 12 < 52
    · have h4 : i < 64 := by omega
      simp [h1, h2, h3, h4]
    · have h4 : ¬ i < 64 := by omega
      simp [h1, h2, h3, h4]
  · simp [h1]

theorem do_reloc_page_eq (place val : Nat) :
    do_reloc RELOC_OP_PAGE place val =
      (val % 2 ^ 64 / 4096 * 4096 + (2 ^ 64 - place % 2 ^ 64 / 4096 * 4096)) % 2 ^ 64 := by
  simp only [do_reloc, sub64, u64, and_page_mask]
  omega

/-- C11: the page-relative computation `do_reloc(RELOC_OP_PAGE, place, val)` equals
((`val` with its low 12 bits cleared) - (`place` with its low 12 bits cleared)) mod 2^64; it
does not change when the low 12 bits of `val` or of `place` are replaced by any others; for
`place = P` and `val = P + 0x1000` it is exactly `0x1000`, for every `P`. -/
theorem page_reloc (place val a b : Nat) :
    ((do_reloc RELOC_OP_PAGE place val : Nat) : Int) =
      (((val % 2 ^ 64 - val % 4096 : Nat) : Int) - ((place % 2 ^ 64 - place % 4096 : Nat) : Int))
        % 2 ^ 64 ∧
    do_reloc RELOC_OP_PAGE (place - place % 4096 + b % 4096) (val - val % 4096 + a % 4096) =
      do_reloc RELOC_OP_PAGE place val ∧
    do_reloc RELOC_OP_PAGE place (u64 (place + 0x1000)) = 0x1000 := by
  simp only [do_reloc_page_eq, u64]
  refine ⟨?_, ?_, ?_⟩
  · omega
  · omega
  · omega


/-- C12: evaluation of the code where the claim fails. `R_AARCH64_JUMP26` with
symbol + addend - target = 2^27, just above the range `[-2^27, 2^27)` of the 26-bit branch
field, makes `up_relocateadd` return 0 (success), not `-ERANGE`, and the field written is
`0x2000000`, which a branch reads as the offset -2^27: the overflow test of `reloc_insn_imm` is
commented out. -/
theorem jump26_out_of_range_returns_ok :
    toS64 (toU64 ((0x8000000 : Int) + 0 - 0)) = 2 ^ 27 ∧
    ∃ mem', up_relocateadd (Elf_Rela.mk 0 282 0) (some (Elf_Sym.mk 0 0 0 0 0x8000000 0)) 0
        (fun _ => 0) = some (0, mem') ∧ (0 : Int) ≠ -ERANGE ∧
      load32 mem' 0 &&& 0x3FFFFFF = 0x2000000 := by
  refine ⟨by decide, _, up_relocateadd_imm (Elf_Rela.mk 0 282 0) (Elf_Sym.mk 0 0 0 0 0x8000000 0)
    0 (fun _ => 0) (R_AARCH64_JUMP26, RELOC_OP_PREL, 2, 26, AARCH64_INSN_IMM_26) (by decide)
    (by decide), by decide, ?_⟩
  have h := reloc_insn_imm_decode RELOC_OP_PREL 0 (toU64 ((0x8000000 : Int) + 0)) 2 26
    AARCH64_INSN_IMM_26 (fun _ => 0) (2 ^ 26 - 1) 0 (by decide) (by decide) (by decide)
  rw [Nat.shiftRight_zero] at h
  exact h.trans (by decide)

/-- C13: `up_checkarch` returns true if and only if the header has `e_machine = EM_AARCH64`,
`e_ident[EI_CLASS] = ELFCLASS64`, `e_ident[EI_DATA]` equal to the configured endianness
(`ELFDATA2LSB` unless `CONFIG_ENDIAN_BIG`) and `(e_entry & 3) = 0`; it returns false as soon
as one of the four checks fails. -/
theorem up_checkarch_iff (CONFIG_ENDIAN_BIG : Bool) (ehdr : Elf_Ehdr) :
    (up_checkarch CONFIG_ENDIAN_BIG ehdr = true ↔
      ehdr.e_machine = EM_AARCH64 ∧ ehdr.e_ident EI_CLASS = ELFCLASS64 ∧
      ehdr.e_ident EI_DATA = (if CONFIG_ENDIAN_BIG then ELFDATA2MSB else ELFDATA2LSB) ∧
      ehdr.e_entry &&& 3 = 0) ∧
    (up_checkarch CONFIG_ENDIAN_BIG ehdr = false ↔
      ehdr.e_machine ≠ EM_AARCH64 ∨ ehdr.e_ident EI_CLASS ≠ ELFCLASS64 ∨
      ehdr.e_ident EI_DATA ≠ (if CONFIG_ENDIAN_BIG then ELFDATA2MSB else ELFDATA2LSB) ∨
      ehdr.e_entry &&& 3 ≠ 0) := by
  unfold up_checkarch
  by_cases h1 : ehdr.e_machine = EM_AARCH64
  · by_cases h2 : ehdr.e_ident EI_CLASS = ELFCLASS64
    · by_cases h3 : ehdr.e_ident EI_DATA =
          (if CONFIG_ENDIAN_BIG then ELFDATA2MSB else ELFDATA2LSB)
      · by_cases h4 : ehdr.e_entry &&& 3 = 0
        · simp [h1, h2, h3, h4]
        · simp [h1, h2, h3, h4]
      · simp [h1, h2, h3]
    · simp [h1, h2]
  · simp [h1]

/-! ## A `NULL` symbol, and the top group of the PC-relative move-wide kinds -/

/-- C26: evaluation of the code where the claim fails. For the kind `R_AARCH64_NONE`, which
needs no symbol, `up_relocateadd` called with `sym = NULL` does not return 0: it reads
`sym->st_value` before its `switch`, a fault. With any symbol it returns 0 and leaves the
memory unchanged. -/
theorem none_relocation_null_symbol :
    ELF_R_TYPE (Elf_Rela.mk 0 0 0).r_info = R_AARCH64_NONE ∧
    up_relocateadd (Elf_Rela.mk 0 0 0) none 0 (fun _ => 0) = none ∧
    ∀ sym : Elf_Sym, up_relocateadd (Elf_Rela.mk 0 0 0) (some sym) 0 (fun _ => 0) =
      some (0, fun _ => 0) := by
  refine ⟨by decide, rfl, fun sym => ?_⟩
  simp [up_relocateadd, ELF_R_TYPE, R_AARCH64_NONE]

/-- C28: `R_AARCH64_MOVW_PREL_G3` cannot overflow: for every symbol value, addend, target
address and memory (hence original instruction word), `up_relocateadd` with this kind returns
0, never `-ERANGE`. -/
theorem movw_prel_g3_no_overflow (rel : Elf_Rela) (sym : Elf_Sym) (addr : Nat) (mem : Mem)
    (ht : ELF_R_TYPE rel.r_info = R_AARCH64_MOVW_PREL_G3) :
    ∃ mem', up_relocateadd rel (some sym) addr mem = some (0, mem') ∧ (0 : Int) ≠ -ERANGE := by
  have hb := toS64_bounds (do_reloc RELOC_OP_PREL addr
    (toU64 ((sym.st_value : Int) + rel.r_addend)))
  have hr := movnz_range _ 48 (by decide) hb.1 hb.2
  have hn : ¬ ((if toS64 (do_reloc RELOC_OP_PREL addr
        (toU64 ((sym.st_value : Int) + rel.r_addend))) < 0
      then not64 (toU64 (toS64 (do_reloc RELOC_OP_PREL addr
        (toU64 ((sym.st_value : Int) + rel.r_addend))) >>> (48 : Nat)))
      else toU64 (toS64 (do_reloc RELOC_OP_PREL addr
        (toU64 ((sym.st_value : Int) + rel.r_addend))) >>> (48 : Nat))) > 65535) := by
    rw [hr, Int.shiftRight_eq_div_pow]
    omega
  rw [up_relocateadd_movw rel sym addr mem
    (R_AARCH64_MOVW_PREL_G3, RELOC_OP_PREL, 48, AARCH64_INSN_IMM_MOVNZ) (by decide) ht,
    reloc_insn_movw_eq]
  simp only [true_and]
  rw [if_neg hn]
  exact ⟨_, rfl, by decide⟩

/-- Witness for C28: the largest target address with symbol + addend = -1, the most negative
difference. -/
theorem movw_prel_g3_no_overflow_witness :
    ELF_R_TYPE (Elf_Rela.mk 0 293 (-1)).r_info = R_AARCH64_MOVW_PREL_G3 ∧
    ∃ mem', up_relocateadd (Elf_Rela.mk 0 293 (-1)) (some (Elf_Sym.mk 0 0 0 0 0 0))
      0x7fffffffffffffff (fun _ => 0) = some (0, mem') ∧ (0 : Int) ≠ -ERANGE :=
  ⟨by decide, movw_prel_g3_no_overflow _ _ _ _ (by decide)⟩

/-! ## The unsigned and the no-check move-wide kinds -/

/-- The move-wide kinds that `up_relocateadd` passes to `reloc_insn_movw` with the type
`AARCH64_INSN_IMM_MOVKZ` are the unsigned and the no-check kinds. -/
theorem movkz_kinds :
    (movwKinds.filter (fun e => decide (e.2.2.2 = AARCH64_INSN_IMM_MOVKZ))).map (fun e => e.1) =
      [R_AARCH64_MOVW_UABS_G0_NC, R_AARCH64_MOVW_UABS_G0, R_AARCH64_MOVW_UABS_G1_NC,
       R_AARCH64_MOVW_UABS_G1, R_AARCH64_MOVW_UABS_G2_NC, R_AARCH64_MOVW_UABS_G2,
       R_AARCH64_MOVW_UABS_G3, R_AARCH64_MOVW_PREL_G0_NC, R_AARCH64_MOVW_PREL_G1_NC,
       R_AARCH64_MOVW_PREL_G2_NC] := by
  decide

/-- Two words that agree on bits 29 and 30 have the same opcode field. -/
theorem opcode_bits_eq (a b : Nat) (h29 : a.testBit 29 = b.testBit 29)
    (h30 : a.testBit 30 = b.testBit 30) : (a >>> 29) &&& 3 = (b >>> 29) &&& 3 := by
  have e : ∀ x, x &&& 3 = x % 2 ^ 2 := fun x => Nat.and_pow_two_sub_one_eq_mod x 2
  rw [e, e]
  apply Nat.eq_of_testBit_eq
  intro i
  simp only [Nat.testBit_mod_two_pow, Nat.testBit_shiftRight]
  by_cases hi : i < 2
  · have : i = 0 ∨ i = 1 := by omega
    rcases this with rfl | rfl
    · simpa using h29
    · simpa using h30
  · simp [hi]

/-- C34: for the unsigned and the no-check move-wide kinds (MOVW_UABS_G0..G3,
MOVW_UABS_Gn_NC, MOVW_PREL_Gn_NC: the kinds passed with `AARCH64_INSN_IMM_MOVKZ`), whatever
the sign of the computed value `X`, `up_relocateadd` leaves the opcode bits 30:29 as they
were and does not invert the immediate: bits 20:5 of the instruction become
`(X >> lsb) & 0xFFFF`, every other bit of the word and every other byte of the memory is
unchanged. -/
theorem movw_unsigned_frame (rel : Elf_Rela) (sym : Elf_Sym) (addr : Nat) (mem : Mem)
    (e : Nat × aarch64_reloc_op × Nat × aarch64_insn_movw_imm_type) (he : e ∈ movwKinds)
    (hs : e.2.2.2 = AARCH64_INSN_IMM_MOVKZ) (ht : ELF_R_TYPE rel.r_info = e.1) (X : Int)
    (hX : X = toS64 (toU64 ((sym.st_value : Int) + rel.r_addend -
      (if e.2.1 = RELOC_OP_PREL then (addr : Int) else 0)))) :
    ∃ r mem', up_relocateadd rel (some sym) addr mem = some (r, mem') ∧
      (load32 mem' addr >>> 5) &&& 0xFFFF = toU64 (X >>> e.2.2.1) % 2 ^ 16 ∧
      (load32 mem' addr >>> 29) &&& 3 = (load32 mem addr >>> 29) &&& 3 ∧
      (∀ i, ¬ (5 ≤ i ∧ i ≤ 20) →
        (load32 mem' addr).testBit i = (load32 mem addr).testBit i) ∧
      (∀ x, x < addr ∨ addr + 4 ≤ x → mem' x = mem x) := by
  have hX' : toS64 (do_reloc e.2.1 addr (toU64 ((sym.st_value : Int) + rel.r_addend))) = X := by
    rw [do_reloc_spec _ _ _ (movwKinds_shape e he).2, hX]
  have hne : ¬ (AARCH64_INSN_IMM_MOVKZ = AARCH64_INSN_IMM_MOVNZ) := by decide
  rw [up_relocateadd_movw rel sym addr mem e he ht, reloc_insn_movw_eq]
  simp only [hX', hs, hne, false_and, if_false]
  have hbits : ∀ i, ¬ (5 ≤ i ∧ i ≤ 20) →
      (load32 (store32 mem addr (aarch64_insn_encode_immediate AARCH64_INSN_IMM_16
        (load32 mem addr) (toU64 (X >>> e.2.2.1)))) addr).testBit i =
        (load32 mem addr).testBit i := by
    intro i hi
    rw [load32_store32, Nat.mod_eq_of_lt (encode_lt _ _ _),
      encode16_testBit _ _ _ (load32_lt mem addr), if_neg (by omega)]
  refine ⟨_, _, rfl, ?_, opcode_bits_eq _ _ (hbits 29 (by omega)) (hbits 30 (by omega)),
    hbits, ?_⟩
  · rw [load32_store32, Nat.mod_eq_of_lt (encode_lt _ _ _), encode16_field]
  · intro x hx
    simp only [store32, store16, store8]
    have h0 : ¬ x = addr := by omega
    have h1 : ¬ x = addr + 1 := by omega
    have h2 : ¬ x = addr + 2 := by omega
    have h3 : ¬ x = addr + 2 + 1 := by omega
    simp [h0, h1, h2, h3]

/-- Witness for C34: MOVW_UABS_G1 with symbol + addend = -1 on a MOVK word: the field is
0xFFFF (not inverted) and the opcode bits stay 11. -/
theorem movw_unsigned_frame_witness :
    (R_AARCH64_MOVW_UABS_G1, RELOC_OP_ABS, 16, AARCH64_INSN_IMM_MOVKZ) ∈ movwKinds ∧
    ∃ r mem', up_relocateadd (Elf_Rela.mk 0 265 (-1)) (some (Elf_Sym.mk 0 0 0 0 0 0)) 64
        (store32 (fun _ => 0) 64 0xF2A00000) = some (r, mem') ∧
      (load32 mem' 64 >>> 5) &&& 0xFFFF = 0xFFFF ∧ (load32 mem' 64 >>> 29) &&& 3 = 3 := by
  have he : (R_AARCH64_MOVW_UABS_G1, RELOC_OP_ABS, 16, AARCH64_INSN_IMM_MOVKZ) ∈ movwKinds := by
    decide
  obtain ⟨r, mem', h0, h1, h2, _, _⟩ :=
    movw_unsigned_frame (Elf_Rela.mk 0 265 (-1)) (Elf_Sym.mk 0 0 0 0 0 0) 64
      (store32 (fun _ => 0) 64 0xF2A00000)
      (R_AARCH64_MOVW_UABS_G1, RELOC_OP_ABS, 16, AARCH64_INSN_IMM_MOVKZ) he rfl (by decide) (-1)
      (by decide)
  exact ⟨he, r, mem', h0, h1.trans (by decide), h2.trans (by decide)⟩

/-- C35: for `n` in {0, 1, 2}, `up_relocateadd` with `R_AARCH64_MOVW_UABS_Gn_NC` gives the
same result (return code and memory, hence patched word) as with `R_AARCH64_MOVW_UABS_Gn` on
every input with the same addend, symbol, target and memory; and
`R_AARCH64_MOVW_UABS_G0_NC` returns `-ERANGE` whenever symbol + addend (as `uint64_t`) is at
least 0x10000. -/
theorem movw_nc_checked (rel1 rel2 : Elf_Rela) (sym : Elf_Sym) (addr : Nat) (mem : Mem)
    (ha : rel1.r_addend = rel2.r_addend)
    (ht : (ELF_R_TYPE rel1.r_info = R_AARCH64_MOVW_UABS_G0_NC ∧
        ELF_R_TYPE rel2.r_info = R_AARCH64_MOVW_UABS_G0) ∨
      (ELF_R_TYPE rel1.r_info = R_AARCH64_MOVW_UABS_G1_NC ∧
        ELF_R_TYPE rel2.r_info = R_AARCH64_MOVW_UABS_G1) ∨
      (ELF_R_TYPE rel1.r_info = R_AARCH64_MOVW_UABS_G2_NC ∧
        ELF_R_TYPE rel2.r_info = R_AARCH64_MOVW_UABS_G2)) :
    up_relocateadd rel1 (some sym) addr mem = up_relocateadd rel2 (some sym) addr mem ∧
    (ELF_R_TYPE rel1.r_info = R_AARCH64_MOVW_UABS_G0_NC →
      0x10000 ≤ toU64 ((sym.st_value : Int) + rel1.r_addend) →
      ∃ mem', up_relocateadd rel1 (some sym) addr mem = some (-ERANGE, mem')) := by
  constructor
  · rcases ht with ⟨h1, h2⟩ | ⟨h1, h2⟩ | ⟨h1, h2⟩
    · rw [up_relocateadd_movw rel1 sym addr mem
          (R_AARCH64_MOVW_UABS_G0_NC, RELOC_OP_ABS, 0, AARCH64_INSN_IMM_MOVKZ) (by decide) h1,
        up_relocateadd_movw rel2 sym addr mem
          (R_AARCH64_MOVW_UABS_G0, RELOC_OP_ABS, 0, AARCH64_INSN_IMM_MOVKZ) (by decide) h2, ha]
    · rw [up_relocateadd_movw rel1 sym addr mem
          (R_AARCH64_MOVW_UABS_G1_NC, RELOC_OP_ABS, 16, AARCH64_INSN_IMM_MOVKZ) (by decide) h1,
        up_relocateadd_movw rel2 sym addr mem
          (R_AARCH64_MOVW_UABS_G1, RELOC_OP_ABS, 16, AARCH64_INSN_IMM_MOVKZ) (by decide) h2, ha]
    · rw [up_relocateadd_movw rel1 sym addr mem
          (R_AARCH64_MOVW_UABS_G2_NC, RELOC_OP_ABS, 32, AARCH64_INSN_IMM_MOVKZ) (by decide) h1,
        up_relocateadd_movw rel2 sym addr mem
          (R_AARCH64_MOVW_UABS_G2, RELOC_OP_ABS, 32, AARCH64_INSN_IMM_MOVKZ) (by decide) h2, ha]
  · intro h1 hv
    have hne : ¬ (AARCH64_INSN_IMM_MOVKZ = AARCH64_INSN_IMM_MOVNZ) := by decide
    rw [up_relocateadd_movw rel1 sym addr mem
      (R_AARCH64_MOVW_UABS_G0_NC, RELOC_OP_ABS, 0, AARCH64_INSN_IMM_MOVKZ) (by decide) h1,
      reloc_insn_movw_eq]
    simp only [hne, false_and, if_false]
    have hd : do_reloc RELOC_OP_ABS addr (toU64 ((sym.st_value : Int) + rel1.r_addend)) =
        toU64 ((sym.st_value : Int) + rel1.r_addend) := by
      rw [do_reloc_spec _ _ _ (Or.inl rfl)]
      simp
    have hi : toU64 (toS64 (toU64 ((sym.st_value : Int) + rel1.r_addend)) >>> (0 : Nat)) =
        toU64 ((sym.st_value : Int) + rel1.r_addend) := by
      rw [Int.shiftRight_eq_div_pow]
      simp only [pow_zero, Nat.cast_one, Int.ediv_one]
      exact (toU64_toS64 _).trans (toU64_mod _)
    rw [hd, hi, if_pos (by omega)]
    exact ⟨_, rfl⟩

/-- Witness for C35: MOVW_UABS_G0_NC and MOVW_UABS_G0 with symbol + addend = 0x10000. -/
theorem movw_nc_checked_witness :
    up_relocateadd (Elf_Rela.mk 0 264 0) (some (Elf_Sym.mk 0 0 0 0 0x10000 0)) 64 (fun _ => 0) =
      up_relocateadd (Elf_Rela.mk 0 263 0) (some (Elf_Sym.mk 0 0 0 0 0x10000 0)) 64
        (fun _ => 0) ∧
    ∃ mem', up_relocateadd (Elf_Rela.mk 0 264 0) (some (Elf_Sym.mk 0 0 0 0 0x10000 0)) 64
      (fun _ => 0) = some (-ERANGE, mem') :=
  ⟨(movw_nc_checked (Elf_Rela.mk 0 264 0) (Elf_Rela.mk 0 263 0) (Elf_Sym.mk 0 0 0 0 0x10000 0)
      64 (fun _ => 0) rfl (Or.inl ⟨by decide, by decide⟩)).1,
   (movw_nc_checked (Elf_Rela.mk 0 264 0) (Elf_Rela.mk 0 263 0) (Elf_Sym.mk 0 0 0 0 0x10000 0)
      64 (fun _ => 0) rfl (Or.inl ⟨by decide, by decide⟩)).2 (by decide) (by decide)⟩

end Arm64Elf

namespace Arm64Syscall

open Arm64Elf

/-! ## Register frames in memory, status words and flags -/

theorem load8_store64_out (m : Mem) (a v x : Nat) (h : x < a ∨ a + 8 ≤ x) :
    load8 (store64 m a v) x = load8 m x := by
  simp only [load8, store64, store32, store16, store8]
  have h0 : ¬ x = a := by omega
  have h1 : ¬ x = a + 1 := by omega
  have h2 : ¬ x = a + 2 := by omega
  have h3 : ¬ x = a + 2 + 1 := by omega
  have h4 : ¬ x = a + 4 := by omega
  have h5 : ¬ x = a + 4 + 1 := by omega
  have h6 : ¬ x = a + 4 + 2 := by omega
  have h7 : ¬ x = a + 4 + 2 + 1 := by omega
  simp [h0, h1, h2, h3, h4, h5, h6, h7]

theorem load64_store64_out (m : Mem) (a v b : Nat) (h : b + 8 ≤ a ∨ a + 8 ≤ b) :
    load64 (store64 m a v) b = load64 m b := by
  simp only [load64, load32, load16]
  rw [load8_store64_out m a v b (by omega), load8_store64_out m a v (b + 1) (by omega),
    load8_store64_out m a v (b + 2) (by omega), load8_store64_out m a v (b + 2 + 1) (by omega),
    load8_store64_out m a v (b + 4) (by omega), load8_store64_out m a v (b + 4 + 1) (by omega),
    load8_store64_out m a v (b + 4 + 2) (by omega),
    load8_store64_out m a v (b + 4 + 2 + 1) (by omega)]

theorem load64_lt (m : Mem) (a : Nat) : load64 m a < 2 ^ 64 := by
  simp only [load64, load32, load16, load8]
  omega

theorem reg_lt (m : Mem) (regs i : Nat) : reg m regs i < 2 ^ 64 := load64_lt m _

theorem reg_setreg_same (m : Mem) (regs i v : Nat) :
    reg (setreg m regs i v) regs i = v % 2 ^ 64 := load64_store64 m _ v

theorem reg_setreg_ne (m : Mem) (regs i j v : Nat) (h : i ≠ j) :
    reg (setreg m regs i v) regs j = reg m regs j :=
  load64_store64_out m _ v _ (by omega)

/-- Writing a mode into the mode field of a status word: the field holds the mode, the other
bits are kept, and the result is a 64-bit value. -/
theorem spsr_mode_set (x mode : Nat) (hx : x < 2 ^ 64) (hm : mode < 16) :
    ((x &&& not64 SPSR_MODE_MASK) ||| mode) < 2 ^ 64 ∧
    ((x &&& not64 SPSR_MODE_MASK) ||| mode) &&& SPSR_MODE_MASK = mode ∧
    ((x &&& not64 SPSR_MODE_MASK) ||| mode) >>> 4 = x >>> 4 := by
  have e1 : not64 SPSR_MODE_MASK = (2 ^ 60 - 1) <<< 4 := by decide
  have e2 : SPSR_MODE_MASK = 2 ^ 4 - 1 := by decide
  have hmb : ∀ i, 4 ≤ i → mode.testBit i = false := fun i hi =>
    Nat.testBit_lt_two_pow (lt_of_lt_of_le hm (Nat.pow_le_pow_right (Nat.succ_pos 1) hi))
  have hxb : ∀ i, 64 ≤ i → x.testBit i = false := fun i hi =>
    Nat.testBit_lt_two_pow (lt_of_lt_of_le hx (Nat.pow_le_pow_right (Nat.succ_pos 1) hi))
  rw [e1, e2]
  refine ⟨?_, ?_, ?_⟩
  · apply Nat.lt_pow_two_of_testBit
    intro i hi
    simp [Nat.testBit_or, Nat.testBit_and, hxb i hi, hmb i (by omega)]
  · apply Nat.eq_of_testBit_eq
    intro i
    simp only [Nat.testBit_and, Nat.testBit_or, Nat.testBit_shiftLeft,
      Nat.testBit_two_pow_sub_one]
    by_cases h4 : i < 4
    · have a1 : ¬ i ≥ 4 := by omega
      simp [h4, a1]
    · simp [h4, hmb i (by omega)]
  · apply Nat.eq_of_testBit_eq
    intro i
    simp only [Nat.testBit_and, Nat.testBit_or, Nat.testBit_shiftLeft, Nat.testBit_shiftRight,
      Nat.testBit_two_pow_sub_one]
    have a1 : 4 + i ≥ 4 := by omega
    have a2 : 4 + i - 4 = i := by omega
    by_cases h60 : i < 60
    · simp [a1, a2, h60, hmb (4 + i) (by omega)]
    · simp [a1, a2, h60, hmb (4 + i) (by omega), hxb (4 + i) (by omega)]

theorem clearBits_testBit (x m i : Nat) :
    (clearBits x m).testBit i = (x.testBit i && !m.testBit i) := by
  unfold clearBits
  rw [Nat.testBit_xor, Nat.testBit_and]
  cases x.testBit i <;> cases m.testBit i <;> rfl

theorem clearBits_and (x m : Nat) : clearBits x m &&& m = 0 := by
  apply Nat.eq_of_testBit_eq
  intro i
  rw [Nat.testBit_and, clearBits_testBit, Nat.zero_testBit]
  cases x.testBit i <;> cases m.testBit i <;> rfl

theorem or_and_self (x m : Nat) : (x ||| m) &&& m = m := by
  apply Nat.eq_of_testBit_eq
  intro i
  rw [Nat.testBit_and, Nat.testBit_or]
  cases x.testBit i <;> cases m.testBit i <;> rfl


theorem frameAt_X0 (x0 x1 x2 : Nat) : reg (frameAt x0 x1 x2) 0x1000 REG_X0 = x0 % 2 ^ 64 := by
  unfold frameAt
  rw [reg_setreg_ne _ _ _ _ _ (by decide), reg_setreg_ne _ _ _ _ _ (by decide), reg_setreg_same]

theorem frameAt_X1 (x0 x1 x2 : Nat) : reg (frameAt x0 x1 x2) 0x1000 REG_X1 = x1 % 2 ^ 64 := by
  unfold frameAt
  rw [reg_setreg_ne _ _ _ _ _ (by decide), reg_setreg_same]

theorem frameAt_X2 (x0 x1 x2 : Nat) : reg (frameAt x0 x1 x2) 0x1000 REG_X2 = x2 % 2 ^ 64 := by
  unfold frameAt
  rw [reg_setreg_same]


/-! ## `arm64_syscall_switch` -/

theorem arm64_syscall_switch_tail_ok (cfg : Config) (regs r : Nat) (s : KState) :
    ∃ s', arm64_syscall_switch_tail cfg regs r s = Outcome.ok r s' := by
  unfold arm64_syscall_switch_tail
  split_ifs
  all_goals exact ⟨_, rfl⟩

theorem arm64_syscall_switch_restore (cfg : Config) (regs : Nat) (s : KState)
    (hregs : regs ≠ 0) (hcmd : reg s.mem regs REG_X0 = SYS_restore_context)
    (h1 : reg s.mem regs REG_X1 ≠ 0) :
    arm64_syscall_switch cfg regs s =
      arm64_syscall_switch_tail cfg regs (reg s.mem regs REG_X1)
        { s with mem := setreg s.mem regs REG_X1 0 } := by
  unfold arm64_syscall_switch
  rw [if_neg hregs]
  simp only [hcmd, if_true]
  rw [if_neg h1]

theorem arm64_syscall_switch_other (cfg : Config) (regs : Nat) (s : KState) (hregs : regs ≠ 0)
    (h1 : reg s.mem regs REG_X0 ≠ SYS_restore_context)
    (h2 : reg s.mem regs REG_X0 ≠ SYS_switch_context) :
    arm64_syscall_switch cfg regs s = Outcome.ok 0 s := by
  unfold arm64_syscall_switch
  rw [if_neg hregs]
  simp only [h1, h2, if_false]

theorem frameAt_X0_val (x0 x1 x2 : Nat) (t : tcb_s) (h : x0 < 2 ^ 64) :
    reg (stateAt (frameAt x0 x1 x2) t).mem 0x1000 REG_X0 = x0 :=
  (frameAt_X0 x0 x1 x2).trans (Nat.mod_eq_of_lt h)

theorem frameAt_X1_val (x0 x1 x2 : Nat) (t : tcb_s) (h : x1 < 2 ^ 64) :
    reg (stateAt (frameAt x0 x1 x2) t).mem 0x1000 REG_X1 = x1 :=
  (frameAt_X1 x0 x1 x2).trans (Nat.mod_eq_of_lt h)

theorem frameAt_X2_val (x0 x1 x2 : Nat) (t : tcb_s) (h : x2 < 2 ^ 64) :
    reg (stateAt (frameAt x0 x1 x2) t).mem 0x1000 REG_X2 = x2 :=
  (frameAt_X2 x0 x1 x2).trans (Nat.mod_eq_of_lt h)

/-- C14, counterexample: a frame at 0x1000 with command `SYS_switch_context`, save-area
address 0x1010 (the address of slot X2 of the frame itself) and resume-area value 0x5000,
both non-null and distinct. The store through the save-area pointer overwrites slot X2
before it is read, and the call returns 0x1000, not the resume-area value 0x5000. -/
theorem switch_context_alias :
    reg (frameAt 2 0x1010 0x5000) 0x1000 REG_X0 = SYS_switch_context ∧
    reg (frameAt 2 0x1010 0x5000) 0x1000 REG_X1 = 0x1010 ∧
    reg (frameAt 2 0x1010 0x5000) 0x1000 REG_X2 = 0x5000 ∧
    ∃ ret s', arm64_syscall_switch cfgKernel 0x1000
        (stateAt (frameAt 2 0x1010 0x5000) (tcbAt 0 0 0)) = Outcome.ok ret s' ∧
      ret ≠ reg (frameAt 2 0x1010 0x5000) 0x1000 REG_X2 := by
  have h0 := frameAt_X0 2 0x1010 0x5000
  have h1 := frameAt_X1 2 0x1010 0x5000
  have h2 := frameAt_X2 2 0x1010 0x5000
  norm_num at h0 h1 h2
  refine ⟨h0, h1, h2, 0x1000, ?_⟩
  have h3 : reg (store64 (frameAt 2 0x1010 0x5000) 0x1010 0x1000) 0x1000 REG_X2 = 0x1000 :=
    load64_store64 _ _ _
  simp [arm64_syscall_switch, arm64_syscall_switch_tail, stateAt, h0, h1, h2, h3,
    SYS_switch_context, SYS_restore_context]

/-- C14, amended: `arm64_syscall_switch` with slot 0 = `SYS_switch_context`, non-null and
distinct save-area (slot X1) and resume-area (slot X2) values, and a save-area word that
does not overlap slot X2 of the input frame: after the call the memory word at the save-area
address holds exactly the frame pointer that was passed in, and the returned pointer equals
the resume-area value. -/
theorem switch_context_saves_and_resumes (cfg : Config) (regs : Nat) (s : KState)
    (hregs : regs ≠ 0) (hlt : regs < 2 ^ 64)
    (hcmd : reg s.mem regs REG_X0 = SYS_switch_context)
    (h1 : reg s.mem regs REG_X1 ≠ 0) (h2 : reg s.mem regs REG_X2 ≠ 0)
    (_hd : reg s.mem regs REG_X1 ≠ reg s.mem regs REG_X2)
    (hsep : reg s.mem regs REG_X1 + 8 ≤ regs + 8 * REG_X2 ∨
      regs + 8 * REG_X2 + 8 ≤ reg s.mem regs REG_X1) :
    ∃ s', arm64_syscall_switch cfg regs s = Outcome.ok (reg s.mem regs REG_X2) s' ∧
      load64 s'.mem (reg s.mem regs REG_X1) = regs := by
  have h3 : reg (store64 s.mem (reg s.mem regs REG_X1) regs) regs REG_X2 =
      reg s.mem regs REG_X2 := load64_store64_out _ _ _ _ (by omega)
  have h4 : load64 (store64 s.mem (reg s.mem regs REG_X1) regs) (reg s.mem regs REG_X1) = regs :=
    (load64_store64 _ _ _).trans (Nat.mod_eq_of_lt hlt)
  unfold arm64_syscall_switch
  rw [if_neg hregs]
  simp only [hcmd, SYS_switch_context, SYS_restore_context, h1, h2, h3]
  unfold arm64_syscall_switch_tail
  simp only []
  split_ifs
  all_goals first | exact ⟨_, rfl, h4⟩ | (exfalso; simp_all)

/-- Witness for C14: save area at 0x3000, resume area 0x5000. -/
theorem switch_context_saves_and_resumes_witness :
    ∃ s', arm64_syscall_switch cfgKernel 0x1000 (stateAt (frameAt 2 0x3000 0x5000) (tcbAt 0 0 0))
        = Outcome.ok 0x5000 s' ∧ load64 s'.mem 0x3000 = 0x1000 := by
  have e0 := frameAt_X0_val 2 0x3000 0x5000 (tcbAt 0 0 0) (by decide)
  have e1 := frameAt_X1_val 2 0x3000 0x5000 (tcbAt 0 0 0) (by decide)
  have e2 := frameAt_X2_val 2 0x3000 0x5000 (tcbAt 0 0 0) (by decide)
  have h := switch_context_saves_and_resumes cfgKernel 0x1000
    (stateAt (frameAt 2 0x3000 0x5000) (tcbAt 0 0 0)) (by decide) (by decide)
    (by rw [e0]; rfl) (by rw [e1]; decide) (by rw [e2]; decide) (by rw [e1, e2]; decide)
    (by rw [e1]; decide)
  rw [e1, e2] at h
  exact h

/-- C15: `arm64_syscall_switch` with slot 0 = `SYS_restore_context` and a non-null frame
address in slot X1 returns exactly that address and leaves slot X1 of the input frame equal
to 0, every other slot of the input frame being unchanged; a null address in slot X1 takes
the assertion-failure path. -/
theorem restore_context_returns_frame (cfg : Config) (regs : Nat) (s : KState)
    (hregs : regs ≠ 0) (hcmd : reg s.mem regs REG_X0 = SYS_restore_context) :
    (reg s.mem regs REG_X1 ≠ 0 →
      ∃ s', arm64_syscall_switch cfg regs s = Outcome.ok (reg s.mem regs REG_X1) s' ∧
        reg s'.mem regs REG_X1 = 0 ∧
        ∀ i, i ≠ REG_X1 → reg s'.mem regs i = reg s.mem regs i) ∧
    (reg s.mem regs REG_X1 = 0 →
      ∃ s', arm64_syscall_switch cfg regs s = Outcome.assert_failed s') := by
  have h3 : reg (setreg s.mem regs REG_X1 0) regs REG_X1 = 0 := reg_setreg_same _ _ _ _
  have h4 : ∀ i, i ≠ REG_X1 → reg (setreg s.mem regs REG_X1 0) regs i = reg s.mem regs i :=
    fun i hi => reg_setreg_ne _ _ _ _ _ (Ne.symm hi)
  unfold arm64_syscall_switch
  rw [if_neg hregs]
  simp only [hcmd, if_true]
  constructor
  · intro h1
    rw [if_neg h1]
    unfold arm64_syscall_switch_tail
    split_ifs
    all_goals exact ⟨_, rfl, h3, h4⟩
  · intro h1
    rw [if_pos h1]
    exact ⟨_, rfl⟩

/-- Witness for C15: restore of the frame at 0x2000. -/
theorem restore_context_returns_frame_witness :
    ∃ s', arm64_syscall_switch cfgKernel 0x1000 (stateAt (frameAt 1 0x2000 0) (tcbAt 0 0 0))
        = Outcome.ok 0x2000 s' ∧ reg s'.mem 0x1000 REG_X1 = 0 := by
  have e0 := frameAt_X0_val 1 0x2000 0 (tcbAt 0 0 0) (by decide)
  have e1 := frameAt_X1_val 1 0x2000 0 (tcbAt 0 0 0) (by decide)
  have h := (restore_context_returns_frame cfgKernel 0x1000
    (stateAt (frameAt 1 0x2000 0) (tcbAt 0 0 0)) (by decide) (by rw [e0]; rfl)).1
    (by rw [e1]; decide)
  rw [e1] at h
  obtain ⟨s', h1, h2, _⟩ := h
  exact ⟨s', h1, h2⟩

/-- C16: `arm64_syscall_switch` given any command other than `SYS_restore_context` and
`SYS_switch_context` returns the null frame pointer and leaves the whole state unchanged: the
input frame, the running-task record and the critical-section state (no call is made). -/
theorem switch_bad_command (cfg : Config) (regs : Nat) (s : KState) (hregs : regs ≠ 0)
    (h1 : reg s.mem regs REG_X0 ≠ SYS_restore_context)
    (h2 : reg s.mem regs REG_X0 ≠ SYS_switch_context) :
    arm64_syscall_switch cfg regs s = Outcome.ok 0 s ∧
    ∀ s', arm64_syscall_switch cfg regs s = Outcome.ok 0 s' →
      s'.mem = s.mem ∧ s'.g_running_tasks = s.g_running_tasks ∧ s'.calls = s.calls := by
  have h := arm64_syscall_switch_other cfg regs s hregs h1 h2
  refine ⟨h, fun s' hs' => ?_⟩
  rw [h] at hs'
  injection hs' with _ e
  subst e
  exact ⟨rfl, rfl, rfl⟩

/-- Witness for C16: command 99. -/
theorem switch_bad_command_witness :
    arm64_syscall_switch cfgKernel 0x1000 (stateAt (frameAt 99 0 0) (tcbAt 0 0 0)) =
      Outcome.ok 0 (stateAt (frameAt 99 0 0) (tcbAt 0 0 0)) := by
  have e0 := frameAt_X0_val 99 0 0 (tcbAt 0 0 0) (by decide)
  exact (switch_bad_command cfgKernel 0x1000 _ (by decide) (by rw [e0]; decide)
    (by rw [e0]; decide)).1


/-- C17, counterexample: for the unrecognised command 99 the call returns the null frame
pointer, which differs from the input frame 0x1000, and none of the side effects is
performed: the running-task record is not updated and `restore_critical_section` is not
called. -/
theorem switch_bad_command_no_side_effects :
    ∃ s', arm64_syscall_switch cfgKernel 0x1000 (stateAt (frameAt 99 0 0) (tcbAt 0 0 0)) = Outcome.ok 0 s' ∧
      (0 : Nat) ≠ 0x1000 ∧
      s'.g_running_tasks (stateAt (frameAt 99 0 0) (tcbAt 0 0 0)).this_cpu ≠
        (stateAt (frameAt 99 0 0) (tcbAt 0 0 0)).this_task ∧
      ExternCall.restore_critical_section ∉ s'.calls := by
  have h0 := frameAt_X0 99 0 0
  norm_num at h0
  refine ⟨_, arm64_syscall_switch_other cfgKernel 0x1000 _ (by decide) ?_ ?_, by decide,
    by decide, by decide⟩
  · simp [stateAt, h0, SYS_restore_context]
  · simp [stateAt, h0, SYS_switch_context]

/-- C17, amended: in `arm64_syscall_switch` the context-change side effects
(address-environment switch when configured, update of `g_running_tasks[this_cpu()]` to
`this_task()`, `restore_critical_section`) are performed whenever a restore-context or
switch-context command returns a resume frame that differs from the input frame, and are not
performed when such a command returns the same frame that was passed in. -/
theorem switch_side_effects (cfg : Config) (regs : Nat) (s : KState) (ret : Nat) (s' : KState)
    (hcmd : reg s.mem regs REG_X0 = SYS_restore_context ∨
      reg s.mem regs REG_X0 = SYS_switch_context)
    (hret : arm64_syscall_switch cfg regs s = Outcome.ok ret s') :
    (ret ≠ regs →
      s'.g_running_tasks s.this_cpu = s.this_task ∧
      (∀ c, c ≠ s.this_cpu → s'.g_running_tasks c = s.g_running_tasks c) ∧
      s'.calls = s.calls ++ (if cfg.CONFIG_ARCH_ADDRENV then [ExternCall.addrenv_switch] else [])
        ++ [ExternCall.restore_critical_section]) ∧
    (ret = regs → s'.g_running_tasks = s.g_running_tasks ∧ s'.calls = s.calls) := by
  have tail : ∀ (r : Nat) (s1 : KState), s1.g_running_tasks = s.g_running_tasks →
      s1.this_cpu = s.this_cpu → s1.this_task = s.this_task → s1.calls = s.calls →
      arm64_syscall_switch_tail cfg regs r s1 = Outcome.ok ret s' →
      (ret ≠ regs →
        s'.g_running_tasks s.this_cpu = s.this_task ∧
        (∀ c, c ≠ s.this_cpu → s'.g_running_tasks c = s.g_running_tasks c) ∧
        s'.calls = s.calls ++
          (if cfg.CONFIG_ARCH_ADDRENV then [ExternCall.addrenv_switch] else [])
          ++ [ExternCall.restore_critical_section]) ∧
      (ret = regs → s'.g_running_tasks = s.g_running_tasks ∧ s'.calls = s.calls) := by
    intro r s1 e1 e2 e3 e4 h
    unfold arm64_syscall_switch_tail at h
    by_cases hr : regs = r
    · rw [if_neg (not_not.mpr hr)] at h
      injection h with h5 h6
      subst h5 h6
      exact ⟨fun hne => absurd hr.symm hne, fun _ => ⟨e1, e4⟩⟩
    · rw [if_pos hr] at h
      injection h with h5 h6
      subst h5 h6
      refine ⟨fun _ => ⟨?_, ?_, ?_⟩, fun he => absurd he.symm hr⟩
      · simp [e2, e3]
      · intro c hc
        simp [e1, e2, hc]
      · cases hA : cfg.CONFIG_ARCH_ADDRENV <;> simp [e4]
  unfold arm64_syscall_switch at hret
  by_cases hregs : regs = 0
  · rw [if_pos hregs] at hret
    exact Outcome.noConfusion hret
  · rw [if_neg hregs] at hret
    rcases hcmd with hc | hc
    · simp only [hc, if_true] at hret
      by_cases h1 : reg s.mem regs REG_X1 = 0
      · rw [if_pos h1] at hret
        exact Outcome.noConfusion hret
      · rw [if_neg h1] at hret
        refine tail _ _ ?_ ?_ ?_ ?_ hret <;> rfl
    · have hne : SYS_switch_context ≠ SYS_restore_context := by decide
      simp only [hc, if_neg hne, if_true] at hret
      by_cases h1 : ¬ (reg s.mem regs REG_X1 ≠ 0 ∧ reg s.mem regs REG_X2 ≠ 0)
      · rw [if_pos h1] at hret
        exact Outcome.noConfusion hret
      · rw [if_neg h1] at hret
        refine tail _ _ ?_ ?_ ?_ ?_ hret <;> rfl

/-- Witness for C17: a restore of another frame updates the running-task record and calls
`restore_critical_section`. -/
theorem switch_side_effects_witness :
    ∃ s', arm64_syscall_switch cfgKernel 0x1000 (stateAt (frameAt 1 0x2000 0) (tcbAt 0 0 0))
        = Outcome.ok 0x2000 s' ∧ s'.g_running_tasks 0 = 0x9000 ∧
      s'.calls = [ExternCall.restore_critical_section] := by
  have e0 := frameAt_X0_val 1 0x2000 0 (tcbAt 0 0 0) (by decide)
  have e1 := frameAt_X1_val 1 0x2000 0 (tcbAt 0 0 0) (by decide)
  obtain ⟨s', hs'⟩ := arm64_syscall_switch_tail_ok cfgKernel 0x1000
    (reg (stateAt (frameAt 1 0x2000 0) (tcbAt 0 0 0)).mem 0x1000 REG_X1)
    { stateAt (frameAt 1 0x2000 0) (tcbAt 0 0 0) with
      mem := setreg (stateAt (frameAt 1 0x2000 0) (tcbAt 0 0 0)).mem 0x1000 REG_X1 0 }
  rw [← arm64_syscall_switch_restore cfgKernel 0x1000 _ (by decide) (by rw [e0]; rfl)
    (by rw [e1]; decide), e1] at hs'
  obtain ⟨h1, _, h3⟩ := (switch_side_effects cfgKernel 0x1000 _ 0x2000 s'
    (Or.inl (by rw [e0]; rfl)) hs').1 (by decide)
  exact ⟨s', hs', h1, h3⟩

/-! ## `arm64_syscall`: service-call dispatch and return -/

/-- C18: service-call dispatch (the `default` label of `arm64_syscall`, with
`CONFIG_LIB_SYSCALL` and `CONFIG_BUILD_KERNEL`): for a command `cmd` with
`CONFIG_SYS_RESERVED ≤ cmd < SYS_maxsyscall` and nesting counter `n < CONFIG_SYS_NNEST`,
afterwards save slot `n` holds the old ELR and the old SPSR, ELR is the address of
`dispatch_syscall`, the SPSR mode field is EL1H with the other SPSR bits unchanged, slot X0 is
`cmd - CONFIG_SYS_RESERVED` (an index below `SYS_maxsyscall - CONFIG_SYS_RESERVED`),
`TCB_FLAG_SYSCALL` is set, the nesting counter is `n + 1`, the parameter slots X1..X6 are
unchanged, and the function returns 0. -/
theorem syscall_dispatch (cfg : Config) (regs : Nat) (s : KState) (hregs : regs ≠ 0)
    (hlib : cfg.CONFIG_LIB_SYSCALL = true) (hk : cfg.CONFIG_BUILD_KERNEL = true)
    (hlabel : reg s.mem regs REG_X0 ∉ [SYS_syscall_return, SYS_task_start, SYS_pthread_start,
      SYS_signal_handler, SYS_signal_handler_return])
    (hlo : cfg.CONFIG_SYS_RESERVED ≤ reg s.mem regs REG_X0)
    (hhi : reg s.mem regs REG_X0 < cfg.SYS_maxsyscall)
    (hn : s.tcb.xcp.nsyscalls < cfg.CONFIG_SYS_NNEST) :
    ∃ s', arm64_syscall cfg regs s = Outcome.ok 0 s' ∧
      (s'.tcb.xcp.syscall s.tcb.xcp.nsyscalls).sysreturn = reg s.mem regs REG_ELR ∧
      (s'.tcb.xcp.syscall s.tcb.xcp.nsyscalls).cpsr = reg s.mem regs REG_SPSR ∧
      reg s'.mem regs REG_ELR = u64 cfg.dispatch_syscall ∧
      reg s'.mem regs REG_SPSR &&& SPSR_MODE_MASK = SPSR_MODE_EL1H ∧
      reg s'.mem regs REG_SPSR >>> 4 = reg s.mem regs REG_SPSR >>> 4 ∧
      reg s'.mem regs REG_X0 = reg s.mem regs REG_X0 - cfg.CONFIG_SYS_RESERVED ∧
      reg s'.mem regs REG_X0 < cfg.SYS_maxsyscall - cfg.CONFIG_SYS_RESERVED ∧
      s'.tcb.flags &&& cfg.TCB_FLAG_SYSCALL = cfg.TCB_FLAG_SYSCALL ∧
      s'.tcb.xcp.nsyscalls = s.tcb.xcp.nsyscalls + 1 ∧
      ∀ i, 1 ≤ i → i ≤ 6 → reg s'.mem regs i = reg s.mem regs i := by
  simp only [List.mem_cons, List.mem_singleton, List.not_mem_nil, or_false, not_or] at hlabel
  obtain ⟨l1, l2, l3, l4, l5⟩ := hlabel
  obtain ⟨q1, q2, q3⟩ := spsr_mode_set (reg s.mem regs REG_SPSR) SPSR_MODE_EL1H (reg_lt _ _ _)
    (by decide)
  have hX0 : sub64 (reg s.mem regs REG_X0) cfg.CONFIG_SYS_RESERVED % 2 ^ 64 =
      reg s.mem regs REG_X0 - cfg.CONFIG_SYS_RESERVED := by
    have := reg_lt s.mem regs REG_X0
    unfold sub64
    omega
  unfold arm64_syscall
  rw [if_neg hregs]
  simp only [l1, l2, l3, l4, l5, and_false, if_false]
  unfold arm64_syscall_default
  simp only [hlib, hk, if_true]
  rw [if_neg (not_not.mpr ⟨hlo, hhi⟩), if_neg (not_not.mpr hn)]
  refine ⟨_, rfl, ?_⟩
  simp only [if_true]
  have hsp : ∀ (c : Prop) [Decidable c] (m : Mem) (a b j : Nat), j ≠ REG_SP_ELX →
      reg (if c then (if s.tcb.xcp.kstkptr ≠ 0 then setreg m regs REG_SP_ELX a
        else setreg m regs REG_SP_ELX b) else m) regs j = reg m regs j := by
    intro c _ m a b j hj
    split_ifs <;> first | rfl | exact reg_setreg_ne _ _ _ _ _ (Ne.symm hj)
  refine ⟨?_, ?_, ?_, ?_, ?_, ?_, ?_, or_and_self _ _, ?_, ?_⟩
  · simp
  · simp
  · rw [hsp _ _ _ _ _ (by decide), reg_setreg_ne _ _ _ _ _ (by decide),
      reg_setreg_ne _ _ _ _ _ (by decide), reg_setreg_same]
    rfl
  · rw [hsp _ _ _ _ _ (by decide), reg_setreg_ne _ _ _ _ _ (by decide), reg_setreg_same,
      reg_setreg_ne _ _ _ _ _ (by decide), Nat.mod_eq_of_lt q1]
    exact q2
  · rw [hsp _ _ _ _ _ (by decide), reg_setreg_ne _ _ _ _ _ (by decide), reg_setreg_same,
      reg_setreg_ne _ _ _ _ _ (by decide), Nat.mod_eq_of_lt q1]
    exact q3
  · rw [hsp _ _ _ _ _ (by decide), reg_setreg_same, reg_setreg_ne _ _ _ _ _ (by decide),
      reg_setreg_ne _ _ _ _ _ (by decide)]
    exact hX0
  · rw [hsp _ _ _ _ _ (by decide), reg_setreg_same, reg_setreg_ne _ _ _ _ _ (by decide),
      reg_setreg_ne _ _ _ _ _ (by decide), hX0]
    omega
  · trivial
  · intro i h1 h6
    have e1 : REG_SP_ELX = 31 := rfl
    have e2 : REG_X0 = 0 := rfl
    have e3 : REG_SPSR = 33 := rfl
    have e4 : REG_ELR = 32 := rfl
    rw [hsp _ _ _ _ _ (by omega), reg_setreg_ne _ _ _ _ _ (by omega),
      reg_setreg_ne _ _ _ _ _ (by omega), reg_setreg_ne _ _ _ _ _ (by omega)]

/-- Witness for C18: command 10 at nesting level 0. -/
theorem syscall_dispatch_witness :
    ∃ s', arm64_syscall cfgKernel 0x1000 (stateAt (frameAt 10 0 0) (tcbAt 0 0 0)) =
        Outcome.ok 0 s' ∧ reg s'.mem 0x1000 REG_ELR = 0x4000 ∧
      reg s'.mem 0x1000 REG_X0 = 2 ∧ s'.tcb.xcp.nsyscalls = 1 := by
  have e0 := frameAt_X0_val 10 0 0 (tcbAt 0 0 0) (by decide)
  obtain ⟨s', h0, _, _, h3, _, _, h6, _, _, h9, _⟩ := syscall_dispatch cfgKernel 0x1000
    (stateAt (frameAt 10 0 0) (tcbAt 0 0 0)) (by decide) rfl rfl (by rw [e0]; decide)
    (by rw [e0]; decide) (by rw [e0]; decide) (by decide)
  rw [e0] at h6
  exact ⟨s', h0, h3, h6, h9⟩

/-- C19: service-call return (`SYS_syscall_return` in `arm64_syscall`) with nesting counter
`n ≥ 1`: afterwards ELR (and SPSR in kernel builds) equal the values held in save slot
`n - 1`, slot X0 equals the value that was in slot X2 on entry, the nesting counter is
`n - 1`, and `TCB_FLAG_SYSCALL` is clear in the task flags with all other flag bits
unchanged. -/
theorem syscall_return_restores (cfg : Config) (regs : Nat) (s : KState) (hregs : regs ≠ 0)
    (hlib : cfg.CONFIG_LIB_SYSCALL = true)
    (hcmd : reg s.mem regs REG_X0 = SYS_syscall_return)
    (hn : 1 ≤ s.tcb.xcp.nsyscalls) :
    ∃ s', arm64_syscall cfg regs s = Outcome.ok 0 s' ∧
      reg s'.mem regs REG_ELR = u64 (s.tcb.xcp.syscall (s.tcb.xcp.nsyscalls - 1)).sysreturn ∧
      (cfg.CONFIG_BUILD_KERNEL = true →
        reg s'.mem regs REG_SPSR = u64 (s.tcb.xcp.syscall (s.tcb.xcp.nsyscalls - 1)).cpsr) ∧
      reg s'.mem regs REG_X0 = reg s.mem regs REG_X2 ∧
      s'.tcb.xcp.nsyscalls = s.tcb.xcp.nsyscalls - 1 ∧
      s'.tcb.flags &&& cfg.TCB_FLAG_SYSCALL = 0 ∧
      (∀ i, cfg.TCB_FLAG_SYSCALL.testBit i = false →
        s'.tcb.flags.testBit i = s.tcb.flags.testBit i) := by
  have hidx : ((s.tcb.xcp.nsyscalls : Int) - 1).toNat = s.tcb.xcp.nsyscalls - 1 := by omega
  have hge : ((s.tcb.xcp.nsyscalls : Int) - 1) ≥ 0 := by omega
  unfold arm64_syscall
  rw [if_neg hregs]
  simp only [hlib, hcmd, and_self, if_true]
  unfold arm64_syscall_return
  simp only [hidx]
  rw [if_neg (not_not.mpr hge)]
  refine ⟨_, rfl, ?_⟩
  have hsp : ∀ (c : Prop) [Decidable c] (m : Mem) (a j : Nat), j ≠ REG_SP_ELX →
      reg (if c then setreg m regs REG_SP_ELX a else m) regs j = reg m regs j := by
    intro c _ m a j hj
    split_ifs <;> first | rfl | exact reg_setreg_ne _ _ _ _ _ (Ne.symm hj)
  have hk2 : ∀ (m : Mem) (a j : Nat), j ≠ REG_SPSR →
      reg (if cfg.CONFIG_BUILD_KERNEL = true then setreg m regs REG_SPSR a else m) regs j =
        reg m regs j := by
    intro m a j hj
    split_ifs <;> first | rfl | exact reg_setreg_ne _ _ _ _ _ (Ne.symm hj)
  refine ⟨?_, ?_, ?_, rfl, clearBits_and _ _, ?_⟩
  · rw [hsp _ _ _ _ (by decide), reg_setreg_ne _ _ _ _ _ (by decide), hk2 _ _ _ (by decide),
      reg_setreg_same]
    rfl
  · intro hk
    rw [hsp _ _ _ _ (by decide), reg_setreg_ne _ _ _ _ _ (by decide)]
    simp only [hk, if_true]
    rw [reg_setreg_same]
    rfl
  · rw [hsp _ _ _ _ (by decide), reg_setreg_same, hk2 _ _ _ (by decide),
      reg_setreg_ne _ _ _ _ _ (by decide)]
    exact Nat.mod_eq_of_lt (reg_lt _ _ _)
  · intro i hi
    show (clearBits s.tcb.flags cfg.TCB_FLAG_SYSCALL).testBit i = s.tcb.flags.testBit i
    rw [clearBits_testBit, hi]
    simp

/-- Witness for C19: return from nesting level 1. -/
theorem syscall_return_restores_witness :
    ∃ s', arm64_syscall cfgKernel 0x1000 (stateAt (frameAt 3 0 0x77) (tcbAt 1 0x7000 5)) =
        Outcome.ok 0 s' ∧ reg s'.mem 0x1000 REG_ELR = 0x7000 ∧
      reg s'.mem 0x1000 REG_X0 = 0x77 ∧ s'.tcb.xcp.nsyscalls = 0 := by
  have e0 := frameAt_X0_val 3 0 0x77 (tcbAt 1 0x7000 5) (by decide)
  have e2 := frameAt_X2_val 3 0 0x77 (tcbAt 1 0x7000 5) (by decide)
  obtain ⟨s', h0, h1, _, h3, h4, _, _⟩ := syscall_return_restores cfgKernel 0x1000
    (stateAt (frameAt 3 0 0x77) (tcbAt 1 0x7000 5)) (by decide) rfl (by rw [e0]; rfl)
    (by decide)
  rw [e2] at h3
  exact ⟨s', h0, h1, h3, h4⟩

/-- C20: `arm64_syscall` given `SYS_syscall_return` while the nesting counter is 0 takes the
fatal-assertion path: the assertion fails in the entry state, so no save slot has been read
and neither the frame nor the task control block has been modified. -/
theorem syscall_return_without_call (cfg : Config) (regs : Nat) (s : KState) (hregs : regs ≠ 0)
    (hlib : cfg.CONFIG_LIB_SYSCALL = true)
    (hcmd : reg s.mem regs REG_X0 = SYS_syscall_return)
    (hn : s.tcb.xcp.nsyscalls = 0) :
    arm64_syscall cfg regs s = Outcome.assert_failed s := by
  unfold arm64_syscall
  rw [if_neg hregs]
  simp only [hlib, hcmd, and_self, if_true]
  unfold arm64_syscall_return
  simp [hn]

/-- Witness for C20: return at nesting level 0. -/
theorem syscall_return_without_call_witness :
    arm64_syscall cfgKernel 0x1000 (stateAt (frameAt 3 0 0) (tcbAt 0 0 0)) =
      Outcome.assert_failed (stateAt (frameAt 3 0 0) (tcbAt 0 0 0)) := by
  have e0 := frameAt_X0_val 3 0 0 (tcbAt 0 0 0) (by decide)
  exact syscall_return_without_call cfgKernel 0x1000 _ (by decide) rfl (by rw [e0]; rfl) rfl

/-! ## `arm64_syscall`: start of tasks and threads -/

/-- The statements shared by `SYS_task_start` and `SYS_pthread_start`: the frame after them. -/
theorem arm64_syscall_start_spec (regs : Nat) (s : KState) :
    ∃ s', arm64_syscall_start regs s = Outcome.ok 0 s' ∧ s'.tcb = s.tcb ∧
      reg s'.mem regs REG_ELR = reg s.mem regs REG_X1 ∧
      reg s'.mem regs REG_X0 = reg s.mem regs REG_X2 ∧
      reg s'.mem regs REG_X1 = reg s.mem regs REG_X3 ∧
      reg s'.mem regs REG_SPSR &&& SPSR_MODE_MASK = SPSR_MODE_EL0T ∧
      reg s'.mem regs REG_SPSR >>> 4 = reg s.mem regs REG_SPSR >>> 4 ∧
      ∀ i, i ≠ REG_X0 → i ≠ REG_X1 → i ≠ REG_ELR → i ≠ REG_SPSR →
        reg s'.mem regs i = reg s.mem regs i := by
  obtain ⟨q1, q2, q3⟩ := spsr_mode_set (reg s.mem regs REG_SPSR) SPSR_MODE_EL0T (reg_lt _ _ _)
    (by decide)
  refine ⟨_, rfl, rfl, ?_, ?_, ?_, ?_, ?_, ?_⟩
  · show reg (setreg _ _ _ _) _ _ = _
    rw [reg_setreg_ne _ _ _ _ _ (by decide), reg_setreg_ne _ _ _ _ _ (by decide),
      reg_setreg_ne _ _ _ _ _ (by decide), reg_setreg_same]
    exact Nat.mod_eq_of_lt (reg_lt _ _ _)
  · show reg (setreg _ _ _ _) _ _ = _
    rw [reg_setreg_ne _ _ _ _ _ (by decide), reg_setreg_ne _ _ _ _ _ (by decide),
      reg_setreg_same, reg_setreg_ne _ _ _ _ _ (by decide)]
    exact Nat.mod_eq_of_lt (reg_lt _ _ _)
  · show reg (setreg _ _ _ _) _ _ = _
    rw [reg_setreg_ne _ _ _ _ _ (by decide), reg_setreg_same,
      reg_setreg_ne _ _ _ _ _ (by decide), reg_setreg_ne _ _ _ _ _ (by decide)]
    exact Nat.mod_eq_of_lt (reg_lt _ _ _)
  · show reg (setreg _ _ _ _) _ _ &&& _ = _
    rw [reg_setreg_same, reg_setreg_ne _ _ _ _ _ (by decide),
      reg_setreg_ne _ _ _ _ _ (by decide), reg_setreg_ne _ _ _ _ _ (by decide),
      Nat.mod_eq_of_lt q1]
    exact q2
  · show reg (setreg _ _ _ _) _ _ >>> 4 = _
    rw [reg_setreg_same, reg_setreg_ne _ _ _ _ _ (by decide),
      reg_setreg_ne _ _ _ _ _ (by decide), reg_setreg_ne _ _ _ _ _ (by decide),
      Nat.mod_eq_of_lt q1]
    exact q3
  · intro i h0 h1 h2 h3
    show reg (setreg _ _ _ _) _ _ = _
    rw [reg_setreg_ne _ _ _ _ _ (Ne.symm h3), reg_setreg_ne _ _ _ _ _ (Ne.symm h1),
      reg_setreg_ne _ _ _ _ _ (Ne.symm h0), reg_setreg_ne _ _ _ _ _ (Ne.symm h2)]

/-- C22: for `SYS_task_start` in a kernel build, `arm64_syscall` returns 0 and rewrites the
frame so that ELR is the old X1 (the entry address), X0 the old X2, X1 the old X3, and the
SPSR mode field is EL0T with all other SPSR bits unchanged; every other frame slot and the
task control block are unchanged. -/
theorem task_start_frame (cfg : Config) (regs : Nat) (s : KState) (hregs : regs ≠ 0)
    (hk : cfg.CONFIG_BUILD_KERNEL = true) (hcmd : reg s.mem regs REG_X0 = SYS_task_start) :
    ∃ s', arm64_syscall cfg regs s = Outcome.ok 0 s' ∧ s'.tcb = s.tcb ∧
      reg s'.mem regs REG_ELR = reg s.mem regs REG_X1 ∧
      reg s'.mem regs REG_X0 = reg s.mem regs REG_X2 ∧
      reg s'.mem regs REG_X1 = reg s.mem regs REG_X3 ∧
      reg s'.mem regs REG_SPSR &&& SPSR_MODE_MASK = SPSR_MODE_EL0T ∧
      reg s'.mem regs REG_SPSR >>> 4 = reg s.mem regs REG_SPSR >>> 4 ∧
      ∀ i, i ≠ REG_X0 → i ≠ REG_X1 → i ≠ REG_ELR → i ≠ REG_SPSR →
        reg s'.mem regs i = reg s.mem regs i := by
  have h : arm64_syscall cfg regs s = arm64_syscall_start regs s := by
    unfold arm64_syscall
    rw [if_neg hregs]
    simp [hk, hcmd, SYS_task_start, SYS_syscall_return]
  rw [h]
  exact arm64_syscall_start_spec regs s

/-- Witness for C22: a frame with entry address 0x5000, `argc = 2` and `argv = 0x6000`. -/
theorem task_start_frame_witness :
    ∃ s', arm64_syscall cfgKernel 0x1000
        (stateAt (setreg (frameAt 4 0x5000 2) 0x1000 REG_X3 0x6000) (tcbAt 0 0 0)) =
        Outcome.ok 0 s' ∧ reg s'.mem 0x1000 REG_ELR = 0x5000 ∧ reg s'.mem 0x1000 REG_X0 = 2 ∧
      reg s'.mem 0x1000 REG_X1 = 0x6000 ∧ reg s'.mem 0x1000 REG_SPSR &&& SPSR_MODE_MASK = 0 := by
  obtain ⟨s', h0, _, h2, h3, h4, h5, _⟩ := task_start_frame cfgKernel 0x1000
    (stateAt (setreg (frameAt 4 0x5000 2) 0x1000 REG_X3 0x6000) (tcbAt 0 0 0)) (by decide) rfl
    (by decide)
  exact ⟨s', h0, h2.trans (by decide), h3.trans (by decide), h4.trans (by decide), h5⟩

/-- C29: evaluation of the code where the claim fails. On a frame with X0 =
`SYS_pthread_start`, X1 = 0x5000 (`entrypt`), X2 = 0x77 (`arg`) and X3 = 0x99, `arm64_syscall`
leaves X0 = 0x77 (`arg`, not `entrypt`), X1 = 0x99 (the old X3, not `arg`) and ELR = 0x5000
(`entrypt` itself, not a start-up function): the case runs the statements of
`SYS_task_start`, unlike the comment above them. -/
theorem pthread_start_frame :
    ∃ s', arm64_syscall cfgKernel 0x1000
        (stateAt (setreg (frameAt SYS_pthread_start 0x5000 0x77) 0x1000 REG_X3 0x99)
          (tcbAt 0 0 0)) = Outcome.ok 0 s' ∧
      reg s'.mem 0x1000 REG_X0 = 0x77 ∧ reg s'.mem 0x1000 REG_X1 = 0x99 ∧
      reg s'.mem 0x1000 REG_ELR = 0x5000 ∧
      reg s'.mem 0x1000 REG_SPSR &&& SPSR_MODE_MASK = SPSR_MODE_EL0T :=
  ⟨_, rfl, by decide, by decide, by decide, by decide⟩

/-! ## `arm64_syscall`: the assertions of the dispatch, signal handlers -/

/-- A command that is none of the case labels reaches the `default` label. -/
theorem arm64_syscall_to_default (cfg : Config) (regs : Nat) (s : KState) (hregs : regs ≠ 0)
    (hlabel : reg s.mem regs REG_X0 ∉ [SYS_syscall_return, SYS_task_start, SYS_pthread_start,
      SYS_signal_handler, SYS_signal_handler_return]) :
    arm64_syscall cfg regs s = arm64_syscall_default cfg regs (reg s.mem regs REG_X0) s := by
  simp only [List.mem_cons, List.mem_singleton, List.not_mem_nil, or_false, not_or] at hlabel
  obtain ⟨l1, l2, l3, l4, l5⟩ := hlabel
  unfold arm64_syscall
  rw [if_neg hregs]
  simp only [l1, l2, l3, l4, l5, and_false, if_false]

theorem arm64_syscall_return_slots (cfg : Config) (regs : Nat) (s : KState) (r : Int)
    (s' : KState) (h : arm64_syscall_return cfg regs s = Outcome.ok r s') :
    s'.tcb.xcp.syscall = s.tcb.xcp.syscall := by
  unfold arm64_syscall_return at h
  dsimp only at h
  split_ifs at h <;> (injection h with h1 h2; subst h2; rfl)

theorem arm64_syscall_start_slots (regs : Nat) (s : KState) (r : Int)
    (s' : KState) (h : arm64_syscall_start regs s = Outcome.ok r s') :
    s'.tcb.xcp.syscall = s.tcb.xcp.syscall := by
  unfold arm64_syscall_start at h
  injection h with h1 h2
  subst h2
  rfl

theorem arm64_syscall_signal_handler_slots (cfg : Config) (regs : Nat) (s : KState) (r : Int)
    (s' : KState) (h : arm64_syscall_signal_handler cfg regs s = Outcome.ok r s') :
    s'.tcb.xcp.syscall = s.tcb.xcp.syscall := by
  unfold arm64_syscall_signal_handler at h
  dsimp only at h
  split_ifs at h <;> (injection h with h1 h2; subst h2; rfl)

theorem arm64_syscall_signal_handler_return_slots (cfg : Config) (regs : Nat) (s : KState)
    (r : Int) (s' : KState)
    (h : arm64_syscall_signal_handler_return cfg regs s = Outcome.ok r s') :
    s'.tcb.xcp.syscall = s.tcb.xcp.syscall := by
  unfold arm64_syscall_signal_handler_return at h
  dsimp only at h
  split_ifs at h <;> (injection h with h1 h2; subst h2; rfl)

theorem arm64_syscall_default_slots (cfg : Config) (regs cmd : Nat) (s : KState) (r : Int)
    (s' : KState) (h : arm64_syscall_default cfg regs cmd s = Outcome.ok r s') (i : Nat)
    (hi : cfg.CONFIG_SYS_NNEST ≤ i) : s'.tcb.xcp.syscall i = s.tcb.xcp.syscall i := by
  unfold arm64_syscall_default at h
  by_cases hlib : cfg.CONFIG_LIB_SYSCALL = true
  · rw [if_pos hlib] at h
    by_cases h1 : ¬ (cmd ≥ cfg.CONFIG_SYS_RESERVED ∧ cmd < cfg.SYS_maxsyscall)
    · rw [if_pos h1] at h
      exact Outcome.noConfusion h
    · rw [if_neg h1] at h
      by_cases h2 : ¬ (s.tcb.xcp.nsyscalls < cfg.CONFIG_SYS_NNEST)
      · rw [if_pos h2] at h
        exact Outcome.noConfusion h
      · rw [if_neg h2] at h
        injection h with h3 h4
        subst h4
        show (if i = s.tcb.xcp.nsyscalls then _ else _) = _
        rw [if_neg (by omega)]
  · rw [if_neg hlib] at h
    injection h with h3 h4
    subst h4
    rfl

/-- No case of `arm64_syscall` writes a save slot at an index that is not below
`CONFIG_SYS_NNEST`. -/
theorem arm64_syscall_slots (cfg : Config) (regs : Nat) (s : KState) (r : Int) (s' : KState)
    (h : arm64_syscall cfg regs s = Outcome.ok r s') (i : Nat) (hi : cfg.CONFIG_SYS_NNEST ≤ i) :
    s'.tcb.xcp.syscall i = s.tcb.xcp.syscall i := by
  unfold arm64_syscall at h
  dsimp only at h
  split_ifs at h
  · rw [arm64_syscall_return_slots cfg regs s r s' h]
  · rw [arm64_syscall_start_slots regs s r s' h]
  · rw [arm64_syscall_start_slots regs s r s' h]
  · rw [arm64_syscall_signal_handler_slots cfg regs s r s' h]
  · rw [arm64_syscall_signal_handler_return_slots cfg regs s r s' h]
  · exact arm64_syscall_default_slots cfg regs _ s r s' h i hi

/-- C21: in the `default` (service-call dispatch) branch of `arm64_syscall`, a command
outside `[CONFIG_SYS_RESERVED, SYS_maxsyscall)` or a nesting counter that has reached
`CONFIG_SYS_NNEST` takes the fatal-assertion path in the entry state, before any save slot is
written; and whenever `arm64_syscall` returns, every save slot at an index
`≥ CONFIG_SYS_NNEST` is as before the call. -/
theorem dispatch_asserts_before_save (cfg : Config) (regs : Nat) (s : KState)
    (hregs : regs ≠ 0) (hlib : cfg.CONFIG_LIB_SYSCALL = true)
    (hlabel : reg s.mem regs REG_X0 ∉ [SYS_syscall_return, SYS_task_start, SYS_pthread_start,
      SYS_signal_handler, SYS_signal_handler_return]) :
    ((reg s.mem regs REG_X0 < cfg.CONFIG_SYS_RESERVED ∨
        cfg.SYS_maxsyscall ≤ reg s.mem regs REG_X0 ∨
        cfg.CONFIG_SYS_NNEST ≤ s.tcb.xcp.nsyscalls) →
      arm64_syscall cfg regs s = Outcome.assert_failed s) ∧
    ∀ r s', arm64_syscall cfg regs s = Outcome.ok r s' →
      ∀ i, cfg.CONFIG_SYS_NNEST ≤ i → s'.tcb.xcp.syscall i = s.tcb.xcp.syscall i := by
  refine ⟨fun h => ?_, fun r s' h i hi => arm64_syscall_slots cfg regs s r s' h i hi⟩
  rw [arm64_syscall_to_default cfg regs s hregs hlabel]
  unfold arm64_syscall_default
  simp only [hlib, if_true]
  by_cases hr : reg s.mem regs REG_X0 ≥ cfg.CONFIG_SYS_RESERVED ∧
      reg s.mem regs REG_X0 < cfg.SYS_maxsyscall
  · rw [if_neg (not_not.mpr hr), if_pos (by omega)]
  · rw [if_pos hr]

/-- Witness for C21: command 10 at nesting level 2 = `CONFIG_SYS_NNEST`, and command 100 =
`SYS_maxsyscall` at nesting level 0. -/
theorem dispatch_asserts_before_save_witness :
    arm64_syscall cfgKernel 0x1000 (stateAt (frameAt 10 0 0) (tcbAt 2 0 0)) =
      Outcome.assert_failed (stateAt (frameAt 10 0 0) (tcbAt 2 0 0)) ∧
    arm64_syscall cfgKernel 0x1000 (stateAt (frameAt 100 0 0) (tcbAt 0 0 0)) =
      Outcome.assert_failed (stateAt (frameAt 100 0 0) (tcbAt 0 0 0)) :=
  ⟨(dispatch_asserts_before_save cfgKernel 0x1000 (stateAt (frameAt 10 0 0) (tcbAt 2 0 0))
      (by decide) rfl (by decide)).1 (by decide),
   (dispatch_asserts_before_save cfgKernel 0x1000 (stateAt (frameAt 100 0 0) (tcbAt 0 0 0))
      (by decide) rfl (by decide)).1 (by decide)⟩

/-- C23: for `SYS_signal_handler` in a kernel build with no kernel stack allocated: if the
task's `sigreturn` is 0, `arm64_syscall` returns 0, stores the old ELR in `sigreturn`, sets ELR
to the address of the user signal trampoline and the SPSR mode field to EL0T (the other SPSR
bits unchanged), and sets X0, X1, X2, X3 to the old X1, X2, X3, X4; if `sigreturn` is
non-zero it takes the assertion-failure path in the entry state. -/
theorem signal_handler_entry (cfg : Config) (regs : Nat) (s : KState) (hregs : regs ≠ 0)
    (hk : cfg.CONFIG_BUILD_KERNEL = true) (hcmd : reg s.mem regs REG_X0 = SYS_signal_handler)
    (hks : cfg.CONFIG_ARCH_KERNEL_STACK = false ∨ s.tcb.xcp.kstack = 0) :
    (s.tcb.xcp.sigreturn = 0 →
      ∃ s', arm64_syscall cfg regs s = Outcome.ok 0 s' ∧
        s'.tcb.xcp.sigreturn = reg s.mem regs REG_ELR ∧
        reg s'.mem regs REG_ELR = u64 cfg.ar_sigtramp ∧
        reg s'.mem regs REG_SPSR &&& SPSR_MODE_MASK = SPSR_MODE_EL0T ∧
        reg s'.mem regs REG_SPSR >>> 4 = reg s.mem regs REG_SPSR >>> 4 ∧
        reg s'.mem regs REG_X0 = reg s.mem regs REG_X1 ∧
        reg s'.mem regs REG_X1 = reg s.mem regs REG_X2 ∧
        reg s'.mem regs REG_X2 = reg s.mem regs REG_X3 ∧
        reg s'.mem regs REG_X3 = reg s.mem regs REG_X4) ∧
    (s.tcb.xcp.sigreturn ≠ 0 → arm64_syscall cfg regs s = Outcome.assert_failed s) := by
  have h : arm64_syscall cfg regs s = arm64_syscall_signal_handler cfg regs s := by
    unfold arm64_syscall
    rw [if_neg hregs]
    simp [hk, hcmd, SYS_task_start, SYS_syscall_return, SYS_signal_handler, SYS_pthread_start]
  have hks' : ¬ (cfg.CONFIG_ARCH_KERNEL_STACK = true ∧ s.tcb.xcp.kstack ≠ 0) := by
    rintro ⟨a, b⟩
    rcases hks with c | c
    · rw [c] at a
      exact Bool.noConfusion a
    · exact b c
  obtain ⟨q1, q2, q3⟩ := spsr_mode_set (reg s.mem regs REG_SPSR) SPSR_MODE_EL0T (reg_lt _ _ _)
    (by decide)
  rw [h]
  unfold arm64_syscall_signal_handler
  refine ⟨fun h0 => ?_, fun h0 => ?_⟩
  · rw [if_neg (not_not.mpr h0)]
    simp only
    rw [if_neg hks']
    refine ⟨_, rfl, rfl, ?_, ?_, ?_, ?_, ?_, ?_, ?_⟩
    · show reg (setreg _ _ _ _) _ _ = _
      rw [reg_setreg_ne _ _ _ _ _ (by decide), reg_setreg_ne _ _ _ _ _ (by decide),
        reg_setreg_ne _ _ _ _ _ (by decide), reg_setreg_ne _ _ _ _ _ (by decide),
        reg_setreg_ne _ _ _ _ _ (by decide), reg_setreg_same]
      rfl
    · show reg (setreg _ _ _ _) _ _ &&& _ = _
      rw [reg_setreg_ne _ _ _ _ _ (by decide), reg_setreg_ne _ _ _ _ _ (by decide),
        reg_setreg_ne _ _ _ _ _ (by decide), reg_setreg_ne _ _ _ _ _ (by decide),
        reg_setreg_same, reg_setreg_ne _ _ _ _ _ (by decide), Nat.mod_eq_of_lt q1]
      exact q2
    · show reg (setreg _ _ _ _) _ _ >>> 4 = _
      rw [reg_setreg_ne _ _ _ _ _ (by decide), reg_setreg_ne _ _ _ _ _ (by decide),
        reg_setreg_ne _ _ _ _ _ (by decide), reg_setreg_ne _ _ _ _ _ (by decide),
        reg_setreg_same, reg_setreg_ne _ _ _ _ _ (by decide), Nat.mod_eq_of_lt q1]
      exact q3
    · show reg (setreg _ _ _ _) _ _ = _
      rw [reg_setreg_ne _ _ _ _ _ (by decide), reg_setreg_ne _ _ _ _ _ (by decide),
        reg_setreg_ne _ _ _ _ _ (by decide), reg_setreg_same,
        reg_setreg_ne _ _ _ _ _ (by decide), reg_setreg_ne _ _ _ _ _ (by decide)]
      exact Nat.mod_eq_of_lt (reg_lt _ _ _)
    · show reg (setreg _ _ _ _) _ _ = _
      rw [reg_setreg_ne _ _ _ _ _ (by decide), reg_setreg_ne _ _ _ _ _ (by decide),
        reg_setreg_same, reg_setreg_ne _ _ _ _ _ (by decide),
        reg_setreg_ne _ _ _ _ _ (by decide), reg_setreg_ne _ _ _ _ _ (by decide)]
      exact Nat.mod_eq_of_lt (reg_lt _ _ _)
    · show reg (setreg _ _ _ _) _ _ = _
      rw [reg_setreg_ne _ _ _ _ _ (by decide), reg_setreg_same,
        reg_setreg_ne _ _ _ _ _ (by decide), reg_setreg_ne _ _ _ _ _ (by decide),
        reg_setreg_ne _ _ _ _ _ (by decide), reg_setreg_ne _ _ _ _ _ (by decide)]
      exact Nat.mod_eq_of_lt (reg_lt _ _ _)
    · show reg (setreg _ _ _ _) _ _ = _
      rw [reg_setreg_same, reg_setreg_ne _ _ _ _ _ (by decide),
        reg_setreg_ne _ _ _ _ _ (by decide), reg_setreg_ne _ _ _ _ _ (by decide),
        reg_setreg_ne _ _ _ _ _ (by decide), reg_setreg_ne _ _ _ _ _ (by decide)]
      exact Nat.mod_eq_of_lt (reg_lt _ _ _)
  · rw [if_pos h0]

/-- Witness for C23: a frame with handler 0xA1, signal 0xA2, info 0xA3 and resume address
0x7000. -/
theorem signal_handler_entry_witness :
    ∃ s', arm64_syscall cfgKernel 0x1000
        (stateAt (setreg (setreg (frameAt 6 0xA1 0xA2) 0x1000 REG_X3 0xA3) 0x1000 REG_ELR 0x7000)
          (tcbAt 0 0 0)) = Outcome.ok 0 s' ∧
      s'.tcb.xcp.sigreturn = 0x7000 ∧ reg s'.mem 0x1000 REG_ELR = 0x8000 ∧
      reg s'.mem 0x1000 REG_X0 = 0xA1 ∧ reg s'.mem 0x1000 REG_X1 = 0xA2 ∧
      reg s'.mem 0x1000 REG_X2 = 0xA3 := by
  obtain ⟨s', h0, h1, h2, _, _, h5, h6, h7, _⟩ := (signal_handler_entry cfgKernel 0x1000
    (stateAt (setreg (setreg (frameAt 6 0xA1 0xA2) 0x1000 REG_X3 0xA3) 0x1000 REG_ELR 0x7000)
      (tcbAt 0 0 0)) (by decide) rfl (by decide) (Or.inl rfl)).1 rfl
  exact ⟨s', h0, h1.trans (by decide), h2.trans (by decide), h5.trans (by decide),
    h6.trans (by decide), h7.trans (by decide)⟩

/-! ## `arm64_syscall`: kernel stacks -/

theorem reg_ite_setreg (c : Prop) [Decidable c] (m : Mem) (regs i j a : Nat) (h : i ≠ j) :
    reg (if c then setreg m regs i a else m) regs j = reg m regs j := by
  split_ifs
  · exact reg_setreg_ne _ _ _ _ _ h
  · rfl

/-- The stack switch of the service-call dispatch. -/
theorem arm64_syscall_default_stack (cfg : Config) (regs cmd : Nat) (s : KState)
    (hlib : cfg.CONFIG_LIB_SYSCALL = true)
    (hlo : cfg.CONFIG_SYS_RESERVED ≤ cmd) (hhi : cmd < cfg.SYS_maxsyscall)
    (hn : s.tcb.xcp.nsyscalls < cfg.CONFIG_SYS_NNEST) :
    ∃ s', arm64_syscall_default cfg regs cmd s = Outcome.ok 0 s' ∧
      s'.tcb.xcp.nsyscalls = s.tcb.xcp.nsyscalls + 1 ∧
      ((cfg.CONFIG_ARCH_KERNEL_STACK = true ∧ s.tcb.xcp.nsyscalls = 0 ∧ s.tcb.xcp.kstack ≠ 0) →
        s'.tcb.xcp.ustkptr = reg s.mem regs REG_SP_ELX ∧
        reg s'.mem regs REG_SP_ELX = if s.tcb.xcp.kstkptr ≠ 0 then u64 s.tcb.xcp.kstkptr
          else u64 (s.tcb.xcp.kstack + cfg.ARCH_KERNEL_STACKSIZE)) ∧
      (¬ (cfg.CONFIG_ARCH_KERNEL_STACK = true ∧ s.tcb.xcp.nsyscalls = 0 ∧ s.tcb.xcp.kstack ≠ 0) →
        s'.tcb.xcp.ustkptr = s.tcb.xcp.ustkptr ∧
        reg s'.mem regs REG_SP_ELX = reg s.mem regs REG_SP_ELX) := by
  unfold arm64_syscall_default
  simp only [hlib, if_true]
  rw [if_neg (not_not.mpr ⟨hlo, hhi⟩), if_neg (not_not.mpr hn)]
  have hsp : ∀ a, reg (setreg (if cfg.CONFIG_BUILD_KERNEL = true then
        setreg (setreg s.mem regs REG_ELR cfg.dispatch_syscall) regs REG_SPSR a
        else setreg s.mem regs REG_ELR cfg.dispatch_syscall) regs REG_X0
        (sub64 (reg (if cfg.CONFIG_BUILD_KERNEL = true then
          setreg (setreg s.mem regs REG_ELR cfg.dispatch_syscall) regs REG_SPSR a
          else setreg s.mem regs REG_ELR cfg.dispatch_syscall) regs REG_X0)
          cfg.CONFIG_SYS_RESERVED)) regs REG_SP_ELX = reg s.mem regs REG_SP_ELX := by
    intro a
    rw [reg_setreg_ne _ _ _ _ _ (by decide), reg_ite_setreg _ _ _ _ _ _ (by decide),
      reg_setreg_ne _ _ _ _ _ (by decide)]
  refine ⟨_, rfl, rfl, fun h => ?_, fun h => ?_⟩
  · dsimp only
    rw [if_pos h, if_pos h]
    refine ⟨hsp _, ?_⟩
    by_cases hk : s.tcb.xcp.kstkptr ≠ 0
    · rw [if_pos hk, if_pos hk, reg_setreg_same]
      rfl
    · rw [if_neg hk, if_neg hk, reg_setreg_same]
      exact Nat.mod_mod _ _
  · dsimp only
    rw [if_neg h, if_neg h]
    exact ⟨rfl, hsp _⟩

/-- The stack switch of the service-call return. -/
theorem arm64_syscall_return_stack (cfg : Config) (regs : Nat) (s : KState)
    (hn : 1 ≤ s.tcb.xcp.nsyscalls) :
    ∃ s', arm64_syscall_return cfg regs s = Outcome.ok 0 s' ∧
      s'.tcb.xcp.nsyscalls = s.tcb.xcp.nsyscalls - 1 ∧
      ((cfg.CONFIG_ARCH_KERNEL_STACK = true ∧ s.tcb.xcp.nsyscalls = 1 ∧ s.tcb.xcp.ustkptr ≠ 0) →
        reg s'.mem regs REG_SP_ELX = u64 s.tcb.xcp.ustkptr ∧ s'.tcb.xcp.ustkptr = 0) ∧
      (¬ (cfg.CONFIG_ARCH_KERNEL_STACK = true ∧ s.tcb.xcp.nsyscalls = 1 ∧ s.tcb.xcp.ustkptr ≠ 0) →
        reg s'.mem regs REG_SP_ELX = reg s.mem regs REG_SP_ELX ∧
        s'.tcb.xcp.ustkptr = s.tcb.xcp.ustkptr) := by
  have hidx : ((s.tcb.xcp.nsyscalls : Int) - 1).toNat = s.tcb.xcp.nsyscalls - 1 := by omega
  have hge : ((s.tcb.xcp.nsyscalls : Int) - 1) ≥ 0 := by omega
  have h0 : ((s.tcb.xcp.nsyscalls : Int) - 1 = 0) ↔ s.tcb.xcp.nsyscalls = 1 := by omega
  unfold arm64_syscall_return
  simp only [hidx, h0]
  rw [if_neg (not_not.mpr hge)]
  refine ⟨_, rfl, rfl, fun h => ?_, fun h => ?_⟩
  · dsimp only
    rw [if_pos h, if_pos h, reg_setreg_same]
    exact ⟨rfl, rfl⟩
  · dsimp only
    rw [if_neg h, if_neg h, reg_setreg_ne _ _ _ _ _ (by decide),
      reg_ite_setreg _ _ _ _ _ _ (by decide), reg_setreg_ne _ _ _ _ _ (by decide)]
    exact ⟨rfl, rfl⟩

theorem arm64_syscall_to_return (cfg : Config) (regs : Nat) (s : KState) (hregs : regs ≠ 0)
    (hlib : cfg.CONFIG_LIB_SYSCALL = true) (hcmd : reg s.mem regs REG_X0 = SYS_syscall_return) :
    arm64_syscall cfg regs s = arm64_syscall_return cfg regs s := by
  unfold arm64_syscall
  rw [if_neg hregs]
  simp only [hlib, hcmd, and_self, if_true]

/-- C25, counterexample: a dispatch at nesting level 0 with a kernel stack at 0x20000 on a
frame whose stack-pointer slot is 0 records the null user stack pointer and switches the slot
to 0x21000; the matching return (the same frame with `SYS_syscall_return` in X0) finds
`ustkptr` null and leaves the slot at 0x21000: it is not set back to the saved user value
0. -/
theorem kernel_stack_null_user_sp :
    reg (frameAt 10 0 0) 0x1000 REG_SP_ELX = 0 ∧
    ∃ s1, arm64_syscall cfgKernelStack 0x1000
        (stateAt (frameAt 10 0 0) (tcbStackAt 0 0x20000 0 0 0)) = Outcome.ok 0 s1 ∧
      s1.tcb.xcp.nsyscalls = 1 ∧ s1.tcb.xcp.ustkptr = 0 ∧
      reg s1.mem 0x1000 REG_SP_ELX = 0x21000 ∧
      ∃ s2, arm64_syscall cfgKernelStack 0x1000
          { s1 with mem := setreg s1.mem 0x1000 REG_X0 SYS_syscall_return } = Outcome.ok 0 s2 ∧
        s2.tcb.xcp.nsyscalls = 0 ∧ reg s2.mem 0x1000 REG_SP_ELX = 0x21000 :=
  ⟨by decide, _, rfl, rfl, rfl, by decide, _, rfl, rfl, by decide⟩

/-- C25 (amended): with `CONFIG_ARCH_KERNEL_STACK`, a service-call dispatch at nesting
level 0 of a task with a kernel stack saves the frame's stack pointer in `ustkptr` and sets
the stack-pointer slot to `kstkptr` if that is non-null, else to
`kstack + ARCH_KERNEL_STACKSIZE`; the outermost service-call return (nesting counter 1) with a
non-null `ustkptr` sets the stack-pointer slot to `ustkptr` and resets `ustkptr` to `NULL`, and
with a null `ustkptr` it leaves the slot unchanged; dispatches and returns at nesting levels
above 0 change neither the stack-pointer slot nor `ustkptr`. -/
theorem kernel_stack_switch (cfg : Config) (regs : Nat) (s : KState) (hregs : regs ≠ 0)
    (hlib : cfg.CONFIG_LIB_SYSCALL = true) (hks : cfg.CONFIG_ARCH_KERNEL_STACK = true) :
    (reg s.mem regs REG_X0 ∉ [SYS_syscall_return, SYS_task_start, SYS_pthread_start,
        SYS_signal_handler, SYS_signal_handler_return] →
      cfg.CONFIG_SYS_RESERVED ≤ reg s.mem regs REG_X0 →
      reg s.mem regs REG_X0 < cfg.SYS_maxsyscall →
      s.tcb.xcp.nsyscalls < cfg.CONFIG_SYS_NNEST →
      ∃ s', arm64_syscall cfg regs s = Outcome.ok 0 s' ∧
        s'.tcb.xcp.nsyscalls = s.tcb.xcp.nsyscalls + 1 ∧
        (s.tcb.xcp.nsyscalls = 0 → s.tcb.xcp.kstack ≠ 0 →
          s'.tcb.xcp.ustkptr = reg s.mem regs REG_SP_ELX ∧
          reg s'.mem regs REG_SP_ELX = if s.tcb.xcp.kstkptr ≠ 0 then u64 s.tcb.xcp.kstkptr
            else u64 (s.tcb.xcp.kstack + cfg.ARCH_KERNEL_STACKSIZE)) ∧
        (0 < s.tcb.xcp.nsyscalls →
          s'.tcb.xcp.ustkptr = s.tcb.xcp.ustkptr ∧
          reg s'.mem regs REG_SP_ELX = reg s.mem regs REG_SP_ELX)) ∧
    (reg s.mem regs REG_X0 = SYS_syscall_return → 1 ≤ s.tcb.xcp.nsyscalls →
      ∃ s', arm64_syscall cfg regs s = Outcome.ok 0 s' ∧
        s'.tcb.xcp.nsyscalls = s.tcb.xcp.nsyscalls - 1 ∧
        (s.tcb.xcp.nsyscalls = 1 → s.tcb.xcp.ustkptr ≠ 0 →
          reg s'.mem regs REG_SP_ELX = u64 s.tcb.xcp.ustkptr ∧ s'.tcb.xcp.ustkptr = 0) ∧
        (s.tcb.xcp.nsyscalls = 1 → s.tcb.xcp.ustkptr = 0 →
          reg s'.mem regs REG_SP_ELX = reg s.mem regs REG_SP_ELX ∧ s'.tcb.xcp.ustkptr = 0) ∧
        (1 < s.tcb.xcp.nsyscalls →
          reg s'.mem regs REG_SP_ELX = reg s.mem regs REG_SP_ELX ∧
          s'.tcb.xcp.ustkptr = s.tcb.xcp.ustkptr)) := by
  refine ⟨fun hlabel hlo hhi hn => ?_, fun hcmd hn => ?_⟩
  · rw [arm64_syscall_to_default cfg regs s hregs hlabel]
    obtain ⟨s', h0, h1, h2, h3⟩ := arm64_syscall_default_stack cfg regs _ s hlib hlo hhi hn
    exact ⟨s', h0, h1, fun a b => h2 ⟨hks, a, b⟩, fun a => h3 (fun c => by omega)⟩
  · rw [arm64_syscall_to_return cfg regs s hregs hlib hcmd]
    obtain ⟨s', h0, h1, h2, h3⟩ := arm64_syscall_return_stack cfg regs s hn
    refine ⟨s', h0, h1, fun a b => h2 ⟨hks, a, b⟩, fun a b => ?_, fun a => h3 (fun c => by omega)⟩
    have := h3 (fun c => c.2.2 b)
    exact ⟨this.1, this.2.trans b⟩

/-- Witness for C25: a dispatch at level 0 with user stack pointer 0x7000 and a kernel stack
at 0x20000, and an outermost return with `ustkptr = 0x7000`. -/
theorem kernel_stack_switch_witness :
    (∃ s', arm64_syscall cfgKernelStack 0x1000
        (stateAt (setreg (frameAt 10 0 0) 0x1000 REG_SP_ELX 0x7000) (tcbStackAt 0 0x20000 0 0 0))
          = Outcome.ok 0 s' ∧
      s'.tcb.xcp.ustkptr = 0x7000 ∧ reg s'.mem 0x1000 REG_SP_ELX = 0x21000) ∧
    (∃ s', arm64_syscall cfgKernelStack 0x1000
        (stateAt (setreg (frameAt 3 0 0) 0x1000 REG_SP_ELX 0x20f00)
          (tcbStackAt 1 0x20000 0 0x7000 0)) = Outcome.ok 0 s' ∧
      reg s'.mem 0x1000 REG_SP_ELX = 0x7000 ∧ s'.tcb.xcp.ustkptr = 0) := by
  constructor
  · obtain ⟨s', h0, _, h2, _⟩ := (kernel_stack_switch cfgKernelStack 0x1000
      (stateAt (setreg (frameAt 10 0 0) 0x1000 REG_SP_ELX 0x7000) (tcbStackAt 0 0x20000 0 0 0))
      (by decide) rfl rfl).1 (by decide) (by decide) (by decide) (by decide)
    obtain ⟨h3, h4⟩ := h2 rfl (by decide)
    exact ⟨s', h0, h3.trans (by decide), h4.trans (by decide)⟩
  · obtain ⟨s', h0, _, h2, _⟩ := (kernel_stack_switch cfgKernelStack 0x1000
      (stateAt (setreg (frameAt 3 0 0) 0x1000 REG_SP_ELX 0x20f00)
        (tcbStackAt 1 0x20000 0 0x7000 0)) (by decide) rfl rfl).2 (by decide) (by decide)
    obtain ⟨h3, h4⟩ := h2 rfl (by decide)
    exact ⟨s', h0, h3.trans (by decide), h4⟩

/-! ## `arm64_syscall`: signal-handler entry and return -/

theorem sub64_lt (a b : Nat) : sub64 a b < 2 ^ 64 := by
  unfold sub64
  omega

theorem load8_memcpy_out (m : Mem) (dst src n x : Nat) (h : x < dst ∨ dst + n ≤ x) :
    load8 (memcpy m dst src n) x = load8 m x := by
  unfold memcpy load8
  have : ¬ (dst ≤ x ∧ x < dst + n) := by omega
  simp only [this, if_false]

theorem load64_memcpy_out (m : Mem) (dst src n a : Nat) (h : a + 8 ≤ dst ∨ dst + n ≤ a) :
    load64 (memcpy m dst src n) a = load64 m a := by
  simp only [load64, load32, load16]
  rw [load8_memcpy_out m dst src n a (by omega), load8_memcpy_out m dst src n (a + 1) (by omega),
    load8_memcpy_out m dst src n (a + 2) (by omega),
    load8_memcpy_out m dst src n (a + 2 + 1) (by omega),
    load8_memcpy_out m dst src n (a + 4) (by omega),
    load8_memcpy_out m dst src n (a + 4 + 1) (by omega),
    load8_memcpy_out m dst src n (a + 4 + 2) (by omega),
    load8_memcpy_out m dst src n (a + 4 + 2 + 1) (by omega)]

/-- The case `SYS_signal_handler` when no kernel stack is in use. -/
theorem arm64_syscall_signal_handler_plain (cfg : Config) (regs : Nat) (s : KState)
    (hsig : s.tcb.xcp.sigreturn = 0)
    (hks : ¬ (cfg.CONFIG_ARCH_KERNEL_STACK = true ∧ s.tcb.xcp.kstack ≠ 0)) :
    ∃ s1, arm64_syscall_signal_handler cfg regs s = Outcome.ok 0 s1 ∧
      s1.tcb.xcp.sigreturn = reg s.mem regs REG_ELR ∧
      s1.tcb.xcp.kstack = s.tcb.xcp.kstack := by
  unfold arm64_syscall_signal_handler
  dsimp only
  rw [if_neg (not_not.mpr hsig), if_neg hks]
  exact ⟨_, rfl, rfl, rfl⟩

/-- The case `SYS_signal_handler` when the task has a kernel stack. -/
theorem arm64_syscall_signal_handler_stack (cfg : Config) (regs : Nat) (s : KState)
    (hsig : s.tcb.xcp.sigreturn = 0)
    (hks : cfg.CONFIG_ARCH_KERNEL_STACK = true ∧ s.tcb.xcp.kstack ≠ 0)
    (hkp : s.tcb.xcp.kstkptr = 0)
    (hsep : reg (Outcome.state (arm64_syscall_signal_handler cfg regs s)).mem regs REG_SP_ELX +
        cfg.sizeof_siginfo_t ≤ regs + 8 * REG_SP_ELX ∨
      regs + 8 * REG_SP_ELX + 8 ≤
        reg (Outcome.state (arm64_syscall_signal_handler cfg regs s)).mem regs REG_SP_ELX) :
    ∃ s1, arm64_syscall_signal_handler cfg regs s = Outcome.ok 0 s1 ∧
      s1.tcb.xcp.sigreturn = reg s.mem regs REG_ELR ∧
      s1.tcb.xcp.kstack = s.tcb.xcp.kstack ∧
      s1.tcb.xcp.kstkptr = reg s.mem regs REG_SP_ELX := by
  unfold arm64_syscall_signal_handler at hsep ⊢
  dsimp only at hsep ⊢
  rw [if_neg (not_not.mpr hsig), if_pos hks, if_neg (not_not.mpr hkp)] at hsep
  rw [if_neg (not_not.mpr hsig), if_pos hks, if_neg (not_not.mpr hkp)]
  refine ⟨_, rfl, rfl, rfl, ?_⟩
  simp only [Outcome.state] at hsep
  rw [reg_setreg_ne _ _ _ _ _ (by decide), reg_setreg_same,
    Nat.mod_eq_of_lt (sub64_lt _ _)] at hsep
  show load64 (memcpy _ _ _ _) (regs + 8 * REG_SP_ELX) = _
  rw [load64_memcpy_out _ _ _ _ _ (Or.symm hsep)]
  show reg (setreg _ _ _ _) _ _ = _
  rw [reg_setreg_ne _ _ _ _ _ (by decide), reg_setreg_ne _ _ _ _ _ (by decide),
    reg_setreg_ne _ _ _ _ _ (by decide), reg_setreg_ne _ _ _ _ _ (by decide),
    reg_setreg_ne _ _ _ _ _ (by decide), reg_setreg_ne _ _ _ _ _ (by decide)]

/-- The case `SYS_signal_handler_return`. -/
theorem arm64_syscall_signal_handler_return_spec (cfg : Config) (regs : Nat) (t : KState)
    (hsig : t.tcb.xcp.sigreturn ≠ 0)
    (hkp : cfg.CONFIG_ARCH_KERNEL_STACK = true ∧ t.tcb.xcp.kstack ≠ 0 → t.tcb.xcp.kstkptr ≠ 0) :
    ∃ s2, arm64_syscall_signal_handler_return cfg regs t = Outcome.ok 0 s2 ∧
      reg s2.mem regs REG_ELR = u64 t.tcb.xcp.sigreturn ∧
      s2.tcb.xcp.sigreturn = 0 ∧
      reg s2.mem regs REG_SPSR &&& SPSR_MODE_MASK = SPSR_MODE_EL1H ∧
      (cfg.CONFIG_ARCH_KERNEL_STACK = true ∧ t.tcb.xcp.kstack ≠ 0 →
        reg s2.mem regs REG_SP_ELX = u64 t.tcb.xcp.kstkptr ∧ s2.tcb.xcp.kstkptr = 0) := by
  obtain ⟨q1, q2, _⟩ := spsr_mode_set (reg (setreg t.mem regs REG_ELR t.tcb.xcp.sigreturn) regs
    REG_SPSR) SPSR_MODE_EL1H (reg_lt _ _ _) (by decide)
  unfold arm64_syscall_signal_handler_return
  dsimp only
  rw [if_neg (not_not.mpr hsig)]
  by_cases hks : cfg.CONFIG_ARCH_KERNEL_STACK = true ∧ t.tcb.xcp.kstack ≠ 0
  · rw [if_pos hks, if_neg (not_not.mpr (hkp hks))]
    refine ⟨_, rfl, ?_, rfl, ?_, fun _ => ⟨?_, rfl⟩⟩
    · show reg (setreg _ _ _ _) _ _ = _
      rw [reg_setreg_ne _ _ _ _ _ (by decide), reg_setreg_ne _ _ _ _ _ (by decide),
        reg_setreg_same]
      rfl
    · show reg (setreg _ _ _ _) _ _ &&& _ = _
      rw [reg_setreg_ne _ _ _ _ _ (by decide), reg_setreg_same, Nat.mod_eq_of_lt q1]
      exact q2
    · show reg (setreg _ _ _ _) _ _ = _
      rw [reg_setreg_same]
      rfl
  · rw [if_neg hks]
    refine ⟨_, rfl, ?_, rfl, ?_, fun h => absurd h hks⟩
    · show reg (setreg _ _ _ _) _ _ = _
      rw [reg_setreg_ne _ _ _ _ _ (by decide), reg_setreg_same]
      rfl
    · show reg (setreg _ _ _ _) _ _ &&& _ = _
      rw [reg_setreg_same, Nat.mod_eq_of_lt q1]
      exact q2

theorem arm64_syscall_to_signal_handler (cfg : Config) (regs : Nat) (s : KState)
    (hregs : regs ≠ 0) (hk : cfg.CONFIG_BUILD_KERNEL = true)
    (hcmd : reg s.mem regs REG_X0 = SYS_signal_handler) :
    arm64_syscall cfg regs s = arm64_syscall_signal_handler cfg regs s := by
  unfold arm64_syscall
  rw [if_neg hregs]
  simp [hk, hcmd, SYS_task_start, SYS_syscall_return, SYS_signal_handler, SYS_pthread_start]

theorem arm64_syscall_to_signal_handler_return (cfg : Config) (regs : Nat) (s : KState)
    (hregs : regs ≠ 0) (hk : cfg.CONFIG_BUILD_KERNEL = true)
    (hcmd : reg s.mem regs REG_X0 = SYS_signal_handler_return) :
    arm64_syscall cfg regs s = arm64_syscall_signal_handler_return cfg regs s := by
  unfold arm64_syscall
  rw [if_neg hregs]
  simp [hk, hcmd, SYS_task_start, SYS_syscall_return, SYS_signal_handler, SYS_pthread_start,
    SYS_signal_handler_return]

/-- C24, counterexample, with a kernel stack at 0x20000, `sigreturn = 0`, ELR = 0x7000 and
stack-pointer slot 0x5000. First input: `kstkptr = 0x20f00` is not null and the entry takes
the assertion-failure path. Second input: `kstkptr` is null and the saved context at 0x3000
has the user stack pointer 0x1110, so that the 24 bytes of `info` are copied to 0x10f8, the
stack-pointer slot of the frame at 0x1000; the entry then records 0xdead, the first word of
`info`, in `kstkptr`, and the return leaves 0xdead in the stack-pointer slot, not 0x5000. -/
theorem signal_round_trip_fails :
    (∃ t, arm64_syscall cfgKernelStack 0x1000
        (stateAt (setreg (setreg (frameAt 6 0 0) 0x1000 REG_ELR 0x7000) 0x1000 REG_SP_ELX 0x5000)
          (tcbStackAt 0 0x20000 0x20f00 0 0x3000)) = Outcome.assert_failed t) ∧
    (reg (setreg (setreg (setreg (setreg (store64 (frameAt 6 0 0) 0x6000 0xdead) 0x3000
          REG_SP_ELX 0x1110) 0x1000 REG_X3 0x6000) 0x1000 REG_ELR 0x7000) 0x1000 REG_SP_ELX
          0x5000) 0x1000 REG_SP_ELX = 0x5000 ∧
      ∃ s1, arm64_syscall cfgKernelStack 0x1000
          (stateAt (setreg (setreg (setreg (setreg (store64 (frameAt 6 0 0) 0x6000 0xdead) 0x3000
            REG_SP_ELX 0x1110) 0x1000 REG_X3 0x6000) 0x1000 REG_ELR 0x7000) 0x1000 REG_SP_ELX
            0x5000) (tcbStackAt 0 0x20000 0 0 0x3000)) = Outcome.ok 0 s1 ∧
        s1.tcb.xcp.kstkptr = 0xdead ∧
        ∃ s2, arm64_syscall cfgKernelStack 0x1000
            { s1 with mem := setreg s1.mem 0x1000 REG_X0 SYS_signal_handler_return } =
            Outcome.ok 0 s2 ∧
          reg s2.mem 0x1000 REG_SP_ELX = 0xdead) :=
  ⟨⟨_, rfl⟩, by decide, _, rfl, by decide, _, rfl, by decide⟩

/-- C24 (amended): starting from a frame with non-zero ELR and a task with `sigreturn = 0`
and, when a kernel stack is allocated, with a null `kstkptr`, a non-zero stack-pointer slot
and the copy of `info` on the user stack (at the stack pointer left by the entry) not
overlapping the stack-pointer slot of the frame: `SYS_signal_handler` returns 0, and a
following `SYS_signal_handler_return` of the same task, on any frame and memory, returns 0 and
leaves ELR equal to the original ELR, `sigreturn` equal to 0, the SPSR mode field equal to
EL1H and, when a kernel stack is allocated, the stack-pointer slot equal to its value before
the entry with `kstkptr` reset to `NULL`. A return with `sigreturn = 0` takes the
assertion-failure path. -/
theorem signal_handler_round_trip (cfg : Config) (regs : Nat) (s : KState) (hregs : regs ≠ 0)
    (hk : cfg.CONFIG_BUILD_KERNEL = true)
    (hcmd : reg s.mem regs REG_X0 = SYS_signal_handler)
    (hsig : s.tcb.xcp.sigreturn = 0) (helr : reg s.mem regs REG_ELR ≠ 0)
    (hstack : cfg.CONFIG_ARCH_KERNEL_STACK = true ∧ s.tcb.xcp.kstack ≠ 0 →
      s.tcb.xcp.kstkptr = 0 ∧ reg s.mem regs REG_SP_ELX ≠ 0 ∧
      (reg (Outcome.state (arm64_syscall cfg regs s)).mem regs REG_SP_ELX +
          cfg.sizeof_siginfo_t ≤ regs + 8 * REG_SP_ELX ∨
        regs + 8 * REG_SP_ELX + 8 ≤
          reg (Outcome.state (arm64_syscall cfg regs s)).mem regs REG_SP_ELX)) :
    (∃ s1, arm64_syscall cfg regs s = Outcome.ok 0 s1 ∧
      ∀ (m2 : Mem) (regs2 : Nat), regs2 ≠ 0 →
        reg m2 regs2 REG_X0 = SYS_signal_handler_return →
        ∃ s2, arm64_syscall cfg regs2 { s1 with mem := m2 } = Outcome.ok 0 s2 ∧
          reg s2.mem regs2 REG_ELR = reg s.mem regs REG_ELR ∧
          s2.tcb.xcp.sigreturn = 0 ∧
          reg s2.mem regs2 REG_SPSR &&& SPSR_MODE_MASK = SPSR_MODE_EL1H ∧
          (cfg.CONFIG_ARCH_KERNEL_STACK = true ∧ s.tcb.xcp.kstack ≠ 0 →
            reg s2.mem regs2 REG_SP_ELX = reg s.mem regs REG_SP_ELX ∧
            s2.tcb.xcp.kstkptr = 0)) ∧
    (∀ (regs2 : Nat) (t : KState), regs2 ≠ 0 →
      reg t.mem regs2 REG_X0 = SYS_signal_handler_return → t.tcb.xcp.sigreturn = 0 →
      arm64_syscall cfg regs2 t = Outcome.assert_failed t) := by
  have hent := arm64_syscall_to_signal_handler cfg regs s hregs hk hcmd
  constructor
  · by_cases hks : cfg.CONFIG_ARCH_KERNEL_STACK = true ∧ s.tcb.xcp.kstack ≠ 0
    · obtain ⟨hkp, hsp, hsep⟩ := hstack hks
      rw [hent] at hsep
      obtain ⟨s1, h0, h1, h2, h3⟩ :=
        arm64_syscall_signal_handler_stack cfg regs s hsig hks hkp hsep
      refine ⟨s1, hent.trans h0, fun m2 regs2 hr2 hc2 => ?_⟩
      obtain ⟨s2, g0, g1, g2, g3, g4⟩ := arm64_syscall_signal_handler_return_spec cfg regs2
        { s1 with mem := m2 } (by show s1.tcb.xcp.sigreturn ≠ 0; rw [h1]; exact helr)
        (fun _ => by show s1.tcb.xcp.kstkptr ≠ 0; rw [h3]; exact hsp)
      refine ⟨s2, (arm64_syscall_to_signal_handler_return cfg regs2 _ hr2 hk hc2).trans g0,
        ?_, g2, g3, fun _ => ?_⟩
      · rw [g1]
        show u64 s1.tcb.xcp.sigreturn = _
        rw [h1]
        exact Nat.mod_eq_of_lt (reg_lt _ _ _)
      · obtain ⟨g5, g6⟩ := g4 ⟨hks.1, by show s1.tcb.xcp.kstack ≠ 0; rw [h2]; exact hks.2⟩
        refine ⟨?_, g6⟩
        rw [g5]
        show u64 s1.tcb.xcp.kstkptr = _
        rw [h3]
        exact Nat.mod_eq_of_lt (reg_lt _ _ _)
    · obtain ⟨s1, h0, h1, h2⟩ := arm64_syscall_signal_handler_plain cfg regs s hsig hks
      refine ⟨s1, hent.trans h0, fun m2 regs2 hr2 hc2 => ?_⟩
      obtain ⟨s2, g0, g1, g2, g3, _⟩ := arm64_syscall_signal_handler_return_spec cfg regs2
        { s1 with mem := m2 } (by show s1.tcb.xcp.sigreturn ≠ 0; rw [h1]; exact helr)
        (fun h => absurd (show cfg.CONFIG_ARCH_KERNEL_STACK = true ∧ s.tcb.xcp.kstack ≠ 0 from
          ⟨h.1, by rw [← h2]; exact h.2⟩) hks)
      refine ⟨s2, (arm64_syscall_to_signal_handler_return cfg regs2 _ hr2 hk hc2).trans g0,
        ?_, g2, g3, fun h => absurd h hks⟩
      rw [g1]
      show u64 s1.tcb.xcp.sigreturn = _
      rw [h1]
      exact Nat.mod_eq_of_lt (reg_lt _ _ _)
  · intro regs2 t hr2 hc2 ht
    rw [arm64_syscall_to_signal_handler_return cfg regs2 t hr2 hk hc2]
    unfold arm64_syscall_signal_handler_return
    dsimp only
    rw [if_pos (not_not.mpr ht)]

/-- Witness for C24: a kernel stack at 0x20000, the user stack pointer 0x9000 in the saved
context at 0x3000, ELR = 0x7000 and stack-pointer slot 0x20f00; the return is taken on the
same frame with `SYS_signal_handler_return` in X0. -/
theorem signal_handler_round_trip_witness :
    ∃ s1, arm64_syscall cfgKernelStack 0x1000
        (stateAt (setreg (setreg (setreg (frameAt 6 0 0) 0x3000 REG_SP_ELX 0x9000) 0x1000
          REG_ELR 0x7000) 0x1000 REG_SP_ELX 0x20f00) (tcbStackAt 0 0x20000 0 0 0x3000)) =
        Outcome.ok 0 s1 ∧
      ∃ s2, arm64_syscall cfgKernelStack 0x1000
          { s1 with mem := setreg s1.mem 0x1000 REG_X0 SYS_signal_handler_return } =
          Outcome.ok 0 s2 ∧
        reg s2.mem 0x1000 REG_ELR = 0x7000 ∧ s2.tcb.xcp.sigreturn = 0 ∧
        reg s2.mem 0x1000 REG_SP_ELX = 0x20f00 ∧ s2.tcb.xcp.kstkptr = 0 := by
  obtain ⟨s1, h0, h1⟩ := (signal_handler_round_trip cfgKernelStack 0x1000
    (stateAt (setreg (setreg (setreg (frameAt 6 0 0) 0x3000 REG_SP_ELX 0x9000) 0x1000
      REG_ELR 0x7000) 0x1000 REG_SP_ELX 0x20f00) (tcbStackAt 0 0x20000 0 0 0x3000))
    (by decide) rfl (by decide) rfl (by decide)
    (fun _ => ⟨rfl, by decide, by decide⟩)).1
  obtain ⟨s2, g0, g1, g2, _, g4⟩ := h1 (setreg s1.mem 0x1000 REG_X0 SYS_signal_handler_return)
    0x1000 (by decide) ((reg_setreg_same _ _ _ _).trans (by decide))
  obtain ⟨g5, g6⟩ := g4 ⟨rfl, by decide⟩
  exact ⟨s1, h0, s2, g0, g1.trans (by decide), g2, g5.trans (by decide), g6⟩

/-! ## `arm64_syscall`: the nesting counter and the save array -/

theorem arm64_syscall_return_count (cfg : Config) (regs : Nat) (s : KState) (r : Int)
    (s' : KState) (h : arm64_syscall_return cfg regs s = Outcome.ok r s') :
    1 ≤ s.tcb.xcp.nsyscalls ∧ s'.tcb.xcp.nsyscalls = s.tcb.xcp.nsyscalls - 1 := by
  unfold arm64_syscall_return at h
  dsimp only at h
  by_cases h0 : ¬ ((s.tcb.xcp.nsyscalls : Int) - 1 ≥ 0)
  · rw [if_pos h0] at h
    exact Outcome.noConfusion h
  · rw [if_neg h0] at h
    injection h with h1 h2
    subst h2
    refine ⟨by omega, ?_⟩
    show ((s.tcb.xcp.nsyscalls : Int) - 1).toNat = _
    omega

theorem arm64_syscall_start_count (regs : Nat) (s : KState) (r : Int)
    (s' : KState) (h : arm64_syscall_start regs s = Outcome.ok r s') :
    s'.tcb.xcp.nsyscalls = s.tcb.xcp.nsyscalls := by
  unfold arm64_syscall_start at h
  injection h with h1 h2
  subst h2
  rfl

theorem arm64_syscall_signal_handler_count (cfg : Config) (regs : Nat) (s : KState) (r : Int)
    (s' : KState) (h : arm64_syscall_signal_handler cfg regs s = Outcome.ok r s') :
    s'.tcb.xcp.nsyscalls = s.tcb.xcp.nsyscalls := by
  unfold arm64_syscall_signal_handler at h
  dsimp only at h
  split_ifs at h <;> (injection h with h1 h2; subst h2; rfl)

theorem arm64_syscall_signal_handler_return_count (cfg : Config) (regs : Nat) (s : KState)
    (r : Int) (s' : KState)
    (h : arm64_syscall_signal_handler_return cfg regs s = Outcome.ok r s') :
    s'.tcb.xcp.nsyscalls = s.tcb.xcp.nsyscalls := by
  unfold arm64_syscall_signal_handler_return at h
  dsimp only at h
  split_ifs at h <;> (injection h with h1 h2; subst h2; rfl)

theorem arm64_syscall_default_count (cfg : Config) (regs cmd : Nat) (s : KState) (r : Int)
    (s' : KState) (h : arm64_syscall_default cfg regs cmd s = Outcome.ok r s')
    (hinv : s.tcb.xcp.nsyscalls ≤ cfg.CONFIG_SYS_NNEST) :
    s'.tcb.xcp.nsyscalls ≤ cfg.CONFIG_SYS_NNEST := by
  unfold arm64_syscall_default at h
  by_cases hlib : cfg.CONFIG_LIB_SYSCALL = true
  · rw [if_pos hlib] at h
    by_cases h1 : ¬ (cmd ≥ cfg.CONFIG_SYS_RESERVED ∧ cmd < cfg.SYS_maxsyscall)
    · rw [if_pos h1] at h
      exact Outcome.noConfusion h
    · rw [if_neg h1] at h
      by_cases h2 : ¬ (s.tcb.xcp.nsyscalls < cfg.CONFIG_SYS_NNEST)
      · rw [if_pos h2] at h
        exact Outcome.noConfusion h
      · rw [if_neg h2] at h
        injection h with h3 h4
        subst h4
        show s.tcb.xcp.nsyscalls + 1 ≤ _
        omega
  · rw [if_neg hlib] at h
    injection h with h3 h4
    subst h4
    exact hinv

/-- The nesting counter after a call of `arm64_syscall` that returns. -/
theorem arm64_syscall_count (cfg : Config) (regs : Nat) (s : KState) (r : Int) (s' : KState)
    (h : arm64_syscall cfg regs s = Outcome.ok r s')
    (hinv : s.tcb.xcp.nsyscalls ≤ cfg.CONFIG_SYS_NNEST) :
    s'.tcb.xcp.nsyscalls ≤ cfg.CONFIG_SYS_NNEST := by
  unfold arm64_syscall at h
  dsimp only at h
  split_ifs at h
  · rw [(arm64_syscall_return_count cfg regs s r s' h).2]
    omega
  · rw [arm64_syscall_start_count regs s r s' h]
    exact hinv
  · rw [arm64_syscall_start_count regs s r s' h]
    exact hinv
  · rw [arm64_syscall_signal_handler_count cfg regs s r s' h]
    exact hinv
  · rw [arm64_syscall_signal_handler_return_count cfg regs s r s' h]
    exact hinv
  · exact arm64_syscall_default_count cfg regs _ s r s' h hinv

theorem arm64_syscall_return_indices_bound (cfg : Config) (s : KState)
    (hinv : s.tcb.xcp.nsyscalls ≤ cfg.CONFIG_SYS_NNEST) :
    ∀ i ∈ arm64_syscall_return_indices cfg s, 0 ≤ i ∧ i < (cfg.CONFIG_SYS_NNEST : Int) := by
  intro i hi
  unfold arm64_syscall_return_indices at hi
  dsimp only at hi
  by_cases h0 : ¬ ((s.tcb.xcp.nsyscalls : Int) - 1 ≥ 0)
  · rw [if_pos h0] at hi
    exact absurd hi (List.not_mem_nil _)
  · rw [if_neg h0] at hi
    have : i = (s.tcb.xcp.nsyscalls : Int) - 1 := by
      split_ifs at hi <;> simpa using hi
    omega

theorem arm64_syscall_default_indices_bound (cfg : Config) (cmd : Nat) (s : KState) :
    ∀ i ∈ arm64_syscall_default_indices cfg cmd s, 0 ≤ i ∧ i < (cfg.CONFIG_SYS_NNEST : Int) := by
  intro i hi
  unfold arm64_syscall_default_indices at hi
  dsimp only at hi
  by_cases hlib : cfg.CONFIG_LIB_SYSCALL = true
  · rw [if_pos hlib] at hi
    by_cases h1 : ¬ (cmd ≥ cfg.CONFIG_SYS_RESERVED ∧ cmd < cfg.SYS_maxsyscall)
    · rw [if_pos h1] at hi
      exact absurd hi (List.not_mem_nil _)
    · rw [if_neg h1] at hi
      by_cases h2 : ¬ ((s.tcb.xcp.nsyscalls : Int) < cfg.CONFIG_SYS_NNEST)
      · rw [if_pos h2] at hi
        exact absurd hi (List.not_mem_nil _)
      · rw [if_neg h2] at hi
        have : i = (s.tcb.xcp.nsyscalls : Int) := by
          split_ifs at hi <;> simpa using hi
        omega
  · rw [if_neg hlib] at hi
    exact absurd hi (List.not_mem_nil _)

/-- The accesses of the save array are in bounds when the nesting counter is. -/
theorem arm64_syscall_indices_bound (cfg : Config) (regs : Nat) (s : KState)
    (hinv : s.tcb.xcp.nsyscalls ≤ cfg.CONFIG_SYS_NNEST) :
    ∀ i ∈ arm64_syscall_indices cfg regs s, 0 ≤ i ∧ i < (cfg.CONFIG_SYS_NNEST : Int) := by
  intro i hi
  unfold arm64_syscall_indices at hi
  dsimp only at hi
  split_ifs at hi
  · exact absurd hi (List.not_mem_nil _)
  · exact arm64_syscall_return_indices_bound cfg s hinv i hi
  · exact absurd hi (List.not_mem_nil _)
  · exact absurd hi (List.not_mem_nil _)
  · exact absurd hi (List.not_mem_nil _)
  · exact absurd hi (List.not_mem_nil _)
  · exact arm64_syscall_default_indices_bound cfg _ s i hi

/-- C32: if the nesting counter is at most `CONFIG_SYS_NNEST` before a call of
`arm64_syscall` that returns (no assertion failure), it is at most `CONFIG_SYS_NNEST`
afterwards, for every command; every access to the save array `xcp.syscall[]` in the call uses
an index in `[0, CONFIG_SYS_NNEST)`; and the slots at indices `≥ CONFIG_SYS_NNEST` are as
before. -/
theorem nesting_counter_in_bounds (cfg : Config) (regs : Nat) (s : KState) (r : Int)
    (s' : KState) (hinv : s.tcb.xcp.nsyscalls ≤ cfg.CONFIG_SYS_NNEST)
    (h : arm64_syscall cfg regs s = Outcome.ok r s') :
    s'.tcb.xcp.nsyscalls ≤ cfg.CONFIG_SYS_NNEST ∧
    (∀ i ∈ arm64_syscall_indices cfg regs s, 0 ≤ i ∧ i < (cfg.CONFIG_SYS_NNEST : Int)) ∧
    (∀ i, cfg.CONFIG_SYS_NNEST ≤ i → s'.tcb.xcp.syscall i = s.tcb.xcp.syscall i) :=
  ⟨arm64_syscall_count cfg regs s r s' h hinv, arm64_syscall_indices_bound cfg regs s hinv,
    fun i hi => arm64_syscall_slots cfg regs s r s' h i hi⟩

/-- Witness for C32: dispatch of command 10 at nesting level 1 of 2. -/
theorem nesting_counter_in_bounds_witness :
    ∃ s', arm64_syscall cfgKernel 0x1000 (stateAt (frameAt 10 0 0) (tcbAt 1 0 0)) =
        Outcome.ok 0 s' ∧ s'.tcb.xcp.nsyscalls = 2 ∧
      s'.tcb.xcp.nsyscalls ≤ cfgKernel.CONFIG_SYS_NNEST ∧
      arm64_syscall_indices cfgKernel 0x1000 (stateAt (frameAt 10 0 0) (tcbAt 1 0 0)) = [1, 1] ∧
      ∀ i ∈ arm64_syscall_indices cfgKernel 0x1000 (stateAt (frameAt 10 0 0) (tcbAt 1 0 0)),
        0 ≤ i ∧ i < (cfgKernel.CONFIG_SYS_NNEST : Int) := by
  refine ⟨_, rfl, rfl, ?_, by decide, ?_⟩
  · exact (nesting_counter_in_bounds cfgKernel 0x1000 (stateAt (frameAt 10 0 0) (tcbAt 1 0 0))
      0 _ (by decide) rfl).1
  · exact (nesting_counter_in_bounds cfgKernel 0x1000 (stateAt (frameAt 10 0 0) (tcbAt 1 0 0))
      0 _ (by decide) rfl).2.1

/-- C33: the service-call return clears `TCB_FLAG_SYSCALL` also when it returns from a
nested call: entered with nesting counter `n ≥ 2` (2 in particular) it leaves the counter at
`n - 1 > 0` with the flag clear, so that "`TCB_FLAG_SYSCALL` is set whenever `nsyscalls > 0`"
does not hold afterwards (for a non-zero flag mask). -/
theorem return_clears_flag_nested (cfg : Config) (regs : Nat) (s : KState) (hregs : regs ≠ 0)
    (hlib : cfg.CONFIG_LIB_SYSCALL = true)
    (hcmd : reg s.mem regs REG_X0 = SYS_syscall_return)
    (hn : 2 ≤ s.tcb.xcp.nsyscalls) :
    ∃ s', arm64_syscall cfg regs s = Outcome.ok 0 s' ∧
      s'.tcb.xcp.nsyscalls = s.tcb.xcp.nsyscalls - 1 ∧ 0 < s'.tcb.xcp.nsyscalls ∧
      s'.tcb.flags &&& cfg.TCB_FLAG_SYSCALL = 0 ∧
      (cfg.TCB_FLAG_SYSCALL ≠ 0 →
        ¬ (0 < s'.tcb.xcp.nsyscalls → s'.tcb.flags &&& cfg.TCB_FLAG_SYSCALL =
          cfg.TCB_FLAG_SYSCALL)) := by
  have hidx : ((s.tcb.xcp.nsyscalls : Int) - 1).toNat = s.tcb.xcp.nsyscalls - 1 := by omega
  have hge : ((s.tcb.xcp.nsyscalls : Int) - 1) ≥ 0 := by omega
  rw [arm64_syscall_to_return cfg regs s hregs hlib hcmd]
  unfold arm64_syscall_return
  simp only [hidx]
  rw [if_neg (not_not.mpr hge)]
  have hpos : 0 < s.tcb.xcp.nsyscalls - 1 := by omega
  refine ⟨_, rfl, rfl, hpos, clearBits_and _ _, fun hF hinv => ?_⟩
  have h1 := hinv hpos
  have h2 : clearBits s.tcb.flags cfg.TCB_FLAG_SYSCALL &&& cfg.TCB_FLAG_SYSCALL = 0 :=
    clearBits_and _ _
  exact hF (h1.symm.trans h2)

/-- Witness for C33: a return at nesting level 2 with the flag set. -/
theorem return_clears_flag_nested_witness :
    (stateAt (frameAt 3 0 0) { tcbAt 2 0 0 with flags := 1024 }).tcb.flags &&&
      cfgKernel.TCB_FLAG_SYSCALL = cfgKernel.TCB_FLAG_SYSCALL ∧
    ∃ s', arm64_syscall cfgKernel 0x1000
        (stateAt (frameAt 3 0 0) { tcbAt 2 0 0 with flags := 1024 }) = Outcome.ok 0 s' ∧
      s'.tcb.xcp.nsyscalls = 1 ∧ s'.tcb.flags &&& cfgKernel.TCB_FLAG_SYSCALL = 0 := by
  obtain ⟨s', h0, h1, _, h3, _⟩ := return_clears_flag_nested cfgKernel 0x1000
    (stateAt (frameAt 3 0 0) { tcbAt 2 0 0 with flags := 1024 }) (by decide) rfl (by decide)
    (by decide)
  exact ⟨by decide, s', h0, h1, h3⟩

/-! ## `arm64_syscall`: sequences of dispatches and returns -/

/-- The save slot written by the service-call dispatch. -/
theorem arm64_syscall_default_entry (cfg : Config) (regs cmd : Nat) (s : KState)
    (hlib : cfg.CONFIG_LIB_SYSCALL = true)
    (hlo : cfg.CONFIG_SYS_RESERVED ≤ cmd) (hhi : cmd < cfg.SYS_maxsyscall)
    (hn : s.tcb.xcp.nsyscalls < cfg.CONFIG_SYS_NNEST) :
    ∃ s', arm64_syscall_default cfg regs cmd s = Outcome.ok 0 s' ∧
      s'.tcb.xcp.nsyscalls = s.tcb.xcp.nsyscalls + 1 ∧
      (s'.tcb.xcp.syscall s.tcb.xcp.nsyscalls).sysreturn = reg s.mem regs REG_ELR ∧
      (cfg.CONFIG_BUILD_KERNEL = true →
        (s'.tcb.xcp.syscall s.tcb.xcp.nsyscalls).cpsr = reg s.mem regs REG_SPSR) ∧
      ∀ i, i ≠ s.tcb.xcp.nsyscalls → s'.tcb.xcp.syscall i = s.tcb.xcp.syscall i := by
  unfold arm64_syscall_default
  simp only [hlib, if_true]
  rw [if_neg (not_not.mpr ⟨hlo, hhi⟩), if_neg (not_not.mpr hn)]
  refine ⟨_, rfl, rfl, ?_, ?_, ?_⟩
  · simp
  · intro hk
    simp [hk]
  · intro i hi
    show (if i = s.tcb.xcp.nsyscalls then _ else _) = _
    rw [if_neg hi]

/-- The frame written by the service-call return. -/
theorem arm64_syscall_return_frame (cfg : Config) (regs : Nat) (s : KState)
    (hn : 1 ≤ s.tcb.xcp.nsyscalls) :
    ∃ s', arm64_syscall_return cfg regs s = Outcome.ok 0 s' ∧
      s'.tcb.xcp.nsyscalls = s.tcb.xcp.nsyscalls - 1 ∧
      s'.tcb.xcp.syscall = s.tcb.xcp.syscall ∧
      reg s'.mem regs REG_ELR = u64 (s.tcb.xcp.syscall (s.tcb.xcp.nsyscalls - 1)).sysreturn ∧
      (cfg.CONFIG_BUILD_KERNEL = true →
        reg s'.mem regs REG_SPSR = u64 (s.tcb.xcp.syscall (s.tcb.xcp.nsyscalls - 1)).cpsr) ∧
      (cfg.CONFIG_BUILD_KERNEL = false → reg s'.mem regs REG_SPSR = reg s.mem regs REG_SPSR) ∧
      reg s'.mem regs REG_X0 = reg s.mem regs REG_X2 := by
  have hidx : ((s.tcb.xcp.nsyscalls : Int) - 1).toNat = s.tcb.xcp.nsyscalls - 1 := by omega
  have hge : ((s.tcb.xcp.nsyscalls : Int) - 1) ≥ 0 := by omega
  unfold arm64_syscall_return
  simp only [hidx]
  rw [if_neg (not_not.mpr hge)]
  refine ⟨_, rfl, rfl, rfl, ?_, ?_, ?_, ?_⟩
  · show reg (if _ then _ else _) _ _ = _
    rw [reg_ite_setreg _ _ _ _ _ _ (by decide), reg_setreg_ne _ _ _ _ _ (by decide),
      reg_ite_setreg _ _ _ _ _ _ (by decide), reg_setreg_same]
    rfl
  · intro hk
    show reg (if _ then _ else _) _ _ = _
    rw [reg_ite_setreg _ _ _ _ _ _ (by decide), reg_setreg_ne _ _ _ _ _ (by decide)]
    simp only [hk, if_true]
    rw [reg_setreg_same]
    rfl
  · intro hk
    show reg (if _ then _ else _) _ _ = _
    rw [reg_ite_setreg _ _ _ _ _ _ (by decide), reg_setreg_ne _ _ _ _ _ (by decide)]
    simp only [hk, Bool.false_eq_true, if_false]
    rw [reg_setreg_ne _ _ _ _ _ (by decide)]
  · show reg (if _ then _ else _) _ _ = _
    rw [reg_ite_setreg _ _ _ _ _ _ (by decide), reg_setreg_same,
      reg_ite_setreg _ _ _ _ _ _ (by decide), reg_setreg_ne _ _ _ _ _ (by decide)]
    exact Nat.mod_eq_of_lt (reg_lt _ _ _)

/-- A run of traps whose first trap returns. -/
theorem runTraps_cons_ok (cfg : Config) (t : Mem × Nat) (ts : List (Mem × Nat)) (s s1 : KState)
    (r : Int) (l : List KState)
    (h1 : arm64_syscall cfg t.2 { s with mem := t.1 } = Outcome.ok r s1)
    (h2 : runTraps cfg ts s1 = some l) : runTraps cfg (t :: ts) s = some (s1 :: l) := by
  simp only [runTraps, h1, h2]

/-- A run of traps over `a ++ b` is the run over `a` followed by the run over `b`. -/
theorem runTraps_append (cfg : Config) : ∀ (a b : List (Mem × Nat)) (s : KState)
    (l1 l2 : List KState), runTraps cfg a s = some l1 →
    runTraps cfg b (l1.getLastD s) = some l2 → runTraps cfg (a ++ b) s = some (l1 ++ l2)
  | [], b, s, l1, l2, h1, h2 => by
    simp only [runTraps, Option.some.injEq] at h1
    subst h1
    exact h2
  | t :: ts, b, s, l1, l2, h1, h2 => by
    simp only [runTraps] at h1
    cases ho : arm64_syscall cfg t.2 { s with mem := t.1 } with
    | assert_failed s' =>
      rw [ho] at h1
      exact absurd h1 (by simp)
    | ok r s1 =>
      rw [ho] at h1
      cases hr : runTraps cfg ts s1 with
      | none =>
        simp only [hr] at h1
        exact absurd h1 (by simp)
      | some l =>
        simp only [hr, Option.some.injEq] at h1
        subst h1
        rw [List.getLastD_cons] at h2
        exact runTraps_cons_ok cfg t (ts ++ b) s s1 r (l ++ l2) ho
          (runTraps_append cfg ts b s1 l l2 hr h2)

/-- A run of service-call dispatches fills the save slots from the nesting counter upwards. -/
theorem runTraps_dispatches (cfg : Config) (hlib : cfg.CONFIG_LIB_SYSCALL = true) :
    ∀ (ds : List (Mem × Nat)) (s : KState),
    (∀ d ∈ ds, d.2 ≠ 0 ∧
      reg d.1 d.2 REG_X0 ∉ [SYS_syscall_return, SYS_task_start, SYS_pthread_start,
        SYS_signal_handler, SYS_signal_handler_return] ∧
      cfg.CONFIG_SYS_RESERVED ≤ reg d.1 d.2 REG_X0 ∧ reg d.1 d.2 REG_X0 < cfg.SYS_maxsyscall) →
    s.tcb.xcp.nsyscalls + ds.length ≤ cfg.CONFIG_SYS_NNEST →
    ∃ l, runTraps cfg ds s = some l ∧ l.length = ds.length ∧
      (l.getLastD s).tcb.xcp.nsyscalls = s.tcb.xcp.nsyscalls + ds.length ∧
      (∀ i, i < s.tcb.xcp.nsyscalls →
        (l.getLastD s).tcb.xcp.syscall i = s.tcb.xcp.syscall i) ∧
      ∀ j d, ds[j]? = some d →
        ((l.getLastD s).tcb.xcp.syscall (s.tcb.xcp.nsyscalls + j)).sysreturn =
          reg d.1 d.2 REG_ELR ∧
        (cfg.CONFIG_BUILD_KERNEL = true →
          ((l.getLastD s).tcb.xcp.syscall (s.tcb.xcp.nsyscalls + j)).cpsr =
            reg d.1 d.2 REG_SPSR)
  | [], s, _, _ => ⟨[], rfl, rfl, rfl, fun _ _ => rfl, fun j d h => absurd h (by simp)⟩
  | d :: ds, s, hv, hn => by
    obtain ⟨hr, hl, hlo, hhi⟩ := hv d (List.mem_cons_self _ _)
    have hn' : s.tcb.xcp.nsyscalls + (ds.length + 1) ≤ cfg.CONFIG_SYS_NNEST := hn
    obtain ⟨s1, e1, c1, a1, k1, o1⟩ := arm64_syscall_default_entry cfg d.2
      (reg d.1 d.2 REG_X0) { s with mem := d.1 } hlib hlo hhi
      (show s.tcb.xcp.nsyscalls < cfg.CONFIG_SYS_NNEST by omega)
    have c1' : s1.tcb.xcp.nsyscalls = s.tcb.xcp.nsyscalls + 1 := c1
    have a1' : (s1.tcb.xcp.syscall s.tcb.xcp.nsyscalls).sysreturn = reg d.1 d.2 REG_ELR := a1
    have k1' : cfg.CONFIG_BUILD_KERNEL = true →
        (s1.tcb.xcp.syscall s.tcb.xcp.nsyscalls).cpsr = reg d.1 d.2 REG_SPSR := k1
    have o1' : ∀ i, i ≠ s.tcb.xcp.nsyscalls → s1.tcb.xcp.syscall i = s.tcb.xcp.syscall i := o1
    have e1' : arm64_syscall cfg d.2 { s with mem := d.1 } = Outcome.ok 0 s1 :=
      (arm64_syscall_to_default cfg d.2 { s with mem := d.1 } hr hl).trans e1
    obtain ⟨l, g0, g1, g2, g3, g4⟩ := runTraps_dispatches cfg hlib ds s1
      (fun x hx => hv x (List.mem_cons_of_mem _ hx)) (by rw [c1']; omega)
    refine ⟨s1 :: l, runTraps_cons_ok cfg d ds s s1 0 l e1' g0, by simp [g1], ?_, ?_, ?_⟩
    · rw [List.getLastD_cons, g2, c1', List.length_cons]
      omega
    · intro i hi
      rw [List.getLastD_cons, g3 i (by rw [c1']; omega)]
      exact o1' i (by omega)
    · intro j x hx
      rw [List.getLastD_cons]
      cases j with
      | zero =>
        simp only [List.getElem?_cons_zero, Option.some.injEq] at hx
        subst hx
        rw [Nat.add_zero, g3 _ (by rw [c1']; omega)]
        exact ⟨a1', k1'⟩
      | succ j =>
        simp only [List.getElem?_cons_succ] at hx
        have h := g4 j x hx
        rw [c1'] at h
        rw [show s.tcb.xcp.nsyscalls + (j + 1) = s.tcb.xcp.nsyscalls + 1 + j by omega]
        exact h

/-- A run of service-call returns reads the save slots from the nesting counter downwards. -/
theorem runTraps_returns (cfg : Config) (hlib : cfg.CONFIG_LIB_SYSCALL = true) :
    ∀ (rs : List (Mem × Nat)) (s : KState),
    (∀ r ∈ rs, r.2 ≠ 0 ∧ reg r.1 r.2 REG_X0 = SYS_syscall_return) →
    rs.length ≤ s.tcb.xcp.nsyscalls →
    ∃ l, runTraps cfg rs s = some l ∧ l.length = rs.length ∧
      (l.getLastD s).tcb.xcp.nsyscalls = s.tcb.xcp.nsyscalls - rs.length ∧
      ∀ j st r, l[j]? = some st → rs[j]? = some r →
        reg st.mem r.2 REG_ELR =
          u64 (s.tcb.xcp.syscall (s.tcb.xcp.nsyscalls - 1 - j)).sysreturn ∧
        (cfg.CONFIG_BUILD_KERNEL = true → reg st.mem r.2 REG_SPSR =
          u64 (s.tcb.xcp.syscall (s.tcb.xcp.nsyscalls - 1 - j)).cpsr) ∧
        (cfg.CONFIG_BUILD_KERNEL = false → reg st.mem r.2 REG_SPSR = reg r.1 r.2 REG_SPSR) ∧
        reg st.mem r.2 REG_X0 = reg r.1 r.2 REG_X2
  | [], s, _, _ => ⟨[], rfl, rfl, rfl, fun j st r h => absurd h (by simp)⟩
  | t :: rs, s, hv, hn => by
    obtain ⟨hr, hc⟩ := hv t (List.mem_cons_self _ _)
    have hn' : rs.length + 1 ≤ s.tcb.xcp.nsyscalls := hn
    obtain ⟨s1, e1, c1, y1, a1, k1, n1, x1⟩ := arm64_syscall_return_frame cfg t.2
      { s with mem := t.1 } (show 1 ≤ s.tcb.xcp.nsyscalls by omega)
    have c1' : s1.tcb.xcp.nsyscalls = s.tcb.xcp.nsyscalls - 1 := c1
    have y1' : s1.tcb.xcp.syscall = s.tcb.xcp.syscall := y1
    have a1' : reg s1.mem t.2 REG_ELR =
        u64 (s.tcb.xcp.syscall (s.tcb.xcp.nsyscalls - 1)).sysreturn := a1
    have k1' : cfg.CONFIG_BUILD_KERNEL = true → reg s1.mem t.2 REG_SPSR =
        u64 (s.tcb.xcp.syscall (s.tcb.xcp.nsyscalls - 1)).cpsr := k1
    have n1' : cfg.CONFIG_BUILD_KERNEL = false →
        reg s1.mem t.2 REG_SPSR = reg t.1 t.2 REG_SPSR := n1
    have x1' : reg s1.mem t.2 REG_X0 = reg t.1 t.2 REG_X2 := x1
    have e1' : arm64_syscall cfg t.2 { s with mem := t.1 } = Outcome.ok 0 s1 :=
      (arm64_syscall_to_return cfg t.2 { s with mem := t.1 } hr hlib hc).trans e1
    obtain ⟨l, g0, g1, g2, g4⟩ := runTraps_returns cfg hlib rs s1
      (fun x hx => hv x (List.mem_cons_of_mem _ hx)) (by rw [c1']; omega)
    refine ⟨s1 :: l, runTraps_cons_ok cfg t rs s s1 0 l e1' g0, by simp [g1], ?_, ?_⟩
    · rw [List.getLastD_cons, g2, c1', List.length_cons]
      omega
    · intro j st r hst hx
      cases j with
      | zero =>
        simp only [List.getElem?_cons_zero, Option.some.injEq] at hst hx
        subst hst
        subst hx
        exact ⟨a1', k1', n1', x1'⟩
      | succ j =>
        simp only [List.getElem?_cons_succ] at hst hx
        have h := g4 j st r hst hx
        rw [c1', y1'] at h
        rw [show s.tcb.xcp.nsyscalls - 1 - (j + 1) = s.tcb.xcp.nsyscalls - 1 - 1 - j by omega]
        exact h

/-- C31: service-call dispatch and return form a LIFO round trip. Starting from nesting
counter `n`, `k` dispatch traps `ds` (each on its own frame, with a command in range,
`n + k ≤ CONFIG_SYS_NNEST`) followed by `k` return traps `rs` all return; the nesting counter
is `n` again; and after the `j`-th return (from 0) the frame of that trap holds in ELR the
ELR with which dispatch `k - 1 - j` was entered, in a kernel build SPSR likewise (in other
builds SPSR is not touched), and in X0 the value relayed in X2. -/
theorem dispatch_return_lifo (cfg : Config) (s : KState) (ds rs : List (Mem × Nat))
    (hlib : cfg.CONFIG_LIB_SYSCALL = true)
    (hds : ∀ d ∈ ds, d.2 ≠ 0 ∧
      reg d.1 d.2 REG_X0 ∉ [SYS_syscall_return, SYS_task_start, SYS_pthread_start,
        SYS_signal_handler, SYS_signal_handler_return] ∧
      cfg.CONFIG_SYS_RESERVED ≤ reg d.1 d.2 REG_X0 ∧ reg d.1 d.2 REG_X0 < cfg.SYS_maxsyscall)
    (hrs : ∀ r ∈ rs, r.2 ≠ 0 ∧ reg r.1 r.2 REG_X0 = SYS_syscall_return)
    (hlen : rs.length = ds.length)
    (hn : s.tcb.xcp.nsyscalls + ds.length ≤ cfg.CONFIG_SYS_NNEST) :
    ∃ l1 l2, runTraps cfg (ds ++ rs) s = some (l1 ++ l2) ∧
      l1.length = ds.length ∧ l2.length = rs.length ∧
      ((l1 ++ l2).getLastD s).tcb.xcp.nsyscalls = s.tcb.xcp.nsyscalls ∧
      ∀ j st r d, l2[j]? = some st → rs[j]? = some r → ds[ds.length - 1 - j]? = some d →
        reg st.mem r.2 REG_ELR = reg d.1 d.2 REG_ELR ∧
        (cfg.CONFIG_BUILD_KERNEL = true → reg st.mem r.2 REG_SPSR = reg d.1 d.2 REG_SPSR) ∧
        (cfg.CONFIG_BUILD_KERNEL = false → reg st.mem r.2 REG_SPSR = reg r.1 r.2 REG_SPSR) ∧
        reg st.mem r.2 REG_X0 = reg r.1 r.2 REG_X2 := by
  obtain ⟨l1, d0, d1, d2, _, d4⟩ := runTraps_dispatches cfg hlib ds s hds hn
  obtain ⟨l2, r0, r1, r2, r4⟩ := runTraps_returns cfg hlib rs (l1.getLastD s) hrs
    (by rw [d2, hlen]; omega)
  refine ⟨l1, l2, runTraps_append cfg ds rs s l1 l2 d0 r0, d1, r1, ?_, ?_⟩
  · have e : (l1 ++ l2).getLastD s = l2.getLastD (l1.getLastD s) := by
      simp only [List.getLastD_eq_getLast?, List.getLast?_append]
      cases l2.getLast? <;> simp
    rw [e, r2, d2, hlen]
    omega
  · intro j st r d hst hr hd
    obtain ⟨a, k, nk, x⟩ := r4 j st r hst hr
    have hj : j < ds.length := by
      have := (List.getElem?_eq_some_iff.mp hr).1
      omega
    obtain ⟨a2, k2⟩ := d4 (ds.length - 1 - j) d hd
    have hi : s.tcb.xcp.nsyscalls + ds.length - 1 - j =
        s.tcb.xcp.nsyscalls + (ds.length - 1 - j) := by omega
    rw [d2, hi] at a k
    refine ⟨?_, fun hk => ?_, nk, x⟩
    · rw [a, a2]
      exact Nat.mod_eq_of_lt (reg_lt _ _ _)
    · rw [k hk, k2 hk]
      exact Nat.mod_eq_of_lt (reg_lt _ _ _)

/-- Witness for C31: two dispatches entered with ELR 0x7000 and 0x7100, then two returns
that relay 0x55 and 0x66. -/
theorem dispatch_return_lifo_witness :
    ∃ l1 l2, runTraps cfgKernel
        ([(setreg (frameAt 10 0 0) 0x1000 REG_ELR 0x7000, 0x1000),
          (setreg (frameAt 11 0 0) 0x1000 REG_ELR 0x7100, 0x1000)] ++
         [(frameAt 3 0 0x55, 0x1000), (frameAt 3 0 0x66, 0x1000)])
        (stateAt (fun _ => 0) (tcbAt 0 0 0)) = some (l1 ++ l2) ∧
      ((l1 ++ l2).getLastD (stateAt (fun _ => 0) (tcbAt 0 0 0))).tcb.xcp.nsyscalls = 0 ∧
      (∀ st, l2[0]? = some st →
        reg st.mem 0x1000 REG_ELR = 0x7100 ∧ reg st.mem 0x1000 REG_X0 = 0x55) ∧
      (∀ st, l2[1]? = some st →
        reg st.mem 0x1000 REG_ELR = 0x7000 ∧ reg st.mem 0x1000 REG_X0 = 0x66) := by
  obtain ⟨l1, l2, h0, _, _, h3, h4⟩ := dispatch_return_lifo cfgKernel
    (stateAt (fun _ => 0) (tcbAt 0 0 0))
    [(setreg (frameAt 10 0 0) 0x1000 REG_ELR 0x7000, 0x1000),
      (setreg (frameAt 11 0 0) 0x1000 REG_ELR 0x7100, 0x1000)]
    [(frameAt 3 0 0x55, 0x1000), (frameAt 3 0 0x66, 0x1000)] rfl (by decide) (by decide) rfl
    (by decide)
  refine ⟨l1, l2, h0, h3, fun st hst => ?_, fun st hst => ?_⟩
  · obtain ⟨a, _, _, x⟩ := h4 0 st _ _ hst rfl rfl
    exact ⟨a.trans (by decide), x.trans (by decide)⟩
  · obtain ⟨a, _, _, x⟩ := h4 1 st _ _ hst rfl rfl
    exact ⟨a.trans (by decide), x.trans (by decide)⟩

/-! ## `dispatch_syscall` -/

/-- C36: the stack adjustment of `dispatch_syscall` is not balanced: the code subtracts 64
from `sp` on entry and adds back 16 before the `svc`, so that, the stub preserving `sp`, the
stack pointer at the `svc` instruction is the entry stack pointer minus 48 (modulo `2 ^ 64`),
which differs from the entry stack pointer. -/
theorem dispatch_syscall_stack (g_stublookup ret : Nat) (stub : Nat → Cpu → Cpu) (c : Cpu)
    (hstub : ∀ a c0, (stub a c0).sp = c0.sp) :
    (dispatch_syscall g_stublookup ret stub c).sp = add64 (sub64 c.sp 64) 16 ∧
    (dispatch_syscall g_stublookup ret stub c).sp = sub64 c.sp 48 ∧
    (48 ≤ c.sp → c.sp < 2 ^ 64 → (dispatch_syscall g_stublookup ret stub c).sp = c.sp - 48) ∧
    (c.sp < 2 ^ 64 → (dispatch_syscall g_stublookup ret stub c).sp ≠ c.sp) := by
  have h : (dispatch_syscall g_stublookup ret stub c).sp = add64 (sub64 c.sp 64) 16 := by
    unfold dispatch_syscall
    simp only [setx, str_sp, hstub]
  rw [h]
  unfold add64 sub64
  refine ⟨rfl, ?_, ?_, ?_⟩
  · omega
  · intro h1 h2
    omega
  · intro h1
    omega

/-- Witness for C36: entry stack pointer 0x20000 and a stub that only sets `x0`. -/
theorem dispatch_syscall_stack_witness :
    (dispatch_syscall 0x3000 0x4000 stubConst
      { x := fun _ => 0, sp := 0x20000, mem := fun _ => 0 }).sp = 0x20000 - 48 :=
  (dispatch_syscall_stack 0x3000 0x4000 stubConst
    { x := fun _ => 0, sp := 0x20000, mem := fun _ => 0 } (fun _ _ => rfl)).2.2.1 (by decide)
    (by decide)

end Arm64Syscall

namespace Arm64Physpgaddr

open Arm64Elf

/-! ## `arm64_physpgaddr` -/

/-- C27: evaluation of the code where the claim fails. For every environment, memory and
virtual address, a user address whose page is mapped included, `arm64_physpgaddr` returns the
no-mapping value 0; the level 2 entry is never read. -/
theorem arm64_physpgaddr_returns_zero (env : PgEnv) (mem : Mem) (vaddr : Nat) :
    arm64_physpgaddr env mem vaddr = 0 := by
  unfold arm64_physpgaddr
  simp

end Arm64Physpgaddr

namespace LibFclose

/-! ## List segments -/

/-- The addresses of a list segment are not null. -/
theorem IsSeg_nonzero (nxt : Nat → Nat) : ∀ (l : List Nat) (h q : Nat), IsSeg nxt h l q →
    ∀ x ∈ l, x ≠ 0
  | [], _, _, _, x, hx => absurd hx (List.not_mem_nil x)
  | y :: ys, _, q, hl, x, hx => by
    rcases List.mem_cons.mp hx with rfl | h'
    · exact hl.2.1
    · exact IsSeg_nonzero nxt ys _ q hl.2.2 x h'

/-- A segment over `a ++ b` is a segment over `a` followed by a segment over `b`. -/
theorem IsSeg_append (nxt : Nat → Nat) : ∀ (a b : List Nat) (h q : Nat),
    IsSeg nxt h (a ++ b) q ↔ ∃ m, IsSeg nxt h a m ∧ IsSeg nxt m b q
  | [], b, h, q => by
    constructor
    · intro hl
      exact ⟨h, rfl, hl⟩
    · rintro ⟨m, h1, h2⟩
      have : h = m := h1
      rw [this]
      exact h2
  | x :: xs, b, h, q => by
    constructor
    · intro hl
      obtain ⟨m, h1, h2⟩ := (IsSeg_append nxt xs b (nxt x) q).mp hl.2.2
      exact ⟨m, ⟨hl.1, hl.2.1, h1⟩, h2⟩
    · rintro ⟨m, h1, h2⟩
      exact ⟨h1.1, h1.2.1, (IsSeg_append nxt xs b (nxt x) q).mpr ⟨m, h1.2.2, h2⟩⟩

/-- The links determine the list that starts at an address and ends at `NULL`. -/
theorem IsSeg_det (nxt : Nat → Nat) : ∀ (l1 l2 : List Nat) (h : Nat), IsSeg nxt h l1 0 →
    IsSeg nxt h l2 0 → l1 = l2
  | [], [], _, _, _ => rfl
  | [], y :: ys, h, h1, h2 => by
    have e1 : h = 0 := h1
    have e2 : h = y := h2.1
    exact absurd (e2.symm.trans e1) h2.2.1
  | x :: xs, [], h, h1, h2 => by
    have e1 : h = 0 := h2
    have e2 : h = x := h1.1
    exact absurd (e2.symm.trans e1) h1.2.1
  | x :: xs, y :: ys, h, h1, h2 => by
    have e : x = y := h1.1.symm.trans h2.1
    subst e
    rw [IsSeg_det nxt xs ys (nxt x) h1.2.2 h2.2.2]

/-- A list that ends at `NULL` has no repeated address. -/
theorem IsSeg_nodup (nxt : Nat → Nat) : ∀ (l : List Nat) (h : Nat), IsSeg nxt h l 0 → l.Nodup
  | [], _, _ => List.nodup_nil
  | x :: xs, h, hl => by
    refine List.nodup_cons.mpr ⟨fun hx => ?_, IsSeg_nodup nxt xs (nxt x) hl.2.2⟩
    obtain ⟨a, b, hab⟩ := List.append_of_mem hx
    have h2 := hl.2.2
    rw [hab] at h2
    obtain ⟨m, _, h4⟩ := (IsSeg_append nxt a (x :: b) (nxt x) 0).mp h2
    have h5 : IsSeg nxt x (x :: b) 0 := ⟨rfl, h4.2.1, h4.2.2⟩
    have h6 : IsSeg nxt x (x :: xs) 0 := ⟨rfl, hl.2.1, hl.2.2⟩
    have h7 := IsSeg_det nxt _ _ x h6 h5
    have h8 : xs.length = b.length := by
      have := congrArg List.length h7
      simpa using this
    rw [hab] at h8
    simp at h8
    omega

/-- A store to the link of an address outside a segment keeps the segment. -/
theorem IsSeg_update (nxt : Nat → Nat) (p v : Nat) : ∀ (l : List Nat) (h q : Nat), p ∉ l →
    IsSeg nxt h l q → IsSeg (fun x => if x = p then v else nxt x) h l q
  | [], _, _, _, hl => hl
  | x :: xs, h, q, hp, hl => by
    have hx : ¬ x = p := fun e => hp (e ▸ List.mem_cons_self _ _)
    refine ⟨hl.1, hl.2.1, ?_⟩
    have := IsSeg_update nxt p v xs (nxt x) q (fun e => hp (List.mem_cons_of_mem _ e)) hl.2.2
    simp only [hx, if_false]
    exact this

theorem IsSeg_head (nxt : Nat → Nat) (l : List Nat) (h : Nat) (hl : IsSeg nxt h l 0) :
    h = l.headD 0 := by
  cases l with
  | nil => exact hl
  | cons x xs => exact hl.1

theorem IsSeg_head_mem (nxt : Nat → Nat) (l : List Nat) (h q : Nat) (hne : l ≠ [])
    (hl : IsSeg nxt h l q) : h ∈ l := by
  cases l with
  | nil => exact absurd rfl hne
  | cons x xs =>
    rw [hl.1]
    exact List.mem_cons_self _ _

theorem getLastD_append_cons : ∀ (pre : List Nat) (x : Nat) (xs : List Nat) (d : Nat),
    (pre ++ x :: xs).getLastD d = xs.getLastD x
  | [], x, xs, d => by
    rw [List.nil_append, List.getLastD_cons]
  | p :: ps, x, xs, d => by
    rw [List.cons_append, List.getLastD_cons]
    exact getLastD_append_cons ps x xs p

theorem getLastD_mem : ∀ (xs : List Nat) (d : Nat), xs ≠ [] → xs.getLastD d ∈ xs
  | [], _, h => absurd rfl h
  | x :: xs, d, _ => by
    rw [List.getLastD_cons]
    exact List.getLastD_mem_cons xs x

/-- The iteration of the loop of `fclose` that finds the stream. -/
theorem fclose_loop_found (stream : Nat) (s : StdioState) (pre xs : List Nat) (fuel prev : Nat)
    (hl : IsStreamList s (pre ++ stream :: xs)) (hprev : prev = pre.getLastD 0) :
    ∃ s', fclose_loop stream (fuel + 1) prev stream s = some s' ∧
      IsStreamList s' (pre ++ xs) := by
  have hnd := IsSeg_nodup _ _ _ hl.1
  have hnz := IsSeg_nonzero _ _ _ _ hl.1
  obtain ⟨m, hpre, hm, hs0, hxs⟩ := (IsSeg_append _ _ _ _ _).mp hl.1
  subst hm
  have hsx : m ∉ xs := fun h =>
    (List.nodup_cons.mp (List.nodup_append.mp hnd).2.1).1 h
  have hsp : m ∉ pre := fun h =>
    (List.nodup_append.mp hnd).2.2 h (List.mem_cons_self _ _)
  have htl : s.slist.sl_tail = xs.getLastD m := hl.2.trans (getLastD_append_cons _ _ _ _)
  have htl' : m = s.slist.sl_tail ↔ xs = [] := by
    constructor
    · intro h
      by_contra hne
      exact hsx (by rw [h, htl]; exact getLastD_mem xs m hne)
    · intro h
      rw [htl, h]
      rfl
  have hlast : xs ≠ [] → s.slist.sl_tail = (pre ++ xs).getLastD 0 := by
    intro hne
    obtain ⟨y, ys, rfl⟩ := List.exists_cons_of_ne_nil hne
    rw [htl, getLastD_append_cons, List.getLastD_cons]
  unfold fclose_loop
  rw [if_neg hs0, if_pos rfl]
  rcases List.eq_nil_or_concat pre with rfl | ⟨pre', p, hcc⟩
  · have hh : m = s.slist.sl_head := hpre.symm
    rw [if_pos hh]
    dsimp only
    by_cases hx : xs = []
    · rw [if_pos (htl'.mpr hx)]
      subst hx
      exact ⟨_, rfl, hxs, hprev⟩
    · rw [if_neg (fun h => hx (htl'.mp h))]
      exact ⟨_, rfl, hxs, hlast hx⟩
  · rw [List.concat_eq_append] at hcc
    subst hcc
    have hh : ¬ m = s.slist.sl_head := fun h =>
      hsp (h ▸ IsSeg_head_mem _ _ _ _ (by simp) hpre)
    have hp : prev = p := by
      rw [hprev]
      simp
    subst hp
    have hp0 : prev ≠ 0 := hnz prev (by simp)
    obtain ⟨m', hpre', hm', _, _⟩ := (IsSeg_append _ _ _ _ _).mp hpre
    subst hm'
    have hnd' : (pre' ++ m' :: m :: xs).Nodup := by
      simpa using hnd
    have hpp : m' ∉ pre' := fun h =>
      (List.nodup_append.mp hnd').2.2 h (List.mem_cons_self _ _)
    have hpx : m' ∉ xs := fun h =>
      (List.nodup_cons.mp (List.nodup_append.mp hnd').2.1).1 (List.mem_cons_of_mem _ h)
    have hseg : IsSeg (fun x => if x = m' then s.fs_next m else s.fs_next x) s.slist.sl_head
        ((pre' ++ [m']) ++ xs) 0 := by
      rw [List.append_assoc]
      refine (IsSeg_append _ _ _ _ _).mpr ⟨m', IsSeg_update _ _ _ _ _ _ hpp hpre', rfl, hp0, ?_⟩
      simp only [if_true]
      exact IsSeg_update _ _ _ _ _ _ hpx hxs
    rw [if_neg hh, if_neg hp0]
    dsimp only
    by_cases hx : xs = []
    · rw [if_pos (htl'.mpr hx)]
      subst hx
      refine ⟨_, rfl, hseg, ?_⟩
      simp
    · rw [if_neg (fun h => hx (htl'.mp h))]
      exact ⟨_, rfl, hseg, hlast hx⟩

/-- The loop of `fclose` from any of its iterations: `pre` holds the streams already
visited, `rest` those still to visit. -/
theorem fclose_loop_spec (stream : Nat) (s : StdioState) (l : List Nat)
    (hl : IsStreamList s l) :
    ∀ (rest pre : List Nat) (fuel prev next : Nat), l = pre ++ rest → stream ∉ pre →
      IsSeg s.fs_next next rest 0 → prev = pre.getLastD 0 → rest.length < fuel →
      ∃ s', fclose_loop stream fuel prev next s = some s' ∧
        IsStreamList s' (l.erase stream) ∧ (stream ∉ l → s' = s)
  | [], pre, fuel, prev, next, hlp, hsp, hseg, _, hf => by
    obtain ⟨f, rfl⟩ : ∃ f, fuel = f + 1 := ⟨fuel - 1, by simp at hf; omega⟩
    have hn : next = 0 := hseg
    unfold fclose_loop
    rw [if_pos hn]
    have hnot : stream ∉ l := by
      rw [hlp]
      simpa using hsp
    refine ⟨s, rfl, ?_, fun _ => rfl⟩
    rw [List.erase_of_not_mem hnot]
    exact hl
  | x :: xs, pre, fuel, prev, next, hlp, hsp, hseg, hprev, hf => by
    obtain ⟨f, rfl⟩ : ∃ f, fuel = f + 1 := ⟨fuel - 1, by simp at hf; omega⟩
    have hnx : next = x := hseg.1
    subst hnx
    by_cases hx : next = stream
    · subst hx
      subst hlp
      obtain ⟨s', h1, h2⟩ := fclose_loop_found next s pre xs f prev hl hprev
      refine ⟨s', h1, ?_, fun h => absurd (by simp) h⟩
      rw [List.erase_append_right _ hsp, List.erase_cons_head]
      exact h2
    · unfold fclose_loop
      rw [if_neg hseg.2.1, if_neg hx]
      refine fclose_loop_spec stream s l hl xs (pre ++ [next]) f next (s.fs_next next)
        (by rw [hlp]; simp) ?_ hseg.2.2 (by simp) (by simp at hf; omega)
      intro h
      rcases List.mem_append.mp h with h | h
      · exact hsp h
      · exact hx (List.mem_singleton.mp h).symm

/-- C30: `fclose` on a non-null, non-builtin stream, the stream list holding the streams
`l` (linked from `sl_head` to `NULL`, `sl_tail` the last one): the loop ends within
`l.length + 1` iterations, and afterwards the list holds exactly the elements of `l` other
than the stream, in their original order; `sl_head` is the first remaining element and
`sl_tail` the last remaining one (both `NULL` when the list has become empty); if the stream
is not in the list, the state (head, tail and all links) is unchanged. -/
theorem fclose_removes_stream (b : Builtin) (s : StdioState) (l : List Nat)
    (stream fuel : Nat) (hs : stream ≠ 0)
    (hb : stream ≠ b.stdin ∧ stream ≠ b.stdout ∧ stream ≠ b.stderr)
    (hl : IsStreamList s l) (hf : l.length < fuel) :
    ∃ s', fclose b fuel stream s = some s' ∧
      IsStreamList s' (l.filter (· != stream)) ∧
      s'.slist.sl_head = (l.filter (· != stream)).headD 0 ∧
      s'.slist.sl_tail = (l.filter (· != stream)).getLastD 0 ∧
      (stream ∉ l → s' = s) := by
  have hbn : ¬ (stream = b.stdin ∨ stream = b.stdout ∨ stream = b.stderr) := by
    rintro (h | h | h)
    · exact hb.1 h
    · exact hb.2.1 h
    · exact hb.2.2 h
  obtain ⟨s', h1, h2, h3⟩ := fclose_loop_spec stream s l hl l [] fuel 0 s.slist.sl_head rfl
    (List.not_mem_nil _) hl.1 rfl hf
  rw [(IsSeg_nodup _ _ _ hl.1).erase_eq_filter] at h2
  refine ⟨s', ?_, h2, IsSeg_head _ _ _ h2.1, h2.2, h3⟩
  unfold fclose
  rw [if_pos hs, if_neg hbn]
  exact h1

/-- Witness for C30: closing the middle stream of a list of three. -/
theorem fclose_removes_stream_witness :
    IsStreamList threeStreams [0x100, 0x200, 0x300] ∧
    ∃ s', fclose (Builtin.mk 0x10 0x20 0x30) 4 0x200 threeStreams = some s' ∧
      IsStreamList s' [0x100, 0x300] ∧ s'.slist.sl_head = 0x100 ∧ s'.slist.sl_tail = 0x300 := by
  have hl : IsStreamList threeStreams [0x100, 0x200, 0x300] := by decide
  obtain ⟨s', h1, h2, h3, h4, _⟩ := fclose_removes_stream (Builtin.mk 0x10 0x20 0x30)
    threeStreams [0x100, 0x200, 0x300] 0x200 4 (by decide) (by decide) hl (by decide)
  exact ⟨hl, s', h1, h2, h3, h4⟩

end LibFclose
